import Mathlib

/-!
# TeensyLogicAnalyzer instruction decoder: a shallow embedding

This file embeds the incremental instruction-decoder subsystem of the
TeensyLogicAnalyzer repository (`insn_decode.h/.c`, `insn_6502.c`,
`insn_6800.c`, `insn_6809.c`, `insn_z80.c`) into Lean and proves the
specification claims about it.

Modelling conventions:
* machine integers are `Nat` (with `% 2 ^ 32` / `% 256` where the C types
  `uint32_t` / `uint8_t` truncate) and `Int` for signed quantities;
* the fixed `char insn_string[28]` buffer is modelled as a `List Char`
  holding the NUL-terminated contents; the C code's reads of stale bytes
  beyond the terminating NUL (possible after the Z80 whitespace collapse)
  are modelled as reading end-of-string, which matches the reachable
  behaviour because formatted output never leaves operand markers in the
  stale region;
* the fixed `uint8_t bytes[8]` buffer is a `List Nat` of length 8;
* C functions that mutate `struct insn_decode *` become functions
  `insn_decode → insn_decode` (paired with their `bool` result where the
  C function returns one);
* `sprintf` format directives are modelled by explicit rendering
  functions (`hexPad` for `%0NX`, `decSInt` for `%d`, `padTake` for
  `%-Nd` followed by a 4-byte `memcpy`, etc.).
-/

set_option linter.unusedVariables false
set_option linter.unusedTactic false

/-! ## Rendering helpers (sprintf-style) -/

/-- Uppercase hexadecimal digit, as produced by C `%X`. -/
def hexChar (n : Nat) : Char :=
  if n < 10 then Char.ofNat (48 + n) else Char.ofNat (55 + n)

/-- Hex digits of `n`, most significant first; fuelled so that it is
structural (8 digits suffice for any `uint32_t` value). -/
def natHexAux : Nat → Nat → List Char
  | 0, _ => []
  | fuel + 1, n =>
    if n < 16 then [hexChar n] else natHexAux fuel (n / 16) ++ [hexChar (n % 16)]

/-- Minimal uppercase hex representation of a value `< 2^32`. -/
def natHex (n : Nat) : List Char := natHexAux 8 n

/-- C `%0wX`: hex digits of `n`, left-padded with `0` to width `w`. -/
def hexPad (w n : Nat) : List Char :=
  List.replicate (w - (natHex n).length) '0' ++ natHex n

/-- Decimal digits of `n`, most significant first (fuelled, structural). -/
def natDecAux : Nat → Nat → List Char
  | 0, _ => []
  | fuel + 1, n =>
    if n < 10 then [Char.ofNat (48 + n)]
    else natDecAux fuel (n / 10) ++ [Char.ofNat (48 + n % 10)]

/-- Decimal representation of a value `< 10^10`. -/
def natDec (n : Nat) : List Char := natDecAux 10 n

/-- C `%d` of a signed value. -/
def decSInt (z : Int) : List Char :=
  if z < 0 then '-' :: natDec z.natAbs else natDec z.toNat

/-- C `sprintf(op, "%-wd", v)` followed by `memcpy(cp, op, w)`: the first
`w` characters of the left-justified rendering. -/
def padTake (w : Nat) (l : List Char) : List Char :=
  (l ++ List.replicate w ' ').take w

/-- Index of the first occurrence of `pat` in `s` (C `strstr`). -/
def strstrIdx (pat : List Char) : List Char → Option Nat
  | [] => if pat = [] then some 0 else none
  | c :: rest =>
    if pat.isPrefixOf (c :: rest) then some 0
    else (strstrIdx pat rest).map (· + 1)

/-- Overwrite the characters of `s` at positions `p, …, p + r.length - 1`
with `r` (C `memcpy` into the middle of a string buffer). -/
def overwrite (s : List Char) (p : Nat) (r : List Char) : List Char :=
  s.take p ++ r ++ s.drop (p + r.length)

/-- Sign extension of a `uint8_t` value read as `int8_t`. -/
def sext8 (b : Nat) : Int := if b < 128 then (b : Int) else (b : Int) - 256

/-- Truncation of a signed value to `int8_t` (C assignment to `int8_t`). -/
def wrapS8 (z : Int) : Int := (z + 128) % 256 - 128

/-- Truncation of a signed value to `uint32_t` (C assignment). -/
def u32ofInt (z : Int) : Nat := (z % (4294967296 : Int)).toNat

/-! ### Length facts about the rendering helpers -/

theorem natHexAux_length_le (fuel n k : Nat) (hk : 1 ≤ k) (hfuel : k ≤ fuel)
    (h : n < 16 ^ k) : (natHexAux fuel n).length ≤ k := by
  induction fuel generalizing n k with
  | zero => omega
  | succ fuel ih =>
    simp only [natHexAux]
    split
    · simpa using hk
    · rename_i hn
      match k, hk with
      | 1, _ => omega
      | k + 2, _ =>
        have h2 : n / 16 < 16 ^ (k + 1) := by
          have : 16 * (16 ^ (k + 1)) = 16 ^ (k + 2) := by ring
          omega
        have := ih (n / 16) (k + 1) (by omega) (by omega) h2
        simp only [List.length_append, List.length_cons, List.length_nil]
        omega

theorem natHexAux_length_pos (fuel n : Nat) (h : 1 ≤ fuel) :
    1 ≤ (natHexAux fuel n).length := by
  match fuel, h with
  | fuel + 1, _ =>
    simp only [natHexAux]
    split <;> simp

theorem natHex_length_le {n k : Nat} (hk : 1 ≤ k) (hk8 : k ≤ 8)
    (h : n < 16 ^ k) : (natHex n).length ≤ k :=
  natHexAux_length_le 8 n k hk hk8 h

theorem natHex_length_le_8 {n : Nat} (h : n < 4294967296) :
    (natHex n).length ≤ 8 :=
  natHex_length_le (by omega) (by omega) (by norm_num; omega)

theorem hexPad_length_le (w n e : Nat) (hw : w ≤ e) (he : (natHex n).length ≤ e) :
    (hexPad w n).length ≤ e := by
  simp only [hexPad, List.length_append, List.length_replicate]
  omega

theorem hexPad_length_eq (w n : Nat) (h : (natHex n).length ≤ w) :
    (hexPad w n).length = w := by
  simp only [hexPad, List.length_append, List.length_replicate]
  omega

theorem hexPad_2_length {n : Nat} (h : n < 256) : (hexPad 2 n).length = 2 :=
  hexPad_length_eq 2 n (natHex_length_le (by omega) (by omega) (by omega))

theorem hexPad_4_length {n : Nat} (h : n < 65536) : (hexPad 4 n).length = 4 :=
  hexPad_length_eq 4 n (natHex_length_le (by omega) (by omega) (by omega))

theorem hexPad_4_length_le_8 {n : Nat} (h : n < 4294967296) :
    (hexPad 4 n).length ≤ 8 :=
  hexPad_length_le 4 n 8 (by omega) (natHex_length_le_8 h)

theorem natDecAux_length_le (fuel n k : Nat) (hk : 1 ≤ k) (hfuel : k ≤ fuel)
    (h : n < 10 ^ k) : (natDecAux fuel n).length ≤ k := by
  induction fuel generalizing n k with
  | zero => omega
  | succ fuel ih =>
    simp only [natDecAux]
    split
    · simpa using hk
    · rename_i hn
      match k, hk with
      | 1, _ => omega
      | k + 2, _ =>
        have h2 : n / 10 < 10 ^ (k + 1) := by
          have : 10 * (10 ^ (k + 1)) = 10 ^ (k + 2) := by ring
          omega
        have := ih (n / 10) (k + 1) (by omega) (by omega) h2
        simp only [List.length_append, List.length_cons, List.length_nil]
        omega

theorem natDec_length_le {n k : Nat} (hk : 1 ≤ k) (hk10 : k ≤ 10)
    (h : n < 10 ^ k) : (natDec n).length ≤ k :=
  natDecAux_length_le 10 n k hk hk10 h

theorem decSInt_length_le {z : Int} {k : Nat} (hk : 1 ≤ k) (hk10 : k ≤ 10)
    (h : z.natAbs < 10 ^ k) : (decSInt z).length ≤ k + 1 := by
  simp only [decSInt]
  split
  · have : (natDec z.natAbs).length ≤ k := natDec_length_le hk hk10 h
    simp only [List.length_cons]
    omega
  · have hz : z.toNat = z.natAbs := by omega
    have : (natDec z.toNat).length ≤ k := by rw [hz]; exact natDec_length_le hk hk10 h
    omega

theorem decSInt_length_le_6 {z : Int} (h : z.natAbs ≤ 65535) :
    (decSInt z).length ≤ 6 := by
  have := decSInt_length_le (z := z) (k := 5) (by omega) (by omega) (by omega)
  omega

theorem padTake_length (w : Nat) (l : List Char) : (padTake w l).length = w := by
  simp only [padTake, List.length_take, List.length_append, List.length_replicate]
  omega

theorem strstrIdx_le (pat s : List Char) {p : Nat}
    (h : strstrIdx pat s = some p) : p + pat.length ≤ s.length := by
  induction s generalizing p with
  | nil =>
    simp only [strstrIdx] at h
    split at h
    · rename_i hp
      cases h
      simp [hp]
    · cases h
  | cons c rest ih =>
    simp only [strstrIdx] at h
    split at h
    · rename_i hpre
      cases h
      have := List.IsPrefix.length_le (List.isPrefixOf_iff_prefix.mp hpre)
      simpa using this
    · match hrec : strstrIdx pat rest with
      | none => rw [hrec] at h; cases h
      | some q =>
        rw [hrec] at h
        cases h
        have := ih hrec
        simp only [List.length_cons]
        omega

theorem overwrite_length (s : List Char) (p : Nat) (r : List Char)
    (h : p + r.length ≤ s.length) : (overwrite s p r).length = s.length := by
  simp only [overwrite, List.length_append, List.length_take, List.length_drop]
  omega

theorem overwrite_length_le (s : List Char) (p : Nat) (r : List Char) :
    (overwrite s p r).length ≤ max s.length (p + r.length) := by
  simp only [overwrite, List.length_append, List.length_take, List.length_drop]
  omega

/-! ## Data model (`insn_decode.h`, `tla.h`) -/

/-- CPU type selector (`cpu_t` in `tla.h`). -/
inductive cpu_t where
  | cpu_none | cpu_6502 | cpu_65c02 | cpu_6800 | cpu_6809 | cpu_6809e | cpu_z80
deriving DecidableEq, Repr

open cpu_t

/-- Decode-session state machine states (`decode_state_t`). -/
inductive decode_state_t where
  | ds_idle | ds_fetching | ds_complete
deriving DecidableEq, Repr

open decode_state_t

/-- Addressing modes are C enum values (`addrmode_t`); we keep them as `Int`
because the source does arithmetic and range comparisons on them. -/
abbrev addrmode_t := Int

def am_invalid : addrmode_t := -1
def am6809_first : addrmode_t := 0
def am6809_inherent : addrmode_t := 0
def am6809_direct : addrmode_t := 1
def am6809_extended : addrmode_t := 2
def am6809_rel8 : addrmode_t := 3
def am6809_rel16 : addrmode_t := 4
def am6809_imm8 : addrmode_t := 5
def am6809_imm16 : addrmode_t := 6
def am6809_zero_off : addrmode_t := 7
def am6809_zero_off_ind : addrmode_t := 8
def am6809_const_off5 : addrmode_t := 9
def am6809_const_off8 : addrmode_t := 10
def am6809_const_off8_ind : addrmode_t := 11
def am6809_const_off16 : addrmode_t := 12
def am6809_const_off16_ind : addrmode_t := 13
def am6809_acc_off : addrmode_t := 14
def am6809_acc_off_ind : addrmode_t := 15
def am6809_post_inc1 : addrmode_t := 16
def am6809_post_inc2 : addrmode_t := 17
def am6809_post_inc2_ind : addrmode_t := 18
def am6809_pre_dec1 : addrmode_t := 19
def am6809_pre_dec2 : addrmode_t := 20
def am6809_pre_dec2_ind : addrmode_t := 21
def am6809_pcrel8 : addrmode_t := 22
def am6809_pcrel8_ind : addrmode_t := 23
def am6809_pcrel16 : addrmode_t := 24
def am6809_pcrel16_ind : addrmode_t := 25
def am6809_extended_ind : addrmode_t := 26
def am6809_exg_tfr : addrmode_t := 27
def am6809_psh_pul : addrmode_t := 28
def am6809_last : addrmode_t := 28
def am6502_first : addrmode_t := 29
def am6502_implied : addrmode_t := 29
def am6502_u8 : addrmode_t := 30
def am6502_u16 : addrmode_t := 31
def am6502_rel8 : addrmode_t := 32
def am6502_last : addrmode_t := 32
def am6800_first : addrmode_t := 33
def am6800_inherent : addrmode_t := 33
def am6800_rel : addrmode_t := 34
def am6800_indexed : addrmode_t := 35
def am6800_imm8 : addrmode_t := 36
def am6800_imm16 : addrmode_t := 37
def am6800_direct : addrmode_t := 38
def am6800_extended : addrmode_t := 39
def am6800_last : addrmode_t := 39
def amz80_first : addrmode_t := 40
def amz80_implied : addrmode_t := 40
def amz80_u8 : addrmode_t := 41
def amz80_u16 : addrmode_t := 42
def amz80_disp8 : addrmode_t := 43
def amz80_pcrel8 : addrmode_t := 44
def amz80_last : addrmode_t := 44

/-- The `am6809_indirect_p` macro. -/
def am6809_indirect_p (am : addrmode_t) : Bool :=
  am = am6809_zero_off_ind || am = am6809_const_off8_ind ||
  am = am6809_const_off16_ind || am = am6809_acc_off_ind ||
  am = am6809_post_inc2_ind || am = am6809_pre_dec2_ind ||
  am = am6809_pcrel8_ind || am = am6809_pcrel16_ind ||
  am = am6809_extended_ind

/-- `INSN_DECODE_MAXBYTES` -/
def INSN_DECODE_MAXBYTES : Nat := 8
/-- `INSN_DECODE_MAXSTRING` -/
def INSN_DECODE_MAXSTRING : Nat := 28

/-- `struct insn_decode`.  The `next_state` function pointer is modelled by
the `cpu_t` it was initialised from (`none` = `NULL`); `bytes` is the
8-entry `uint8_t` buffer; `insn_string` holds the NUL-terminated contents of
the 28-byte output buffer. -/
structure insn_decode where
  state : decode_state_t
  insn_address : Nat
  resolved_address : Nat
  resolved_address_valid : Bool
  next_state : Option cpu_t
  bytes_required : Nat
  bytes_fetched : Nat
  addrmode : addrmode_t
  bytes : List Nat
  insn_string : List Char
deriving DecidableEq, Repr

/-- `read_u16le` from `insn_decode.h`. -/
def read_u16le (buf : List Nat) (i : Nat) : Nat :=
  buf.getD i 0 + 256 * buf.getD (i + 1) 0

/-- `read_u16be` from `insn_decode.h`. -/
def read_u16be (buf : List Nat) (i : Nat) : Nat :=
  256 * buf.getD i 0 + buf.getD (i + 1) 0

/-- `read_s16be`: big-endian read then `int16_t` cast. -/
def read_s16be (buf : List Nat) (i : Nat) : Int :=
  let u := read_u16be buf i
  if u < 32768 then (u : Int) else (u : Int) - 65536

/-- `read_s16le`: little-endian read then `int16_t` cast. -/
def read_s16le (buf : List Nat) (i : Nat) : Int :=
  let u := read_u16le buf i
  if u < 32768 then (u : Int) else (u : Int) - 65536

/-! ## Opcode tables (transcribed from the C sources) -/

def table_dflt : String := "?"

def opcodes_65c02 : List String := [
  "BRK", "ORA ($nn,X)", "?", "?", "TSB $nn", "ORA $nn", "ASL $nn", "RMB0 $nn",
  "PHP", "ORA #$nn", "ASLA", "?", "TSB $nnnn", "ORA $nnnn", "ASL $nnnn", "BBR0 $nn",
  "BPL rrrr", "ORA ($nn),Y", "ORA ($nn)", "?", "TRB $nn", "ORA $nn,X", "ASL $nn,X", "RMB1 $nn",
  "CLC", "ORA $nnnn,Y", "INCA", "?", "TRB $nnnn", "ORA $nnnn,X", "ASL $nnnn,X", "BBR1 $nn",
  "JSR $nnnn", "AND ($nn,X)", "?", "?", "BIT $nn", "AND $nn", "ROL $nn", "RMB2 $nn",
  "PLP", "AND #$nn", "ROLA", "?", "BIT $nnnn", "AND $nnnn", "ROL $nnnn", "BBR2 $nn",
  "BMI rrrr", "AND ($nn),Y", "AND ($nn)", "?", "BIT $nn,X", "AND $nn,X", "ROL $nn,X", "RMB3 $nn",
  "SEC", "AND $nnnn,Y", "DECA", "?", "BIT $nn,X", "AND $nnnn,X", "ROL $nnnn,X", "BBR3 $nn",
  "RTI", "EOR ($nn,X)", "?", "?", "?", "EOR $nn", "LSR $nn", "RMB4 $nn",
  "PHA", "EOR #$nn", "LSRA", "?", "JMP $nnnn", "EOR $nnnn", "LSR $nnnn", "BBR4 $nn",
  "BVC rrrr", "EOR ($nn),Y", "EOR ($nn)", "?", "?", "EOR $nn,X", "LSR $nn,X", "RMB5 $nn",
  "CLI", "EOR $nnnn,Y", "PHY", "?", "?", "EOR $nnnn,X", "LSR $nnnn,X", "BBR5 $nn",
  "RTS", "ADC ($nn,X)", "?", "?", "STZ $nn", "ADC $nn", "ROR $nn", "RMB6 $nn",
  "PLA", "ADC #$nn", "RORA", "?", "JMP ($nnnn)", "ADC $nnnn", "ROR $nnnn", "BBR6 $nn",
  "BVS rrrr", "ADC ($nn),Y", "ADC ($nn)", "?", "STZ $nn,X", "ADC $nn,X", "ROR $nn,X", "RMB7 $nn",
  "SEI", "ADC $nnnn,Y", "PLY", "?", "JMP ($nn,X)", "ADC $nnnn,X", "ROR $nnnn,X", "BBR7 $nn",
  "BRA rrrr", "STA ($nn,X)", "?", "?", "STY $nn", "STA $nn", "STX $nn", "SMB0 $nn",
  "DEY", "BIT #$nn", "TXA", "?", "STY $nnnn", "STA $nnnn", "STX $nnnn", "BBS0 $nn",
  "BCC rrrr", "STA ($nn),Y", "STA ($nn)", "?", "STY $nn,X", "STA $nn,X", "STX ($nn),Y", "SMB1 $nn",
  "TYA", "STA $nnnn,Y", "TXS", "?", "STZ $nn", "STA $nnnn,X", "STZ $nn,X", "BBS1 $nn",
  "LDY #$nn", "LDA ($nn,X)", "LDX #$nn", "?", "LDY $nn", "LDA $nnnn", "LDX $nn", "SMB2 $nn",
  "TAY", "LDA #$nn", "TAX", "?", "LDY $nnnn", "LDA $nnnn", "LDX $nnnn", "BBS2 $nn",
  "BCS rrrr", "LDA ($nn),Y", "LDA ($nn)", "?", "LDY $nn,X", "LDA $nn,X", "LDX ($nn),Y", "SMB3 $nn",
  "CLV", "LDA $nnnn,Y", "TSX", "?", "LDY $nnnn,X", "LDA $nnnn,X", "LDX $nnnn,Y", "BBS3 $nn",
  "CPY #$nn", "CMP ($nn,X)", "?", "?", "CPY $nnnn", "CMP $nnnn", "DEC $nnnn", "SMB4 $nn",
  "INY", "CMP #$nn", "DEX", "WAI", "CPY $nn", "CMP $nn", "DEC $nn", "BBS4 $nn",
  "BNE rrrr", "CMP ($nn),Y", "CMP ($nn)", "?", "?", "CMP $nn,X", "DEC $nn,X", "SMB5 $nn",
  "CLD", "CMP $nnnn,Y", "PHX", "STP", "?", "CMP $nnnn,X", "DEC $nnnn,X", "BBS5 $nn",
  "CPX #$nn", "SBC ($nn,X)", "?", "?", "CPX $nn", "SBC $nn", "INC $nn", "SMB6 $nn",
  "INX", "SBC #$nn", "NOP", "?", "CPX $nnnn", "SBC $nnnn", "INC $nnnn", "BBS6 $nn",
  "BEQ rrrr", "SBC ($nn),Y", "SBC ($nn)", "?", "?", "SBC $nn,X", "INC $nn,X", "SMB7 $nn",
  "SED", "SBC $nnnn,Y", "PLX", "?", "?", "SBC $nnnn,X", "INC $nnnn,X", "BBS7 $nn"]

def opcodes_6502 : List String := [
  "BRK", "ORA ($nn,X)", "?", "?", "?", "ORA $nn", "ASL $nn", "?",
  "PHP", "ORA #$nn", "ASLA", "?", "?", "ORA $nnnn", "ASL $nnnn", "?",
  "BPL rrrr", "ORA ($nn),Y", "?", "?", "?", "ORA $nn,X", "ASL $nn,X", "?",
  "CLC", "ORA $nnnn,Y", "?", "?", "?", "ORA $nnnn,X", "ASL $nnnn,X", "?",
  "JSR $nnnn", "AND ($nn,X)", "?", "?", "BIT $nn", "AND $nn", "ROL $nn", "?",
  "PLP", "AND #$nn", "ROLA", "?", "BIT $nnnn", "AND $nnnn", "ROL $nnnn", "?",
  "BMI rrrr", "AND ($nn),Y", "?", "?", "?", "AND $nn,X", "ROL $nn,X", "?",
  "SEC", "AND $nnnn,Y", "?", "?", "?", "AND $nnnn,X", "ROL $nnnn,X", "?",
  "RTI", "EOR ($nn,X)", "?", "?", "?", "EOR nn", "LSR $nn", "?",
  "PHA", "EOR #$nn", "LSRA", "?", "JMP $nnnn", "EOR $nnnn", "LSR $nnnn", "?",
  "BVC rrrr", "EOR ($nn),Y", "?", "?", "?", "EOR $nn,X", "LSR $nn,X", "?",
  "CLI", "EOR $nnnn,Y", "?", "?", "?", "EOR $nnnn,X", "LSR $nnnn,X", "?",
  "RTS", "ADC ($nn,X)", "?", "?", "?", "ADC $nn", "ROR $nn", "?",
  "PLA", "ADC #$nn", "RORA", "?", "JMP ($nnnn)", "ADC $nnnn", "ROR $nnnn", "?",
  "BVS rrrr", "ADC ($nn),Y", "?", "?", "?", "ADC $nn,X", "ROR $nn,X", "?",
  "SEI", "ADC $nnnn,Y", "?", "?", "?", "ADC $nnnn,X", "ROR $nnnn,X", "?",
  "?", "STA ($nn,X)", "?", "?", "STY $nn", "STA $nn", "STX $nn", "?",
  "DEY", "?", "TXA", "?", "STY $nnnn", "STA $nnnn", "STX $nnnn", "?",
  "BCC rrrr", "STA ($nn),Y", "?", "?", "STY $nn,X", "STA $nn,X", "STX $nn,Y", "?",
  "TYA", "STA $nnnn,Y", "TXS", "?", "?", "STA $nnnn,X", "?", "?",
  "LDY #$nn", "LDA ($nn,X)", "LDX #$nn", "?", "LDY $nn", "LDA $nn", "LDX $nn", "?",
  "TAY", "LDA #$nn", "TAX", "?", "LDY $nnnn", "LDA $nnnn", "LDX $nnnn", "?",
  "BCS rrrr", "LDA ($nn),Y", "?", "?", "LDY $nn,X", "LDA $nn,X", "LDX $nn,Y", "?",
  "CLV", "LDA $nnnn,Y", "TSX", "?", "LDY $nnnn,X", "LDA $nnnn,X", "LDX $nnnn,Y", "?",
  "CPY #$nn", "CMP ($nn,X)", "?", "?", "CPY $nn", "CMP $nn", "DEC $nn", "?",
  "INY", "CMP #$nn", "DEX", "?", "CPY $nnnn", "CMP $nnnn", "DEC $nnnn", "?",
  "BNE rrrr", "CMP ($nn),Y", "?", "?", "?", "CMP $nn,X", "DEC $nn,X", "?",
  "CLD", "CMP $nnnn,Y", "?", "?", "?", "CMP $nnnn,X", "DEC $nnnn,X", "?",
  "CPX #$nn", "SBC ($nn,X)", "?", "?", "CPX $nn", "SBC $nn", "INC $nn", "?",
  "INX", "SBC #$nn", "NOP", "?", "CPX $nnnn", "SBC $nnnn", "INC $nnnn", "?",
  "BEQ rrrr", "SBC ($nn),Y", "?", "?", "?", "SBC $nn,X", "INC $nn,X", "?",
  "SED", "SBC $nnnn,Y", "?", "?", "?", "SBC $nnnn,X", "INC $nnnn,X", "?"]

def opcodes_6800 : List String := [
  "?", "NOP", "?", "?", "?", "?", "TAP", "TPA",
  "INX", "DEX", "CLV", "SEV", "CLC", "SEC", "CLI", "SEI",
  "SBA", "CBA", "?", "?", "?", "?", "TAB", "TBA",
  "?", "DAA", "?", "ABA", "?", "?", "?", "?",
  "BRA", "?", "BHI", "BLS", "BCC", "BCS", "BNE", "BEQ",
  "BVC", "BVS", "BPL", "BMI", "BGE", "BLT", "BGT", "BLE",
  "TSX", "INS", "PULA", "PULB", "DES", "TXS", "PSHA", "PSHB",
  "?", "RTS", "?", "RTI", "?", "?", "WAI", "SWI",
  "NEGA", "?", "?", "COMA", "LSRA", "?", "RORA", "ASRA",
  "ASLA", "ROLA", "DECA", "?", "INCA", "TSTA", "?", "CLRA",
  "NEGB", "?", "?", "COMB", "LSRB", "?", "RORB", "ASRB",
  "ASLB", "ROLB", "DECB", "?", "INCB", "TSTB", "?", "CLRB",
  "NEG", "?", "?", "COM", "LSR", "?", "ROR", "ASR",
  "ASL", "ROL", "DEC", "?", "INC", "TST", "JMP", "CLR",
  "NEG", "?", "?", "COM", "LSR", "?", "ROR", "ASR",
  "ASL", "ROL", "DEC", "?", "INC", "TST", "JMP", "CLR",
  "SUBA", "CMPA", "SBCA", "?", "ANDA", "BITA", "LDAA", "?",
  "EORA", "ADCA", "ORAA", "ADDA", "CPX", "BSR", "LDS", "?",
  "SUBA", "CMPA", "SBCA", "?", "ANDA", "BITA", "LDAA", "STAA",
  "EORA", "ADCA", "ORAA", "ADDA", "CPX", "?", "LDS", "STS",
  "SUBA", "CMPA", "SBCA", "?", "ANDA", "BITA", "LDAA", "STAA",
  "EORA", "ADCA", "ORAA", "ADDA", "CPX", "JSR", "LDS", "STS",
  "SUBA", "CMPA", "SBCA", "?", "ANDA", "BITA", "LDAA", "STAA",
  "EORA", "ADCA", "ORAA", "ADDA", "CPX", "JSR", "LDS", "STS",
  "SUBB", "CMPB", "SBCB", "?", "ANDB", "BITB", "LDAB", "?",
  "EORB", "ADCB", "ORAB", "ADDB", "?", "?", "LDX", "?",
  "SUBB", "CMPB", "SBCB", "?", "ANDB", "BITB", "LDAB", "STAB",
  "EORB", "ADCB", "ORAB", "ADDB", "?", "?", "LDX", "STX",
  "SUBB", "CMPB", "SBCB", "?", "ANDB", "BITB", "LDAB", "STAB",
  "EORB", "ADCB", "ORAB", "ADDB", "?", "?", "LDX", "STX",
  "SUBB", "CMPB", "SBCB", "?", "ANDB", "BITB", "LDAB", "STAB",
  "EORB", "ADCB", "ORAB", "ADDB", "?", "?", "LDX", "STX"]

def opcodes_6809 : List String := [
  "NEG", "?", "?", "COM", "LSR", "?", "ROR", "ASR",
  "ASL", "ROL", "DEC", "?", "INC", "TST", "JMP", "CLR",
  "(pg2)", "(pg3)", "NOP", "SYNC", "?", "?", "LBRA", "LBSR",
  "?", "DAA", "ORCC", "?", "ANDCC", "SEX", "EXG", "TFR",
  "BRA", "BRN", "BHI", "BLS", "BCC", "BCS", "BNE", "BEQ",
  "BVC", "BVS", "BPL", "BMI", "BGE", "BLT", "BGT", "BLE",
  "LEAX", "LEAY", "LEAS", "LEAU", "PSHS", "PULS", "PSHU", "PULU",
  "?", "RTS", "ABX", "RTI", "CWAI", "MUL", "?", "SWI",
  "NEGA", "?", "?", "COMA", "LSRA", "?", "RORA", "ASRA",
  "ASLA", "ROLA", "DECA", "?", "INCA", "TSTA", "?", "CLRA",
  "NEGB", "?", "?", "COMB", "LSRB", "?", "RORB", "ASRB",
  "ASLB", "ROLB", "DECB", "?", "INCB", "TSTB", "?", "CLRB",
  "NEG", "?", "?", "COM", "LSR", "?", "ROR", "ASR",
  "ASL", "ROL", "DEC", "?", "INC", "TST", "JMP", "CLR",
  "NEG", "?", "?", "COM", "LSR", "?", "ROR", "ASR",
  "ASL", "ROL", "DEC", "?", "INC", "TST", "JMP", "CLR",
  "SUBA", "CMPA", "SBCA", "SUBD", "ANDA", "BITA", "LDA", "?",
  "EORA", "ADCA", "ORA", "ADDA", "CMPX", "BSR", "LDX", "?",
  "SUBA", "CMPA", "SBCA", "SUBD", "ANDA", "BITA", "LDA", "STA",
  "EORA", "ADCA", "ORA", "ADDA", "CMPX", "JSR", "LDX", "STX",
  "SUBA", "CMPA", "SBCA", "SUBD", "ANDA", "BITA", "LDA", "STA",
  "EORA", "ADCA", "ORA", "ADDA", "CMPX", "JSR", "LDX", "STX",
  "SUBA", "CMPA", "SBCA", "SUBD", "ANDA", "BITA", "LDA", "STA",
  "EORA", "ADCA", "ORA", "ADDA", "CMPX", "JSR", "LDX", "STX",
  "SUBB", "CMPB", "SBCB", "ADDD", "ANDB", "BITB", "LDB", "?",
  "EORB", "ADCB", "ORB", "ADDB", "LDD", "?", "LDU", "?",
  "SUBB", "CMPB", "SBCB", "ADDD", "ANDB", "BITB", "LDB", "STB",
  "EORB", "ADCB", "ORB", "ADDB", "LDD", "STD", "LDU", "STU",
  "SUBB", "CMPB", "SBCB", "ADDD", "ANDB", "BITB", "LDB", "STB",
  "EORB", "ADCB", "ORB", "ADDB", "LDD", "STD", "LDU", "STU",
  "SUBB", "CMPB", "SBCB", "ADDD", "ANDB", "BITB", "LDB", "STB",
  "EORB", "ADCB", "ORB", "ADDB", "LDD", "STD", "LDU", "STU"]

def opcodes_long_cond_branches_6809 : List String := [
  "?", "LBRN", "LBHI", "LBLS", "LBCC", "LBCS", "LBNE", "LBEQ",
  "LBVC", "LBVS", "LBPL", "LBMI", "LBGE", "LBLT", "LBGT", "LBLE"]

def opcodes_z80 : List String := [
  "NOP", "LD BC,XXXXh", "LD (BC),A", "INC BC", "INC B", "DEC B", "LD B,XXh", "RLCA",
  "EX AF,AF\x27", "ADD HL,BC", "LD A,(BC)", "DEC BC", "INC C", "DEC C", "LD C,XXh", "RRCA",
  "DJNZ rrrr", "LD DE,XXXXh", "LD (DE),A", "INC DE", "INC D", "DEC D", "LD D,XXh", "RLA",
  "JR rrrr", "ADD HL,DE", "LD A,(DE)", "DEC DE", "INC E", "DEC E", "LD E,XXh", "RRA",
  "JR NZ,rrrr", "LD HL,XXXXh", "LD (XXXXh),HL", "INC HL", "INC H", "DEC H", "LD H,XXh", "DAA",
  "JR Z,rrrr", "ADD HL,HL", "LD HL,(XXXXh)", "DEC HL", "INC L", "DEC L", "LD L,XXh", "CPL",
  "JR NC,rrrr", "LD SP,XXXXh", "LD (XXXXh),A", "INC SP", "INC (HL)", "DEC (HL)", "LD (HL),XXh", "SCF",
  "JR C,rrrr", "ADD HL,SP", "LD A,(XXXXh)", "DEC SP", "INC A", "DEC A", "LD A,XXh", "CCF",
  "LD B,B", "LD B,C", "LD B,D", "LD B,E", "LD B,H", "LD B,L", "LD B,(HL)", "LD B,A",
  "LD C,B", "LD C,C", "LD C,D", "LD C,E", "LD C,H", "LD C,L", "LD C,(HL)", "LD C,A",
  "LD D,B", "LD D,C", "LD D,D", "LD D,E", "LD D,H", "LD D,L", "LD D,(HL)", "LD D,A",
  "LD E,B", "LD E,C", "LD E,D", "LD E,E", "LD E,H", "LD E,L", "LD E,(HL)", "LD E,A",
  "LD H,B", "LD H,C", "LD H,D", "LD H,E", "LD H,H", "LD H,L", "LD H,(HL)", "LD H,A",
  "LD L,B", "LD L,C", "LD L,D", "LD L,E", "LD L,H", "LD L,L", "LD L,(HL)", "LD L,A",
  "LD (HL),B", "LD (HL),C", "LD (HL),D", "LD (HL),E", "LD (HL),H", "LD (HL),L", "HALT", "LD (HL),A",
  "LD A,B", "LD A,C", "LD A,D", "LD A,E", "LD A,H", "LD A,L", "LD A,(HL)", "LD A,A",
  "ADD B", "ADD C", "ADD D", "ADD E", "ADD H", "ADD L", "ADD (HL)", "ADD A",
  "ADC B", "ADC C", "ADC D", "ADC E", "ADC H", "ADC L", "ADC (HL)", "ADC A",
  "SUB B", "SUB C", "SUB D", "SUB E", "SUB H", "SUB L", "SUB (HL)", "SUB A",
  "SBC B", "SBC C", "SBC D", "SBC E", "SBC H", "SBC L", "SBC (HL)", "SBC A",
  "AND B", "AND C", "AND D", "AND E", "AND H", "AND L", "AND (HL)", "AND A",
  "XOR B", "XOR C", "XOR D", "XOR E", "XOR H", "XOR L", "XOR (HL)", "XOR A",
  "OR B", "OR C", "OR D", "OR E", "OR H", "OR L", "OR (HL)", "OR A",
  "CP B", "CP C", "CP D", "CP E", "CP H", "CP L", "CP (HL)", "CP A",
  "RET NZ", "POP BC", "JP NZ,XXXXh", "JP XXXXh", "CALL NZ,XXXXh", "PUSH BC", "ADD XXh", "RST 00h",
  "RET Z", "RET", "JP Z,XXXXh", "extCB", "CALL Z,XXXXh", "CALL XXXXh", "ADC XXh", "RST 08h",
  "RET NC", "POP DE", "JP NC,XXXXh", "OUT (XXh),A", "CALL NC,XXXXh", "PUSH DE", "SUB XXh", "RST 10h",
  "RET C", "EXX", "JP C,XXXXh", "IN A,(XXh)", "CALL C,XXXXh", "extDD", "SBC XXh", "RST 18h",
  "RET PO", "POP HL", "JP PO,XXXXh", "EX (SP),HL", "CALL PO,XXXXh", "PUSH HL", "AND XXh", "RST 20h",
  "RET PE", "JP (HL)", "JP PE,XXXXh", "EX DE,HL", "CALL PE,XXXXh", "extED", "XOR XXh", "RST 28h",
  "RET P", "POP AF", "JP P,XXXXh", "DI", "CALL P,XXXXh", "PUSH AF", "OR XXh", "RST 30h",
  "RET M", "LD SP,HL", "JP M,XXXXh", "EI", "CALL M,XXXXh", "extFD", "CP XXh", "RST 38h"]

def opcodes_CB : List String := [
  "RLC ", "RRC ", "RL ", "RR ", "SLA ", "SRA ", "? ", "SRL ",
  "BIT 0,", "BIT 1,", "BIT 2,", "BIT 3,", "BIT 4,", "BIT 5,", "BIT 6,", "BIT 7,",
  "RES 0,", "RES 1,", "RES 2,", "RES 3,", "RES 4,", "RES 5,", "RES 6,", "RES 7,",
  "SET 0,", "SET 1,", "SET 2,", "SET 3,", "SET 4,", "SET 5,", "SET 6,", "SET 7,"]

/-- `insn_postbytes_6809`, indexed by `am - am6809_first`. -/
def insn_postbytes_6809 : List Nat :=
  [0, 1, 2, 1, 2, 1, 2, 1, 1, 1, 2, 2, 3, 3, 1, 1, 1, 1, 1, 1, 1, 1, 2, 2, 3, 3, 3, 1, 1]

/-- `ld_regs` (Z80), entry 6 is special ("(HL)"). -/
def ld_regs : List String := ["B", "C", "D", "E", "H", "L", "(HL)", "A"]

/-- `io_regs` (Z80). -/
def io_regs : List String := ["B", "C", "D", "E", "H", "L", "?", "A"]

/-- `ld_regs16` (Z80). -/
def ld_regs16 : List String := ["BC", "DE", "HL", "SP"]

/-! ## 6502 / 65C02 decoder (`insn_6502.c`) -/

/-- Table selection in `insn_6502.c` (reads the global `cpu`). -/
def opcodes_6502_for (c : cpu_t) : List String :=
  if c = cpu_65c02 then opcodes_65c02 else opcodes_6502

/-- Core of `insn_decode_format_6502`: the new `(insn_string,
resolved_address, resolved_address_valid)` triple. -/
def insn_decode_format_6502_core (c : cpu_t) (id : insn_decode) :
    List Char × Nat × Bool :=
  let t : List Char := ((opcodes_6502_for c).getD (id.bytes.getD 0 0) table_dflt).toList
  if id.addrmode = am6502_u8 then
    match strstrIdx "nn".toList t with
    | some p => (overwrite t p (hexPad 2 (id.bytes.getD 1 0)),
                 id.resolved_address, id.resolved_address_valid)
    | none => (t, id.resolved_address, id.resolved_address_valid)
  else if id.addrmode = am6502_u16 then
    match strstrIdx "nnnn".toList t with
    | some p => (overwrite t p (hexPad 4 (read_u16le id.bytes 1)),
                 id.resolved_address, id.resolved_address_valid)
    | none => (t, id.resolved_address, id.resolved_address_valid)
  else if id.addrmode = am6502_rel8 then
    let val : Int := sext8 (id.bytes.getD 1 0)
    match strstrIdx "rrrr".toList t with
    | some p =>
      (overwrite t p (padTake 4 (decSInt val)),
       u32ofInt ((id.insn_address : Int) + id.bytes_required + val), true)
    | none => (t, id.resolved_address, id.resolved_address_valid)
  else
    (t, id.resolved_address, id.resolved_address_valid)

/-- `insn_decode_format_6502`. -/
def insn_decode_format_6502 (c : cpu_t) (id : insn_decode) : insn_decode :=
  let r := insn_decode_format_6502_core c id
  { id with insn_string := r.1, resolved_address := r.2.1,
            resolved_address_valid := r.2.2 }

/-- `insn_decode_next_state_6502`. -/
def insn_decode_next_state_6502 (c : cpu_t) (id : insn_decode) : insn_decode :=
  if ¬(id.state = ds_fetching) ∨ id.bytes_fetched = 0 then id
  else
    let id1 :=
      if id.bytes_required = 0 then
        let t : List Char := ((opcodes_6502_for c).getD (id.bytes.getD 0 0) table_dflt).toList
        if (strstrIdx "nnnn".toList t).isSome then
          { id with addrmode := am6502_u16, bytes_required := 3 }
        else if (strstrIdx "nn".toList t).isSome then
          { id with addrmode := am6502_u8, bytes_required := 2 }
        else if (strstrIdx "rrrr".toList t).isSome then
          { id with addrmode := am6502_rel8, bytes_required := 2 }
        else
          { id with addrmode := am6502_implied, bytes_required := 1 }
      else id
    if id1.bytes_fetched = id1.bytes_required then
      { insn_decode_format_6502 c id1 with state := ds_complete }
    else id1

/-! ## 6800 decoder (`insn_6800.c`) -/

/-- `insn_decode_addrmode_6800`. -/
def insn_decode_addrmode_6800 (id : insn_decode) : addrmode_t :=
  if id.bytes_fetched = 0 then am_invalid
  else
    let opc := id.bytes.getD 0 0
    if opc ≤ 0x1f ∨ (0x30 ≤ opc ∧ opc ≤ 0x5f) then am6800_inherent
    else if 0x20 ≤ opc ∧ opc ≤ 0x2f then am6800_rel
    else if (0x60 ≤ opc ∧ opc ≤ 0x6f) ∨ (0xa0 ≤ opc ∧ opc ≤ 0xaf) ∨
            (0xe0 ≤ opc ∧ opc ≤ 0xef) then am6800_indexed
    else if (0x70 ≤ opc ∧ opc ≤ 0x7f) ∨ (0xb0 ≤ opc ∧ opc ≤ 0xbf) ∨
            (0xf0 ≤ opc ∧ opc ≤ 0xff) then am6800_extended
    else if (0x80 ≤ opc ∧ opc ≤ 0x8f) ∨ (0xc0 ≤ opc ∧ opc ≤ 0xcf) then
      if opc = 0x8d then am6800_rel
      else if opc = 0x8e ∨ opc = 0xce then am6800_imm16
      else am6800_imm8
    else if (0x90 ≤ opc ∧ opc ≤ 0x9f) ∨ (0xd0 ≤ opc ∧ opc ≤ 0xdf) then am6800_direct
    else am_invalid

/-- Core of `insn_decode_format_6800`: the new `(insn_string,
resolved_address, resolved_address_valid)` triple. -/
def insn_decode_format_6800_core (id : insn_decode) : List Char × Nat × Bool :=
  let opc : List Char := (opcodes_6800.getD (id.bytes.getD 0 0) table_dflt).toList
  if id.addrmode = am6800_inherent then
    (opc, id.resolved_address, id.resolved_address_valid)
  else if id.addrmode = am6800_rel then
    (opc ++ ' ' :: decSInt (sext8 (id.bytes.getD 1 0)),
     u32ofInt ((id.insn_address : Int) + 2 + sext8 (id.bytes.getD 1 0)), true)
  else if id.addrmode = am6800_indexed then
    (opc ++ ' ' :: (natDec (id.bytes.getD 1 0) ++ ",X".toList),
     id.resolved_address, id.resolved_address_valid)
  else if id.addrmode = am6800_extended then
    (opc ++ ' ' :: '$' :: hexPad 4 (read_u16be id.bytes 1),
     id.resolved_address, id.resolved_address_valid)
  else if id.addrmode = am6800_direct then
    (opc ++ ' ' :: '$' :: hexPad 2 (id.bytes.getD 1 0),
     id.resolved_address, id.resolved_address_valid)
  else if id.addrmode = am6800_imm8 then
    (opc ++ ' ' :: '#' :: '$' :: hexPad 2 (id.bytes.getD 1 0),
     id.resolved_address, id.resolved_address_valid)
  else if id.addrmode = am6800_imm16 then
    (opc ++ ' ' :: '#' :: '$' :: hexPad 4 (read_u16be id.bytes 1),
     id.resolved_address, id.resolved_address_valid)
  else
    ("<?ADDRMODE?>".toList, id.resolved_address, id.resolved_address_valid)

/-- `insn_decode_format_6800`. -/
def insn_decode_format_6800 (id : insn_decode) : insn_decode :=
  let r := insn_decode_format_6800_core id
  { id with insn_string := r.1, resolved_address := r.2.1,
            resolved_address_valid := r.2.2 }

/-- `insn_decode_next_state_6800`. -/
def insn_decode_next_state_6800 (id : insn_decode) : insn_decode :=
  if ¬(id.state = ds_fetching) ∨ id.bytes_fetched = 0 then id
  else
    let id1 :=
      if id.bytes_required = 0 then
        let am := insn_decode_addrmode_6800 id
        let idm := { id with addrmode := am }
        if am = am6800_inherent then { idm with bytes_required := 1 }
        else if am = am6800_rel ∨ am = am6800_indexed ∨ am = am6800_imm8 ∨
                am = am6800_direct then { idm with bytes_required := 2 }
        else if am = am6800_extended ∨ am = am6800_imm16 then
          { idm with bytes_required := 3 }
        else idm
      else id
    if id1.bytes_fetched = id1.bytes_required then
      { insn_decode_format_6800 id1 with state := ds_complete }
    else id1

/-! ## 6809 / 6809E decoder (`insn_6809.c`) -/

/-- `insn_decode_addrmode_indexed_6809`. -/
def insn_decode_addrmode_indexed_6809 (pb : Nat) : addrmode_t :=
  if pb &&& 0b10011111 = 0b10011111 then am6809_extended_ind
  else if pb &&& 0b10000000 = 0 then am6809_const_off5
  else
    let sel := pb &&& 0b10001111
    let am : addrmode_t :=
      if sel = 0b10000100 then am6809_zero_off
      else if sel = 0b10001000 then am6809_const_off8
      else if sel = 0b10001001 then am6809_const_off16
      else if sel = 0b10000110 ∨ sel = 0b10000101 ∨ sel = 0b10001011 then am6809_acc_off
      else if sel = 0b10000000 then am6809_post_inc1
      else if sel = 0b10000001 then am6809_post_inc2
      else if sel = 0b10000010 then am6809_pre_dec1
      else if sel = 0b10000011 then am6809_pre_dec2
      else if sel = 0b10001100 then am6809_pcrel8
      else if sel = 0b10001101 then am6809_pcrel16
      else am_invalid
    if am = am_invalid then am_invalid
    else if pb &&& 0b00010000 ≠ 0 then
      if am = am6809_post_inc1 ∨ am = am6809_pre_dec1 then am_invalid
      else am + 1
    else am

/-- The `indexed_need2` tail of `insn_decode_addrmode_6809` (reached by
`goto` from the `0x30–0x33` range and directly for `0x60–0x6f`,
`0xa0–0xaf`, `0xe0–0xef`). -/
def insn_decode_addrmode_6809_indexed2 (id : insn_decode) : addrmode_t :=
  if id.bytes_fetched < 2 then am_invalid
  else insn_decode_addrmode_indexed_6809 (id.bytes.getD 1 0)

/-- `insn_decode_addrmode_6809`. -/
def insn_decode_addrmode_6809 (id : insn_decode) : addrmode_t :=
  if id.bytes_fetched = 0 then am_invalid
  else
    let opc := id.bytes.getD 0 0
    if opc = 0x10 ∨ opc = 0x11 then
      if id.bytes_fetched < 2 then am_invalid
      else
        let extopc := opc * 256 + id.bytes.getD 1 0
        let hi := extopc &&& 0xfff0
        if hi = 0x1020 then am6809_rel16
        else if hi = 0x1030 ∨ hi = 0x1130 then am6809_inherent
        else if hi = 0x1080 ∨ hi = 0x1180 ∨ hi = 0x10c0 then am6809_imm16
        else if hi = 0x1090 ∨ hi = 0x1190 ∨ hi = 0x10d0 then am6809_direct
        else if hi = 0x10a0 ∨ hi = 0x11a0 ∨ hi = 0x10e0 then
          if id.bytes_fetched < 3 then am_invalid
          else insn_decode_addrmode_indexed_6809 (id.bytes.getD 2 0)
        else if hi = 0x10b0 ∨ hi = 0x11b0 ∨ hi = 0x10f0 then am6809_extended
        else am_invalid
    else if opc ≤ 0x0f ∨ (0x90 ≤ opc ∧ opc ≤ 0x9f) ∨ (0xd0 ≤ opc ∧ opc ≤ 0xdf) then
      am6809_direct
    else if 0x10 ≤ opc ∧ opc ≤ 0x1f then
      if opc = 0x12 ∨ opc = 0x13 ∨ opc = 0x19 ∨ opc = 0x1d then am6809_inherent
      else if opc = 0x16 ∨ opc = 0x17 then am6809_rel16
      else if opc = 0x1a ∨ opc = 0x1c then am6809_imm8
      else if opc = 0x1e ∨ opc = 0x1f then am6809_exg_tfr
      else am_invalid
    else if 0x20 ≤ opc ∧ opc ≤ 0x2f then am6809_rel8
    else if 0x30 ≤ opc ∧ opc ≤ 0x3f then
      if opc ≤ 0x33 then insn_decode_addrmode_6809_indexed2 id
      else if 0x34 ≤ opc ∧ opc ≤ 0x37 then am6809_psh_pul
      else if 0x39 ≤ opc ∧ opc ≤ 0x3f then am6809_inherent
      else am_invalid
    else if (0x40 ≤ opc ∧ opc ≤ 0x4f) ∨ (0x50 ≤ opc ∧ opc ≤ 0x5f) then am6809_inherent
    else if (0x60 ≤ opc ∧ opc ≤ 0x6f) ∨ (0xa0 ≤ opc ∧ opc ≤ 0xaf) ∨
            (0xe0 ≤ opc ∧ opc ≤ 0xef) then
      insn_decode_addrmode_6809_indexed2 id
    else if (0x70 ≤ opc ∧ opc ≤ 0x7f) ∨ (0xb0 ≤ opc ∧ opc ≤ 0xbf) ∨
            (0xf0 ≤ opc ∧ opc ≤ 0xff) then am6809_extended
    else if (0x80 ≤ opc ∧ opc ≤ 0x8f) ∨ (0xc0 ≤ opc ∧ opc ≤ 0xcf) then
      if opc = 0x8d then am6809_rel8
      else
        let lo := opc &&& 0xf
        if lo = 0x3 ∨ lo = 0xc ∨ lo = 0xe then am6809_imm16 else am6809_imm8
    else am_invalid

/-- `insn_decode_format_exg_tfr_regname_6809`. -/
def insn_decode_format_exg_tfr_regname_6809 (v : Nat) : String :=
  if v = 0b0000 then "D"
  else if v = 0b0001 then "X"
  else if v = 0b0010 then "Y"
  else if v = 0b0011 then "U"
  else if v = 0b0100 then "S"
  else if v = 0b0101 then "PC"
  else if v = 0b1000 then "A"
  else if v = 0b1001 then "B"
  else if v = 0b1010 then "CCR"
  else if v = 0b1011 then "DPR"
  else "?"

/-- The extended-opcode mnemonic lookup at the top of
`insn_decode_format_6809` (page-2/page-3 opcodes). -/
def opcode_ext_6809 (extopc : Nat) : String :=
  let extopc_u3 := extopc &&& 0xfff0
  let extopc_b1 := extopc &&& 0x000f
  if 0x1020 ≤ extopc ∧ extopc ≤ 0x102f then
    opcodes_long_cond_branches_6809.getD (extopc &&& 0xf) table_dflt
  else if extopc = 0x103f then "SWI2"
  else if extopc = 0x113f then "SWI3"
  else if extopc_u3 = 0x1080 ∨ extopc_u3 = 0x1090 ∨ extopc_u3 = 0x10a0 ∨
          extopc_u3 = 0x10b0 then
    if extopc = 0x108f then "?"
    else if extopc_b1 = 0x3 then "CMPD"
    else if extopc_b1 = 0xc then "CMPY"
    else if extopc_b1 = 0xe then "LDY"
    else if extopc_b1 = 0xf then "STY"
    else "?"
  else if extopc_u3 = 0x10c0 ∨ extopc_u3 = 0x10d0 ∨ extopc_u3 = 0x10e0 ∨
          extopc_u3 = 0x10f0 then
    if extopc = 0x10cf then "?"
    else if extopc_b1 = 0xe then "LDS"
    else if extopc_b1 = 0xf then "STS"
    else "?"
  else if extopc_u3 = 0x1180 ∨ extopc_u3 = 0x1190 ∨ extopc_u3 = 0x11a0 ∨
          extopc_u3 = 0x11b0 then
    if extopc_b1 = 0x3 then "CMPU"
    else if extopc_b1 = 0xc then "CMPS"
    else "?"
  else "?"

/-- `index_regnames` in `insn_decode_format_6809`. -/
def index_regnames : List String := ["X", "Y", "U", "S"]

/-- `psh_pul_regnames` in `insn_decode_format_6809` (bit → register name;
`none` is the U/S slot that depends on the opcode). -/
def psh_pul_regnames : List (Nat × Option String) :=
  [(0b00000001, some "CCR"), (0b00000010, some "A"), (0b00000100, some "B"),
   (0b00001000, some "DPR"), (0b00010000, some "X"), (0b00100000, some "Y"),
   (0b01000000, none), (0b10000000, some "PC")]

/-- One iteration of the register-list rendering loop of the
`am6809_psh_pul` case. -/
def psh_pul_step (b0 bi : Nat) (acc : List Char) (ent : Nat × Option String) :
    List Char :=
  if bi &&& ent.1 ≠ 0 then
    let cp2 : String :=
      match ent.2 with
      | some s => s
      | none => if b0 = 0x34 ∨ b0 = 0x35 then "U" else "S"
    let cp1 : String := if bi &&& (ent.1 - 1) ≠ 0 then "," else ""
    acc ++ cp1.toList ++ cp2.toList
  else acc

/-- The register-list rendering loop of the `am6809_psh_pul` case. -/
def psh_pul_body (b0 bi : Nat) : List Char :=
  psh_pul_regnames.foldl (psh_pul_step b0 bi) []

/-- Core of `insn_decode_format_6809`: the new `(insn_string,
resolved_address, resolved_address_valid)` triple.  The local `i` points
at the first post-opcode byte (2 after a page-2/page-3 opcode, 1
otherwise); the second component of `sr` is the `reloff` value threaded
to the final relative-target resolution switch. -/
def insn_decode_format_6809_core (id : insn_decode) : List Char × Nat × Bool :=
  let b0 := id.bytes.getD 0 0
  let pg := b0 = 0x10 ∨ b0 = 0x11
  let i : Nat := if pg then 2 else 1
  let opc : List Char :=
    (if pg then opcode_ext_6809 (b0 * 256 + id.bytes.getD 1 0)
     else opcodes_6809.getD b0 table_dflt).toList
  if id.addrmode < am6809_first ∨ am6809_last < id.addrmode then
    ("<?ADDRMODE?>".toList, id.resolved_address, id.resolved_address_valid)
  else
    let bi := id.bytes.getD i 0
    let index_reg := (bi >>> 5) &&& 3
    let reg1 := bi >>> 4
    let reg2 := bi &&& 0xf
    let ind_open : List Char := if am6809_indirect_p id.addrmode then ['['] else []
    let ind_close : List Char := if am6809_indirect_p id.addrmode then [']'] else []
    let ireg : List Char := (index_regnames.getD index_reg table_dflt).toList
    let am := id.addrmode
    let sr : (List Char × Int) :=
      if am = am6809_inherent then (opc, 0)
      else if am = am6809_direct then
        (opc ++ " < $".toList ++ hexPad 2 bi, 0)
      else if am = am6809_extended_ind ∨ am = am6809_extended then
        -- `extended_ind` falls through to `extended` after `i++`
        let i2 := if am = am6809_extended_ind then i + 1 else i
        (opc ++ ' ' :: ind_open ++ '$' :: hexPad 4 (read_u16be id.bytes i2) ++
          ind_close, 0)
      else if am = am6809_rel8 then
        let s16 := sext8 bi
        (opc ++ ' ' :: decSInt s16, s16)
      else if am = am6809_rel16 then
        let s16 := read_s16be id.bytes i
        (opc ++ ' ' :: decSInt s16, s16)
      else if am = am6809_imm8 then
        (opc ++ " #$".toList ++ hexPad 2 bi, 0)
      else if am = am6809_imm16 then
        (opc ++ " #$".toList ++ hexPad 4 (read_u16be id.bytes i), 0)
      else if am = am6809_zero_off ∨ am = am6809_zero_off_ind then
        (opc ++ ' ' :: ind_open ++ ',' :: ireg ++ ind_close, 0)
      else if am = am6809_const_off5 then
        -- C: `s16 = (s16 << 11) >> 11` happens at `int` width, so the
        -- 5-bit value is NOT sign-extended: it stays in 0..31.
        let s16 : Int := (bi &&& 0x1f : Nat)
        (opc ++ ' ' :: ind_open ++ decSInt s16 ++ ',' :: ireg ++ ind_close, 0)
      else if am = am6809_const_off8 ∨ am = am6809_const_off8_ind then
        let s16 := sext8 (id.bytes.getD (i + 1) 0)
        (opc ++ ' ' :: ind_open ++ decSInt s16 ++ ',' :: ireg ++ ind_close, 0)
      else if am = am6809_const_off16 ∨ am = am6809_const_off16_ind then
        -- N.B. the source reads the operand at offset `i + i`, not `i + 1`.
        let s16 := read_s16be id.bytes (i + i)
        (opc ++ ' ' :: ind_open ++ decSInt s16 ++ ',' :: ireg ++ ind_close, 0)
      else if am = am6809_acc_off ∨ am = am6809_acc_off_ind then
        let nib := bi &&& 0b1111
        let cp1 : List Char :=
          if nib = 0b0110 then ['A']
          else if nib = 0b0101 then ['B']
          else if nib = 0b1011 then ['D']
          else ['?']
        (opc ++ ' ' :: ind_open ++ cp1 ++ ',' :: ireg ++ ind_close, 0)
      else if am = am6809_post_inc1 then
        (opc ++ ' ' :: ',' :: ireg ++ ['+'], 0)
      else if am = am6809_post_inc2 ∨ am = am6809_post_inc2_ind then
        (opc ++ ' ' :: ind_open ++ ',' :: ireg ++ "++".toList ++ ind_close, 0)
      else if am = am6809_pre_dec1 then
        (opc ++ ' ' :: ',' :: '-' :: ireg, 0)
      else if am = am6809_pre_dec2 ∨ am = am6809_pre_dec2_ind then
        (opc ++ ' ' :: ind_open ++ ",--".toList ++ ireg ++ ind_close, 0)
      else if am = am6809_pcrel8 ∨ am = am6809_pcrel8_ind then
        -- N.B. the source reads the operand at offset `i + i`, not `i + 1`.
        let s16 := sext8 (id.bytes.getD (i + i) 0)
        (opc ++ ' ' :: ind_open ++ decSInt s16 ++ ",PCR".toList ++ ind_close, s16)
      else if am = am6809_pcrel16 ∨ am = am6809_pcrel16_ind then
        let s16 := read_s16be id.bytes (i + 1)
        (opc ++ ' ' :: ind_open ++ decSInt s16 ++ ",PCR".toList ++ ind_close, s16)
      else if am = am6809_exg_tfr then
        (opc ++ ' ' :: (insn_decode_format_exg_tfr_regname_6809 reg1).toList ++
          ',' :: (insn_decode_format_exg_tfr_regname_6809 reg2).toList, 0)
      else -- am = am6809_psh_pul (all other in-range modes are handled above)
        (opc ++ ' ' :: psh_pul_body b0 bi, 0)
    if am = am6809_rel8 ∨ am = am6809_rel16 ∨ am = am6809_pcrel8 ∨
       am = am6809_pcrel8_ind ∨ am = am6809_pcrel16 ∨ am = am6809_pcrel16_ind then
      (sr.1, u32ofInt ((id.insn_address : Int) + sr.2), true)
    else (sr.1, id.resolved_address, id.resolved_address_valid)

/-- `insn_decode_format_6809`. -/
def insn_decode_format_6809 (id : insn_decode) : insn_decode :=
  let r := insn_decode_format_6809_core id
  { id with insn_string := r.1, resolved_address := r.2.1,
            resolved_address_valid := r.2.2 }

/-- `insn_decode_next_state_6809`. -/
def insn_decode_next_state_6809 (id : insn_decode) : insn_decode :=
  if ¬(id.state = ds_fetching) ∨ id.bytes_fetched = 0 then id
  else if id.bytes_required = 0 ∧ id.bytes_fetched = 1 ∧
          (id.bytes.getD 0 0 = 0x10 ∨ id.bytes.getD 0 0 = 0x11) then
    id  -- wait for the second byte of a page-2/page-3 opcode
  else
    let id1 :=
      if id.bytes_required = 0 then
        let am := insn_decode_addrmode_6809 id
        let idm := { id with addrmode := am }
        if am6809_first ≤ am ∧ am ≤ am6809_last then
          { idm with bytes_required :=
              1 + insn_postbytes_6809.getD (am - am6809_first).toNat 0 +
              (if id.bytes.getD 0 0 = 0x10 ∨ id.bytes.getD 0 0 = 0x11 then 1 else 0) }
        else idm
      else id
    if id1.bytes_fetched = id1.bytes_required then
      { insn_decode_format_6809 id1 with state := ds_complete }
    else id1

/-! ## Z80 decoder (`insn_z80.c`) -/

/-- The four Z80 operand substitution kinds (`z80_operand_types`, which
pairs each marker with an `amz80_*` pseudo-mode). -/
inductive z80_opkind where
  | opU16 | opU8 | opDisp8 | opPcrel8
deriving DecidableEq, Repr

open z80_opkind

/-- `z80_operand_size`. -/
def z80_operand_size : z80_opkind → Nat
  | opU16 => 2
  | _ => 1

/-- Length of the marker text for each operand kind
(`strlen(z80_operand_types[i].opr_string)`). -/
def z80_oplen : z80_opkind → Nat
  | opU16 => 5
  | opU8 => 3
  | opDisp8 => 4
  | opPcrel8 => 4

/-- Core of `z80_next_operand`: the position and kind of the first operand
marker in `s`, trying the markers in table order at each position. -/
def z80_find_op : List Char → Option (Nat × z80_opkind)
  | [] => none
  | c :: rest =>
    if "XXXXh".toList.isPrefixOf (c :: rest) then some (0, opU16)
    else if "XXh".toList.isPrefixOf (c :: rest) then some (0, opU8)
    else if "+ddd".toList.isPrefixOf (c :: rest) then some (0, opDisp8)
    else if "rrrr".toList.isPrefixOf (c :: rest) then some (0, opPcrel8)
    else (z80_find_op rest).map (fun pk => (pk.1 + 1, pk.2))

/-- `z80_next_operand` starting from cursor position `i`. -/
def z80_find_op_from (s : List Char) (i : Nat) : Option (Nat × z80_opkind) :=
  (z80_find_op (s.drop i)).map (fun pk => (i + pk.1, pk.2))

/-- The operand kinds of a template, in order (the repeated
`z80_next_operand` scan of `insn_decode_next_state_z80`); fuelled. -/
def z80_ops_go : Nat → List Char → List z80_opkind
  | 0, _ => []
  | fuel + 1, s =>
    match z80_find_op s with
    | none => []
    | some (p, k) => k :: z80_ops_go fuel (s.drop (p + z80_oplen k))

/-- All operand kinds of a template. -/
def z80_ops (s : List Char) : List z80_opkind := z80_ops_go (s.length + 1) s

/-- Total operand byte count of a template. -/
def z80_ops_total (s : List Char) : Nat :=
  (z80_ops s).foldl (fun a k => a + z80_operand_size k) 0

/-- The copy loop of `z80_hl_to_index`: splits `tmpl` at the first `HL`
occurrence, recording whether the `HL` was a memory reference `(HL`
(except for opcode `0xe9`, `JP (HL)`).  Returns the copied text before
`HL`, the remaining text after `HL` (or `none` if there is no `HL`), and
the `need_disp` flag. -/
def hl_scan (opc : Nat) : List Char → List Char × Option (List Char) × Bool
  | [] => ([], none, false)
  | c :: rest =>
    if c = 'H' ∧ rest.head? = some 'L' then ([], some rest.tail, false)
    else
      let nd : Bool := c = '(' ∧ rest.head? = some 'H' ∧
        rest.tail.head? = some 'L' ∧ opc ≠ 0xe9
      let r := hl_scan opc rest
      (c :: r.1, r.2.1, nd || r.2.2)

/-- `z80_hl_to_index`: substitute the first `HL` in the template with
`IX`/`IY` (per `whichPfx` = `0xdd`/`0xfd`), inserting a `+ddd`
displacement marker after it for memory references.  (The C function's
`bool` result is ignored by both callers.) -/
def z80_hl_to_index (tmpl : List Char) (opc whichPfx : Nat) : List Char :=
  match hl_scan opc tmpl with
  | (pfx, none, _) => pfx
  | (pfx, some rest, nd) =>
    pfx ++ 'I' :: (if whichPfx = 0xdd then 'X' else 'Y') ::
      ((if nd then "+ddd".toList else []) ++ rest)

/-- The named-instruction `switch` of the `ED` group. -/
def z80_ed_named (opc : Nat) : String :=
  if opc = 0x57 then "LD A,I"
  else if opc = 0x5f then "LD A,R"
  else if opc = 0x47 then "LD I,A"
  else if opc = 0x4f then "LD R,A"
  else if opc = 0xa0 then "LDI"
  else if opc = 0xb0 then "LDIR"
  else if opc = 0xa8 then "LDD"
  else if opc = 0xb8 then "LDDR"
  else if opc = 0xa1 then "CPI"
  else if opc = 0xb1 then "CPIR"
  else if opc = 0xa9 then "CPD"
  else if opc = 0xb9 then "CPDR"
  else if opc = 0x44 then "NEG"
  else if opc = 0x46 then "IM 0"
  else if opc = 0x56 then "IM 1"
  else if opc = 0x5e then "IM 2"
  else if opc = 0x6f then "RLD"
  else if opc = 0x67 then "RRD"
  else if opc = 0x4d then "RETI"
  else if opc = 0x45 then "RETN"
  else if opc = 0xa2 then "INI"
  else if opc = 0xb2 then "INIR"
  else if opc = 0xaa then "IND"
  else if opc = 0xba then "INDR"
  else if opc = 0xa3 then "OUTI"
  else if opc = 0xb3 then "OUTIR"
  else if opc = 0xab then "OUTD"
  else if opc = 0xbb then "OTDR"
  else "?"

/-- The `CB` group template text (`sprintf(tbuf, "%s%s", opcodes_CB[(opc >> 3) & 0x1f], ld_regs[opc & 7])`). -/
def z80_cb_tbuf (op : Nat) : List Char :=
  (opcodes_CB.getD ((op >>> 3) &&& 0x1f) table_dflt).toList ++
  (ld_regs.getD (op &&& 7) table_dflt).toList

/-- The `DD`/`FD` (non-`CB`) template: the base instruction comes from
the second opcode byte (or is synthesized for the `ADD HL,rr` group),
then `HL` is rewritten to `IX`/`IY`. -/
def z80_ddfd_tmpl (pfx opc : Nat) : List Char :=
  let tmpl : List Char :=
    if opc &&& 0b11001111 = 0b00001001 then
      "ADD I".toList ++ (if pfx = 0xdd then 'X' else 'Y') ::
        ',' :: (ld_regs16.getD ((opc >>> 4) &&& 3) table_dflt).toList
    else (opcodes_z80.getD opc table_dflt).toList
  z80_hl_to_index tmpl opc pfx

/-- The `ED`-group template selected by the second opcode byte. -/
def z80_ed_tmpl (opc : Nat) : List Char :=
  let reg16 : List Char := (ld_regs16.getD ((opc >>> 4) &&& 3) table_dflt).toList
  let ioreg := (opc >>> 3) &&& 7
  if opc &&& 0b11001111 = 0b01001011 then "LD ".toList ++ reg16 ++ ",(XXXXh)".toList
  else if opc &&& 0b11001111 = 0b01000011 then "LD (XXXXh),".toList ++ reg16
  else if opc &&& 0b11001111 = 0b01001010 then "ADC HL,".toList ++ reg16
  else if opc &&& 0b11001111 = 0b01000010 then "SBC HL,".toList ++ reg16
  else if opc &&& 0b11000111 = 0b01000000 then
    "IN ".toList ++
      (if ioreg = 6 then "Flags".toList
       else (io_regs.getD ioreg table_dflt).toList) ++ ",(C)".toList
  else if opc &&& 0b11000111 = 0b01000001 then
    "OUT (C),".toList ++ (io_regs.getD ioreg table_dflt).toList
  else (z80_ed_named opc).toList

/-- The `DD CB`/`FD CB` template: the `CB` operation from the fourth
byte, with the `HL` operand rewritten to `IX+ddd`/`IY+ddd`. -/
def z80_ddcb_tmpl (pfx op : Nat) : List Char :=
  z80_hl_to_index (z80_cb_tbuf op) op pfx

/-- `z80_insn_template`: `none` models the `false` return (template not
yet determinable); `some t` models the `true` return with `t` the new
`insn_string` contents. -/
def z80_insn_template (id : insn_decode) : Option (List Char) :=
  let opc0 := id.bytes.getD 0 0
  let b1 := id.bytes.getD 1 0
  if (opc0 = 0xdd ∨ opc0 = 0xfd) ∧ 2 ≤ id.bytes_fetched ∧ b1 ≠ 0xcb then
    some (z80_ddfd_tmpl opc0 b1)
  else if opc0 = 0xed then
    if id.bytes_fetched < 2 then none
    else some (z80_ed_tmpl b1)
  else if opc0 = 0xcb ∨
          ((opc0 = 0xdd ∨ opc0 = 0xfd) ∧ 2 ≤ id.bytes_fetched ∧ b1 = 0xcb) then
    if opc0 = 0xcb then
      if id.bytes_fetched < 2 then none
      else some (z80_cb_tbuf b1)
    else
      if id.bytes_fetched < 4 then none
      else some (z80_ddcb_tmpl opc0 (id.bytes.getD 3 0))
  else if opc0 = 0xcb ∨ opc0 = 0xdd ∨ opc0 = 0xed ∨ opc0 = 0xfd then none
  else some ((opcodes_z80.getD opc0 table_dflt).toList)

/-- The whitespace collapse at the end of the `amz80_disp8` case of
`insn_decode_format_z80`: from position `start`, advance to the first
space (stopping at end of string); if a space was found, drop the run of
spaces there. -/
def z80_collapse (s : List Char) (start : Nat) : List Char :=
  match ((s.drop start).findIdx? (· = ' ')).map (· + start) with
  | none => s
  | some j => s.take j ++ (s.drop j).dropWhile (· = ' ')

/-- The operand-substitution loop of `insn_decode_format_z80`, acting on
an `(insn_string, resolved_address, resolved_address_valid)` triple with
scan cursor `cursor` and operand byte index `oprByte`; fuelled (the
cursor advances by at least 3 per iteration). -/
def z80_fmt_go (addr : Nat) (bytes : List Nat) :
    Nat → List Char × Nat × Bool → Nat → Nat → List Char × Nat × Bool
  | 0, acc, _, _ => acc
  | fuel + 1, (s, res, vld), cursor, oprByte =>
    match z80_find_op_from s cursor with
    | none => (s, res, vld)
    | some (p, opU16) =>
      z80_fmt_go addr bytes fuel
        (overwrite s p (hexPad 4 (read_u16le bytes oprByte)), res, vld)
        (p + 5) (oprByte + 2)
    | some (p, opU8) =>
      z80_fmt_go addr bytes fuel
        (overwrite s p (hexPad 2 (bytes.getD oprByte 0)), res, vld)
        (p + 3) (oprByte + 1)
    | some (p, opPcrel8) =>
      -- the stored value is "target - 2"; the display adds 2 back at
      -- `int8_t` width, and the resolved address uses the adjusted value
      let s8 : Int := wrapS8 (sext8 (bytes.getD oprByte 0) + 2)
      z80_fmt_go addr bytes fuel
        (overwrite s p (padTake 4 (decSInt s8)),
         u32ofInt ((addr : Int) + s8), true)
        (p + 4) (oprByte + 1)
    | some (p, opDisp8) =>
      let s8 : Int := sext8 (bytes.getD oprByte 0)
      let s1 :=
        if s8 < 0 then overwrite s p (padTake 4 (decSInt s8))
        else overwrite s (p + 1) (padTake 3 (decSInt s8))
      z80_fmt_go addr bytes fuel (z80_collapse s1 p, res, vld)
        (p + 4) (oprByte + 1)

/-- `insn_decode_format_z80`. -/
def insn_decode_format_z80 (id : insn_decode) : insn_decode :=
  let b0 := id.bytes.getD 0 0
  let oprByte : Nat :=
    if b0 = 0xcb ∨ b0 = 0xed then 2
    else if b0 = 0xdd ∨ b0 = 0xfd then 2
    else 1
  let r := z80_fmt_go id.insn_address id.bytes (id.insn_string.length + 1)
    (id.insn_string, id.resolved_address, id.resolved_address_valid) 0 oprByte
  { id with insn_string := r.1, resolved_address := r.2.1,
            resolved_address_valid := r.2.2 }

/-- `insn_decode_next_state_z80`. -/
def insn_decode_next_state_z80 (id : insn_decode) : insn_decode :=
  if ¬(id.state = ds_fetching) ∨ id.bytes_fetched = 0 then id
  else
    let id1opt : Option insn_decode :=
      if id.bytes_required = 0 then
        match z80_insn_template id with
        | none => none  -- template unknown: wait for more bytes
        | some t =>
          let b0 := id.bytes.getD 0 0
          let opcBytes : Nat :=
            1 + (if b0 = 0xcb ∨ b0 = 0xed then 1
                 else if b0 = 0xdd ∨ b0 = 0xfd then
                   1 + (if 2 ≤ id.bytes_fetched ∧ id.bytes.getD 1 0 = 0xcb then 1
                        else 0)
                 else 0)
          some { id with insn_string := t,
                         bytes_required := opcBytes + z80_ops_total t }
      else some id
    match id1opt with
    | none => id
    | some id1 =>
      if id1.bytes_fetched = id1.bytes_required then
        { insn_decode_format_z80 id1 with state := ds_complete }
      else id1

/-! ## Dispatcher / session lifecycle (`insn_decode.c`) -/

/-- `insn_decode_init`: selects the architecture decode routine from the
global `cpu`.  We model the stored function pointer by the `cpu_t` value
it was selected from (`none` for `NULL`). -/
def insn_decode_init (c : cpu_t) : insn_decode :=
  { state := ds_idle,
    insn_address := 0, resolved_address := 0, resolved_address_valid := false,
    next_state := if c = cpu_none then none else some c,
    bytes_required := 0, bytes_fetched := 0, addrmode := am_invalid,
    bytes := List.replicate 8 0, insn_string := [] }

/-- Dispatch of the stored `next_state` routine. -/
def arch_next_state (c : cpu_t) (id : insn_decode) : insn_decode :=
  match c with
  | cpu_6502 | cpu_65c02 => insn_decode_next_state_6502 c id
  | cpu_6800 => insn_decode_next_state_6800 id
  | cpu_6809 | cpu_6809e => insn_decode_next_state_6809 id
  | cpu_z80 => insn_decode_next_state_z80 id
  | cpu_none => id

/-- `insn_decode_next_state`: runs the architecture routine and, on a
transition from Fetching to Complete with a valid resolved address,
appends the ` <%04lX>` annotation.  Returns `true` iff the session was in
`ds_fetching` when called (and a decode routine is configured). -/
def insn_decode_next_state (id : insn_decode) : insn_decode × Bool :=
  let ostate := id.state
  match id.next_state with
  | none => (id, false)
  | some c =>
    let id1 := arch_next_state c id
    if ostate = ds_fetching then
      let id2 :=
        if id1.state = ds_complete ∧ id1.resolved_address_valid then
          { id1 with insn_string :=
              id1.insn_string ++ ' ' :: '<' :: (hexPad 4 id1.resolved_address ++ ['>']) }
        else id1
      (id2, true)
    else (id1, false)

/-- `insn_decode_begin`. -/
def insn_decode_begin (id : insn_decode) (addr b : Nat) : insn_decode :=
  if id.next_state.isSome ∧ (id.state = ds_idle ∨ id.state = ds_complete) then
    let id1 :=
      { id with state := ds_fetching,
                insn_address := addr % 4294967296,
                resolved_address := 0,
                resolved_address_valid := false,
                addrmode := am_invalid,
                bytes_required := 0,
                bytes := id.bytes.set 0 (b % 256),
                bytes_fetched := 1 }
    (insn_decode_next_state id1).1
  else id

/-- `insn_decode_continue`. -/
def insn_decode_continue (id : insn_decode) (b : Nat) : insn_decode × Bool :=
  if id.state = ds_fetching then
    if id.bytes_fetched = INSN_DECODE_MAXBYTES then
      ({ id with insn_string := "<decode overflow>".toList, state := ds_complete },
       false)
    else
      let id1 := { id with bytes := id.bytes.set id.bytes_fetched (b % 256),
                           bytes_fetched := id.bytes_fetched + 1 }
      insn_decode_next_state id1
  else (id, false)

/-- `insn_decode_complete`. -/
def insn_decode_complete (id : insn_decode) : List Char :=
  if id.state = ds_complete then id.insn_string else []

/-- A full decode session: initialise for `c`, `begin(addr, b)`, then
`continue` with each byte of `rest` in order. -/
def runSession (c : cpu_t) (addr b : Nat) (rest : List Nat) : insn_decode :=
  rest.foldl (fun s x => (insn_decode_continue s x).1)
    (insn_decode_begin (insn_decode_init c) addr b)

/-! ## Support definitions for the verification -/

/-- `allIdx p s l`: `p` holds of every element of `l` together with its
index (starting at `s`).  Used for linear-time table checks. -/
def allIdx {α : Type} (p : Nat → α → Bool) : Nat → List α → Bool
  | _, [] => true
  | i, x :: xs => p i x && allIdx p (i + 1) xs

/-- The mnemonic string chosen by `insn_decode_format_6809` (page-2/3
lookup vs. base table), as a function of the instruction bytes. -/
def opc6809_str (bytes : List Nat) : String :=
  if bytes.getD 0 0 = 0x10 ∨ bytes.getD 0 0 = 0x11 then
    opcode_ext_6809 (bytes.getD 0 0 * 256 + bytes.getD 1 0)
  else opcodes_6809.getD (bytes.getD 0 0) table_dflt

/-- The 6809 PC-relative indexed addressing modes. -/
def pcrel6809 (am : addrmode_t) : Prop :=
  am = am6809_pcrel8 ∨ am = am6809_pcrel8_ind ∨
  am = am6809_pcrel16 ∨ am = am6809_pcrel16_ind

/-- The 6809 addressing modes whose formatter resolves a target address
(the final `switch` of `insn_decode_format_6809`). -/
def rel6809 (am : addrmode_t) : Prop :=
  am = am6809_rel8 ∨ am = am6809_rel16 ∨ pcrel6809 am

/-- The signed displacement read by `insn_decode_format_6809` for the
relative/PC-relative modes (the `reloff` value), as a function of the
addressing mode and instruction bytes (transcribing the `rel8`/`rel16`/
`pcrel8`/`pcrel16` cases, including their operand offsets). -/
def rel6809_offset (am : addrmode_t) (bytes : List Nat) : Int :=
  let i : Nat := if bytes.getD 0 0 = 0x10 ∨ bytes.getD 0 0 = 0x11 then 2 else 1
  if am = am6809_rel8 then sext8 (bytes.getD i 0)
  else if am = am6809_rel16 then read_s16be bytes i
  else if am = am6809_pcrel8 ∨ am = am6809_pcrel8_ind then sext8 (bytes.getD (i + i) 0)
  else read_s16be bytes (i + 1)

/-! ### Session invariant -/

/-- Well-formedness of the 8-byte buffer. -/
def bytesOK (l : List Nat) : Prop := l.length = 8 ∧ ∀ x ∈ l, x < 256

/-- The Z80 `DD/FD CB` overshoot: a non-`(HL)` operation byte makes the
template resolver set `bytes_required = 3` after 4 bytes were fetched. -/
def z80_exc (id : insn_decode) : Prop :=
  (id.bytes.getD 0 0 = 0xdd ∨ id.bytes.getD 0 0 = 0xfd) ∧
  id.bytes.getD 1 0 = 0xcb ∧ id.bytes_required = 3 ∧ 4 ≤ id.bytes_fetched

/-- Facts recorded once `bytes_required` has been set, needed to bound the
final formatted string. -/
def ReqSet : cpu_t → insn_decode → Prop
  | cpu_6809, id =>
    (pcrel6809 id.addrmode → (opc6809_str id.bytes).length ≤ 4) ∧
    ((id.bytes.getD 0 0 = 0x10 ∨ id.bytes.getD 0 0 = 0x11) → 2 ≤ id.bytes_fetched)
  | cpu_6809e, id =>
    (pcrel6809 id.addrmode → (opc6809_str id.bytes).length ≤ 4) ∧
    ((id.bytes.getD 0 0 = 0x10 ∨ id.bytes.getD 0 0 = 0x11) → 2 ≤ id.bytes_fetched)
  | cpu_z80, id => 1 ≤ id.insn_string.length ∧ id.insn_string.length ≤ 17
  | _, _ => True

/-- Facts holding while `bytes_required` is still 0 in a Fetching state:
the architecture routine could not yet determine the length. -/
def Req0 : cpu_t → insn_decode → Prop
  | cpu_6809, id =>
    insn_decode_addrmode_6809 id = am_invalid ∨
    (id.bytes_fetched = 1 ∧ (id.bytes.getD 0 0 = 0x10 ∨ id.bytes.getD 0 0 = 0x11))
  | cpu_6809e, id =>
    insn_decode_addrmode_6809 id = am_invalid ∨
    (id.bytes_fetched = 1 ∧ (id.bytes.getD 0 0 = 0x10 ∨ id.bytes.getD 0 0 = 0x11))
  | cpu_z80, id => z80_insn_template id = none
  | cpu_none, _ => True
  | _, _ => False

/-- The Fetching-state byte-count facts. -/
def FetchReq (c : cpu_t) (id : insn_decode) : Prop :=
  (id.bytes_required = 0 ∧ Req0 c id) ∨
  (¬id.bytes_required = 0 ∧ id.bytes_fetched < id.bytes_required ∧
    id.bytes_required ≤ 8 ∧ ReqSet c id) ∨
  (¬id.bytes_required = 0 ∧ c = cpu_z80 ∧ z80_exc id ∧ ReqSet c id)

/-- The session invariant, preserved by `insn_decode_begin` and
`insn_decode_continue` for a session initialised for `c`. -/
def SessionInv (c : cpu_t) (id : insn_decode) : Prop :=
  id.next_state = (if c = cpu_none then none else some c) ∧
  bytesOK id.bytes ∧
  id.bytes_fetched ≤ 8 ∧
  id.insn_address < 4294967296 ∧
  (id.state = ds_idle → id.bytes_required = 0) ∧
  (id.state = ds_fetching →
    1 ≤ id.bytes_fetched ∧ id.resolved_address_valid = false ∧ FetchReq c id) ∧
  (id.state = ds_complete →
    1 ≤ id.insn_string.length ∧ id.insn_string.length ≤ 28 ∧
    (¬id.bytes_required = 0 →
      id.bytes_fetched ≤ id.bytes_required ∨ (c = cpu_z80 ∧ z80_exc id)))

/-- The state handed to the architecture routine: a Fetching session that
has just absorbed a byte (via `begin` or `continue`). -/
def MidPre (c : cpu_t) (id : insn_decode) : Prop :=
  ¬ c = cpu_none ∧
  id.next_state = some c ∧
  bytesOK id.bytes ∧
  id.state = ds_fetching ∧
  1 ≤ id.bytes_fetched ∧ id.bytes_fetched ≤ 8 ∧
  id.insn_address < 4294967296 ∧
  id.resolved_address_valid = false ∧
  ((id.bytes_required = 0 ∧
     (id.bytes_fetched = 1 ∨ Req0 c { id with bytes_fetched := id.bytes_fetched - 1 })) ∨
   (¬id.bytes_required = 0 ∧ id.bytes_fetched ≤ id.bytes_required ∧
     id.bytes_required ≤ 8 ∧ ReqSet c id) ∨
   (¬id.bytes_required = 0 ∧ c = cpu_z80 ∧ z80_exc id ∧ ReqSet c id))

/-! ## Basic lemmas -/

theorem allIdx_getD {α : Type} {p : Nat → α → Bool} {d : α} :
    ∀ (l : List α) (s : Nat), allIdx p s l = true →
      ∀ i, i < l.length → p (s + i) (l.getD i d) = true := by
  intro l
  induction l with
  | nil => intro s _ i hi; simp at hi
  | cons x xs ih =>
    intro s h i hi
    simp only [allIdx, Bool.and_eq_true] at h
    match i with
    | 0 => simpa using h.1
    | i + 1 =>
      have := ih (s + 1) h.2 i (by simpa using hi)
      simpa [Nat.add_assoc, Nat.add_comm 1 i] using this

theorem u32ofInt_lt (z : Int) : u32ofInt z < 4294967296 := by
  have h1 : 0 ≤ z % (4294967296 : Int) := Int.emod_nonneg z (by norm_num)
  have h2 : z % (4294967296 : Int) < 4294967296 := Int.emod_lt_of_pos z (by norm_num)
  simp only [u32ofInt]
  omega

theorem bytesOK_set {l : List Nat} (h : bytesOK l) (p b : Nat) :
    bytesOK (l.set p (b % 256)) := by
  obtain ⟨hlen, hmem⟩ := h
  refine ⟨by simpa using hlen, ?_⟩
  intro x hx
  rcases List.mem_or_eq_of_mem_set hx with h' | h'
  · exact hmem x h'
  · subst h'; exact Nat.mod_lt _ (by omega)

theorem bytesOK_getD {l : List Nat} (h : bytesOK l) (i : Nat) :
    l.getD i 0 < 256 := by
  obtain ⟨hlen, hmem⟩ := h
  by_cases hi : i < l.length
  · rw [List.getD_eq_getElem l 0 hi]
    exact hmem _ (List.getElem_mem hi)
  · rw [List.getD_eq_default l 0 (by omega)]
    omega

theorem read_u16be_lt {l : List Nat} (h : bytesOK l) (i : Nat) :
    read_u16be l i < 65536 := by
  have h1 := bytesOK_getD h i
  have h2 := bytesOK_getD h (i + 1)
  simp only [read_u16be]
  omega

theorem read_u16le_lt {l : List Nat} (h : bytesOK l) (i : Nat) :
    read_u16le l i < 65536 := by
  have h1 := bytesOK_getD h i
  have h2 := bytesOK_getD h (i + 1)
  simp only [read_u16le]
  omega

theorem read_s16be_natAbs {l : List Nat} (h : bytesOK l) (i : Nat) :
    (read_s16be l i).natAbs ≤ 65535 := by
  have := read_u16be_lt h i
  simp only [read_s16be]
  split <;> omega

theorem sext8_natAbs {b : Nat} (h : b < 256) : (sext8 b).natAbs ≤ 128 := by
  simp only [sext8]
  split <;> omega

theorem sext8_natAbs_getD {l : List Nat} (h : bytesOK l) (i : Nat) :
    (sext8 (l.getD i 0)).natAbs ≤ 128 :=
  sext8_natAbs (bytesOK_getD h i)

/-! ## Frame lemmas: formatters only touch `insn_string`,
`resolved_address` and `resolved_address_valid` -/

theorem fmt6502_frame (c : cpu_t) (id : insn_decode) :
    (insn_decode_format_6502 c id).state = id.state ∧
    (insn_decode_format_6502 c id).insn_address = id.insn_address ∧
    (insn_decode_format_6502 c id).next_state = id.next_state ∧
    (insn_decode_format_6502 c id).bytes_required = id.bytes_required ∧
    (insn_decode_format_6502 c id).bytes_fetched = id.bytes_fetched ∧
    (insn_decode_format_6502 c id).bytes = id.bytes ∧
    (insn_decode_format_6502 c id).addrmode = id.addrmode :=
  ⟨rfl, rfl, rfl, rfl, rfl, rfl, rfl⟩

theorem fmt6800_frame (id : insn_decode) :
    (insn_decode_format_6800 id).state = id.state ∧
    (insn_decode_format_6800 id).insn_address = id.insn_address ∧
    (insn_decode_format_6800 id).next_state = id.next_state ∧
    (insn_decode_format_6800 id).bytes_required = id.bytes_required ∧
    (insn_decode_format_6800 id).bytes_fetched = id.bytes_fetched ∧
    (insn_decode_format_6800 id).bytes = id.bytes ∧
    (insn_decode_format_6800 id).addrmode = id.addrmode :=
  ⟨rfl, rfl, rfl, rfl, rfl, rfl, rfl⟩

theorem fmt6809_frame (id : insn_decode) :
    (insn_decode_format_6809 id).state = id.state ∧
    (insn_decode_format_6809 id).insn_address = id.insn_address ∧
    (insn_decode_format_6809 id).next_state = id.next_state ∧
    (insn_decode_format_6809 id).bytes_required = id.bytes_required ∧
    (insn_decode_format_6809 id).bytes_fetched = id.bytes_fetched ∧
    (insn_decode_format_6809 id).bytes = id.bytes ∧
    (insn_decode_format_6809 id).addrmode = id.addrmode :=
  ⟨rfl, rfl, rfl, rfl, rfl, rfl, rfl⟩

theorem fmtz80_frame (id : insn_decode) :
    (insn_decode_format_z80 id).state = id.state ∧
    (insn_decode_format_z80 id).insn_address = id.insn_address ∧
    (insn_decode_format_z80 id).next_state = id.next_state ∧
    (insn_decode_format_z80 id).bytes_required = id.bytes_required ∧
    (insn_decode_format_z80 id).bytes_fetched = id.bytes_fetched ∧
    (insn_decode_format_z80 id).bytes = id.bytes ∧
    (insn_decode_format_z80 id).addrmode = id.addrmode :=
  ⟨rfl, rfl, rfl, rfl, rfl, rfl, rfl⟩
/-! ## Frame lemmas for the architecture next-state routines -/

theorem next6502_frame (c : cpu_t) (id : insn_decode) :
    (insn_decode_next_state_6502 c id).insn_address = id.insn_address ∧
    (insn_decode_next_state_6502 c id).next_state = id.next_state ∧
    (insn_decode_next_state_6502 c id).bytes_fetched = id.bytes_fetched ∧
    (insn_decode_next_state_6502 c id).bytes = id.bytes := by
  unfold insn_decode_next_state_6502
  dsimp only
  repeat' split
  all_goals simp [insn_decode_format_6502]

theorem next6800_frame (id : insn_decode) :
    (insn_decode_next_state_6800 id).insn_address = id.insn_address ∧
    (insn_decode_next_state_6800 id).next_state = id.next_state ∧
    (insn_decode_next_state_6800 id).bytes_fetched = id.bytes_fetched ∧
    (insn_decode_next_state_6800 id).bytes = id.bytes := by
  unfold insn_decode_next_state_6800
  dsimp only
  repeat' split
  all_goals simp [insn_decode_format_6800]

theorem next6809_frame (id : insn_decode) :
    (insn_decode_next_state_6809 id).insn_address = id.insn_address ∧
    (insn_decode_next_state_6809 id).next_state = id.next_state ∧
    (insn_decode_next_state_6809 id).bytes_fetched = id.bytes_fetched ∧
    (insn_decode_next_state_6809 id).bytes = id.bytes := by
  unfold insn_decode_next_state_6809
  dsimp only
  repeat' split
  all_goals simp [insn_decode_format_6809]

theorem nextz80_frame (id : insn_decode) :
    (insn_decode_next_state_z80 id).insn_address = id.insn_address ∧
    (insn_decode_next_state_z80 id).next_state = id.next_state ∧
    (insn_decode_next_state_z80 id).bytes_fetched = id.bytes_fetched ∧
    (insn_decode_next_state_z80 id).bytes = id.bytes := by
  unfold insn_decode_next_state_z80
  dsimp only
  split
  · simp
  · by_cases h0 : id.bytes_required = 0
    · rw [if_pos h0]
      cases htmpl : z80_insn_template id with
      | none => simp
      | some t =>
        dsimp only
        repeat' split
        all_goals simp [insn_decode_format_z80]
    · rw [if_neg h0]
      dsimp only
      split <;> simp [insn_decode_format_z80]

theorem arch_frame (c : cpu_t) (id : insn_decode) :
    (arch_next_state c id).insn_address = id.insn_address ∧
    (arch_next_state c id).next_state = id.next_state ∧
    (arch_next_state c id).bytes_fetched = id.bytes_fetched ∧
    (arch_next_state c id).bytes = id.bytes := by
  cases c
  case cpu_none => exact ⟨rfl, rfl, rfl, rfl⟩
  case cpu_6502 => exact next6502_frame _ id
  case cpu_65c02 => exact next6502_frame _ id
  case cpu_6800 => exact next6800_frame id
  case cpu_6809 => exact next6809_frame id
  case cpu_6809e => exact next6809_frame id
  case cpu_z80 => exact nextz80_frame id

theorem next6502_required (c : cpu_t) (id : insn_decode)
    (h : ¬ id.bytes_required = 0) :
    (insn_decode_next_state_6502 c id).bytes_required = id.bytes_required := by
  unfold insn_decode_next_state_6502
  dsimp only
  repeat' split
  all_goals simp_all [insn_decode_format_6502]

theorem next6800_required (id : insn_decode) (h : ¬ id.bytes_required = 0) :
    (insn_decode_next_state_6800 id).bytes_required = id.bytes_required := by
  unfold insn_decode_next_state_6800
  dsimp only
  repeat' split
  all_goals simp_all [insn_decode_format_6800]

theorem next6809_required (id : insn_decode) (h : ¬ id.bytes_required = 0) :
    (insn_decode_next_state_6809 id).bytes_required = id.bytes_required := by
  unfold insn_decode_next_state_6809
  dsimp only
  repeat' split
  all_goals simp_all [insn_decode_format_6809]

theorem nextz80_required (id : insn_decode) (h : ¬ id.bytes_required = 0) :
    (insn_decode_next_state_z80 id).bytes_required = id.bytes_required := by
  unfold insn_decode_next_state_z80
  dsimp only
  rw [if_neg h]
  dsimp only
  split
  · rfl
  · split <;> simp [insn_decode_format_z80]

theorem arch_required (c : cpu_t) (id : insn_decode)
    (h : ¬ id.bytes_required = 0) :
    (arch_next_state c id).bytes_required = id.bytes_required := by
  cases c
  case cpu_none => rfl
  case cpu_6502 => exact next6502_required _ id h
  case cpu_65c02 => exact next6502_required _ id h
  case cpu_6800 => exact next6800_required id h
  case cpu_6809 => exact next6809_required id h
  case cpu_6809e => exact next6809_required id h
  case cpu_z80 => exact nextz80_required id h

theorem dispatcher_frame (id : insn_decode) :
    ((insn_decode_next_state id).1.insn_address = id.insn_address ∧
     (insn_decode_next_state id).1.next_state = id.next_state ∧
     (insn_decode_next_state id).1.bytes_fetched = id.bytes_fetched ∧
     (insn_decode_next_state id).1.bytes = id.bytes) := by
  unfold insn_decode_next_state
  dsimp only
  split
  · exact ⟨rfl, rfl, rfl, rfl⟩
  · rename_i c heq
    have hf := arch_frame c id
    repeat' split
    all_goals simp_all

theorem dispatcher_required (id : insn_decode) (h : ¬ id.bytes_required = 0) :
    (insn_decode_next_state id).1.bytes_required = id.bytes_required := by
  unfold insn_decode_next_state
  dsimp only
  split
  · rfl
  · rename_i c heq
    have hr := arch_required c id h
    repeat' split
    all_goals simp_all

/-! ## Dispatcher-level lemmas -/

theorem continue_required (id : insn_decode) (b : Nat)
    (h : ¬ id.bytes_required = 0) :
    ((insn_decode_continue id b).1).bytes_required = id.bytes_required := by
  unfold insn_decode_continue
  dsimp only
  split
  · split
    · rfl
    · exact dispatcher_required _ h
  · rfl

theorem continue_fetched_le (id : insn_decode) (b : Nat)
    (h : id.bytes_fetched ≤ 8) :
    ((insn_decode_continue id b).1).bytes_fetched ≤ 8 := by
  unfold insn_decode_continue
  dsimp only
  split
  · split
    · simpa using h
    · rename_i hm
      have := (dispatcher_frame { id with
        bytes := id.bytes.set id.bytes_fetched (b % 256),
        bytes_fetched := id.bytes_fetched + 1 }).2.2.1
      rw [this]
      simp only [INSN_DECODE_MAXBYTES] at hm
      dsimp only
      omega
  · exact h

/-! ## Claim C10: `begin` is a no-op while Fetching or without a decode
routine -/

/-- C10: calling `insn_decode_begin` while the session is in the Fetching
state, or when no architecture decode routine is configured, leaves every
session field unchanged (the whole session record is returned as-is) and
signals no error. -/
theorem C10_begin_noop (id : insn_decode) (addr b : Nat)
    (h : id.state = ds_fetching ∨ id.next_state = none) :
    insn_decode_begin id addr b = id := by
  unfold insn_decode_begin
  rcases h with h | h
  · rw [if_neg]
    intro ⟨_, hc⟩
    rcases hc with hc | hc <;> rw [h] at hc <;> exact decode_state_t.noConfusion hc
  · rw [if_neg]
    intro ⟨hs, _⟩
    rw [h] at hs
    simp at hs

/-- Witness for C10 at a concrete Fetching session (a 6809 session that
has consumed only the page-2 prefix byte). -/
theorem C10_begin_noop_witness :
    ((runSession cpu_6809 0x1000 0x10 []).state = ds_fetching ∨
      (runSession cpu_6809 0x1000 0x10 []).next_state = none) ∧
    insn_decode_begin (runSession cpu_6809 0x1000 0x10 []) 0x2000 0x3E =
      runSession cpu_6809 0x1000 0x10 [] :=
  ⟨by decide, C10_begin_noop (runSession cpu_6809 0x1000 0x10 []) 0x2000 0x3E
    (by decide)⟩

/-! ## Claim C9: a nonzero `bytes_required` is never changed by
`continue` -/

/-- C9: once `bytes_required` is nonzero, no `insn_decode_continue` call
changes it (for any session state and any byte); it is reset only by
`insn_decode_begin` starting the next instruction. -/
theorem C9_required_monotone (id : insn_decode) (b : Nat)
    (h : ¬ id.bytes_required = 0) :
    ((insn_decode_continue id b).1).bytes_required = id.bytes_required :=
  continue_required id b h

/-- Witness for C9: a 6809 `BRA` session with `bytes_required = 2`. -/
theorem C9_required_monotone_witness :
    ¬ (runSession cpu_6809 0x1003 0x20 []).bytes_required = 0 ∧
    ((insn_decode_continue (runSession cpu_6809 0x1003 0x20 []) 0xFD).1).bytes_required =
      (runSession cpu_6809 0x1003 0x20 []).bytes_required :=
  ⟨by decide, C9_required_monotone (runSession cpu_6809 0x1003 0x20 []) 0xFD
    (by decide)⟩

/-! ## Claim C8: `complete()` is a pure, error-free read -/

/-- C8: `insn_decode_complete` returns the session's `insn_string` when
`state = ds_complete` and the empty string otherwise, never signalling an
error; and a completed session is left entirely unchanged by further
`insn_decode_continue` calls (which also return `false`), so repeated
reads return the identical string until the next `begin`.
(`insn_decode_complete` is modelled as a pure function of the session, as
the C function only reads through its pointer argument.) -/
theorem C8_complete_read (id : insn_decode) (b : Nat) :
    (id.state = ds_complete →
      insn_decode_complete id = id.insn_string ∧
      (insn_decode_continue id b).1 = id ∧
      (insn_decode_continue id b).2 = false) ∧
    (¬ id.state = ds_complete → insn_decode_complete id = []) := by
  constructor
  · intro h
    refine ⟨by simp [insn_decode_complete, h], ?_, ?_⟩
    · unfold insn_decode_continue
      rw [if_neg]
      rw [h]
      exact fun hc => decode_state_t.noConfusion hc
    · unfold insn_decode_continue
      rw [if_neg]
      rw [h]
      exact fun hc => decode_state_t.noConfusion hc
  · intro h
    simp [insn_decode_complete, h]

/-- Witness for C8 at concrete sessions (a completed 6502 `BRK` session
and a still-Fetching 6809 session). -/
theorem C8_complete_read_witness :
    ((runSession cpu_6502 0x1000 0x00 []).state = ds_complete ∧
      insn_decode_complete (runSession cpu_6502 0x1000 0x00 []) =
        (runSession cpu_6502 0x1000 0x00 []).insn_string ∧
      (insn_decode_continue (runSession cpu_6502 0x1000 0x00 []) 7).1 =
        runSession cpu_6502 0x1000 0x00 []) ∧
    (¬ (runSession cpu_6809 0x1000 0x10 []).state = ds_complete ∧
      insn_decode_complete (runSession cpu_6809 0x1000 0x10 []) = []) :=
  ⟨⟨by decide, ((C8_complete_read (runSession cpu_6502 0x1000 0x00 []) 7).1
      (by decide)).1,
    ((C8_complete_read (runSession cpu_6502 0x1000 0x00 []) 7).1 (by decide)).2.1⟩,
   ⟨by decide, (C8_complete_read (runSession cpu_6809 0x1000 0x10 []) 7).2
      (by decide)⟩⟩

/-! ## Claim C4: the meaning of `insn_decode_continue`'s return value -/

/-- C4 counterexample: the claim says `continue` returns `true` exactly
when the call transitioned the session out of Fetching.  But a 6809
session that consumed the `0x10` page-2 prefix stays in Fetching after
`continue(0x21)` (an `LBRN` long branch needs 4 bytes) while the call
returns `true`; and a Fetching session holding 8 bytes is forced to
Complete by a 9th byte while the call returns `false`. -/
theorem C4_counterexample :
    ((insn_decode_continue (runSession cpu_6809 0x1000 0x10 []) 0x21).2 = true ∧
     (insn_decode_continue (runSession cpu_6809 0x1000 0x10 []) 0x21).1.state =
       ds_fetching) ∧
    ((insn_decode_continue
        (runSession cpu_z80 0x1000 0xDD [0xCB, 5, 0, 0, 0, 0, 0]) 0).2 = false ∧
     (insn_decode_continue
        (runSession cpu_z80 0x1000 0xDD [0xCB, 5, 0, 0, 0, 0, 0]) 0).1.state =
       ds_complete) := by
  constructor
  · constructor <;> decide
  · constructor <;> decide

/-- C4 amended: `insn_decode_continue` returns `true` iff the session was
in Fetching with a decode routine configured and the byte was accepted
(no 8-byte overflow); i.e. the return value reports "was fetching and
byte absorbed", not "transitioned out of Fetching".  In particular the
forced overflow completion returns `false`, and a call that leaves the
session still Fetching returns `true`. -/
theorem C4_amended (id : insn_decode) (b : Nat) :
    (insn_decode_continue id b).2 = true ↔
      (id.state = ds_fetching ∧ id.next_state.isSome ∧ ¬ id.bytes_fetched = 8) := by
  unfold insn_decode_continue
  dsimp only
  split
  · rename_i hf
    split
    · rename_i h8
      simp only [INSN_DECODE_MAXBYTES] at h8
      simp [hf, h8]
    · rename_i h8
      simp only [INSN_DECODE_MAXBYTES] at h8
      unfold insn_decode_next_state
      dsimp only
      split
      · rename_i hns
        simp [hf, h8, hns]
      · rename_i c hns
        rw [if_pos (by exact hf)]
        simp [hf, h8, hns]
  · rename_i hf
    simp [hf]

/-! ## Claim C5: the 6809 `BRA` end-to-end scenario -/

/-- C5 (code evaluation at the failing input): with the 6809 architecture,
`begin(0x1003, 0x20)` followed by `continue(0xFD)` completes with output
exactly `"BRA -3 <1000>"` — the resolved target is computed as
`insn_address + offset = 0x1003 - 3 = 0x1000`, not the architecturally
correct `0x1003 + 2 - 3 = 0x1002` that the claim (and the 6800/6502
handlers, which do add the instruction length) would give. -/
theorem C5_bra_evaluation :
    (runSession cpu_6809 0x1003 0x20 [0xFD]).state = ds_complete ∧
    String.mk (runSession cpu_6809 0x1003 0x20 [0xFD]).insn_string =
      "BRA -3 <1000>" ∧
    (runSession cpu_6809 0x1003 0x20 [0xFD]).resolved_address = 0x1000 ∧
    ¬ String.mk (runSession cpu_6809 0x1003 0x20 [0xFD]).insn_string =
      "BRA -3 <1002>" := by
  refine ⟨by decide, by decide, by decide, by decide⟩

/-! ## Claim C3: the 8-byte overflow bound -/

theorem foldl_continue_fetched_le (rest : List Nat) :
    ∀ s : insn_decode, s.bytes_fetched ≤ 8 →
      (rest.foldl (fun s x => (insn_decode_continue s x).1) s).bytes_fetched ≤ 8 := by
  induction rest with
  | nil => intro s h; exact h
  | cons x xs ih =>
    intro s h
    exact ih _ (continue_fetched_le s x h)

theorem begin_fetched_le (id : insn_decode) (addr b : Nat)
    (h : id.bytes_fetched ≤ 8) :
    (insn_decode_begin id addr b).bytes_fetched ≤ 8 := by
  unfold insn_decode_begin
  dsimp only
  split
  · rw [(dispatcher_frame _).2.2.1]
    simp
  · exact h

/-- C3: (i) for every architecture and byte sequence, `bytes_fetched`
never exceeds 8 (so every write into the 8-byte raw buffer is in
bounds); (ii) a byte supplied to a session still Fetching with 8 bytes
already buffered is not appended: the session is forced to Complete with
`outputString = "<decode overflow>"` and no other field changes. -/
theorem C3_overflow_bound :
    (∀ (c : cpu_t) (addr b : Nat) (rest : List Nat),
      (runSession c addr b rest).bytes_fetched ≤ 8) ∧
    (∀ (id : insn_decode) (b : Nat), id.state = ds_fetching →
      id.bytes_fetched = 8 →
      (insn_decode_continue id b).1 =
        { id with insn_string := "<decode overflow>".toList,
                  state := ds_complete }) := by
  constructor
  · intro c addr b rest
    unfold runSession
    exact foldl_continue_fetched_le rest _
      (begin_fetched_le _ addr b (by simp [insn_decode_init]))
  · intro id b hf h8
    unfold insn_decode_continue
    rw [if_pos hf, if_pos (by simpa [INSN_DECODE_MAXBYTES] using h8)]

/-- Witness for C3 at concrete inputs: a Z80 `DD CB` overshoot session
that still Fetches with 8 buffered bytes, forced to overflow by a 9th
byte; and the bound for a concrete run. -/
theorem C3_overflow_bound_witness :
    (runSession cpu_z80 0x1000 0xDD [0xCB, 5, 0, 0, 0, 0, 0]).bytes_fetched ≤ 8 ∧
    ((runSession cpu_z80 0x1000 0xDD [0xCB, 5, 0, 0, 0, 0, 0]).state = ds_fetching ∧
     (runSession cpu_z80 0x1000 0xDD [0xCB, 5, 0, 0, 0, 0, 0]).bytes_fetched = 8 ∧
     (insn_decode_continue
        (runSession cpu_z80 0x1000 0xDD [0xCB, 5, 0, 0, 0, 0, 0]) 0x42).1 =
       { runSession cpu_z80 0x1000 0xDD [0xCB, 5, 0, 0, 0, 0, 0] with
           insn_string := "<decode overflow>".toList, state := ds_complete }) :=
  ⟨C3_overflow_bound.1 cpu_z80 0x1000 0xDD [0xCB, 5, 0, 0, 0, 0, 0],
   by decide,
   by decide,
   C3_overflow_bound.2 (runSession cpu_z80 0x1000 0xDD [0xCB, 5, 0, 0, 0, 0, 0])
     0x42 (by decide) (by decide)⟩

/-! ## Claim C7: the 6809 `const_off16` operand offset `i + i` -/

theorem getD_set_ne (l : List Nat) (p k v : Nat) (h : ¬ p = k) :
    (l.set p v).getD k 0 = l.getD k 0 := by
  simp [List.getD, List.getElem?_set_ne h]

/-- The exact output of `insn_decode_format_6809` for the
`const_off16`/`const_off16_ind` modes: the displayed 16-bit offset is the
big-endian word at buffer offset `i + i`. -/
theorem fmt6809_const_off16_string (id : insn_decode)
    (ham : id.addrmode = am6809_const_off16 ∨ id.addrmode = am6809_const_off16_ind) :
    (insn_decode_format_6809 id).insn_string =
      (opc6809_str id.bytes).toList ++
      ' ' :: (if am6809_indirect_p id.addrmode then ['['] else []) ++
      decSInt (read_s16be id.bytes
        ((if id.bytes.getD 0 0 = 0x10 ∨ id.bytes.getD 0 0 = 0x11 then 2 else 1) +
         (if id.bytes.getD 0 0 = 0x10 ∨ id.bytes.getD 0 0 = 0x11 then 2 else 1))) ++
      ',' :: (index_regnames.getD
        ((id.bytes.getD
            (if id.bytes.getD 0 0 = 0x10 ∨ id.bytes.getD 0 0 = 0x11 then 2 else 1)
            0 >>> 5) &&& 3) table_dflt).toList ++
      (if am6809_indirect_p id.addrmode then [']'] else []) := by
  rcases ham with ham | ham <;>
    simp [insn_decode_format_6809, insn_decode_format_6809_core, ham, opc6809_str,
      am6809_indirect_p,
      am6809_first, am6809_last, am6809_inherent, am6809_direct, am6809_extended,
      am6809_rel8, am6809_rel16, am6809_imm8, am6809_imm16, am6809_zero_off,
      am6809_zero_off_ind, am6809_const_off5, am6809_const_off8,
      am6809_const_off8_ind, am6809_const_off16, am6809_const_off16_ind,
      am6809_acc_off, am6809_acc_off_ind, am6809_post_inc1, am6809_post_inc2,
      am6809_post_inc2_ind, am6809_pre_dec1, am6809_pre_dec2, am6809_pre_dec2_ind,
      am6809_pcrel8, am6809_pcrel8_ind, am6809_pcrel16, am6809_pcrel16_ind,
      am6809_extended_ind, am6809_exg_tfr, am6809_psh_pul]

/-- C7: for the 6809 `const_off16` and `const_off16_ind` addressing
modes, the displayed constant offset is the big-endian word read at
buffer offset `i + i` (where `i` is 2 after a page-2/page-3 prefix and 1
otherwise) rather than `i + 1`; hence unprefixed instructions read
`bytes[2..3]` while page-prefixed ones read `bytes[4..5]` — in the
prefixed case the output is independent of `bytes[3]`, the actual
first operand byte. -/
theorem C7_const_off16_reads_i_plus_i (id : insn_decode)
    (ham : id.addrmode = am6809_const_off16 ∨ id.addrmode = am6809_const_off16_ind) :
    ((insn_decode_format_6809 id).insn_string =
      (opc6809_str id.bytes).toList ++
      ' ' :: (if am6809_indirect_p id.addrmode then ['['] else []) ++
      decSInt (read_s16be id.bytes
        ((if id.bytes.getD 0 0 = 0x10 ∨ id.bytes.getD 0 0 = 0x11 then 2 else 1) +
         (if id.bytes.getD 0 0 = 0x10 ∨ id.bytes.getD 0 0 = 0x11 then 2 else 1))) ++
      ',' :: (index_regnames.getD
        ((id.bytes.getD
            (if id.bytes.getD 0 0 = 0x10 ∨ id.bytes.getD 0 0 = 0x11 then 2 else 1)
            0 >>> 5) &&& 3) table_dflt).toList ++
      (if am6809_indirect_p id.addrmode then [']'] else [])) ∧
    ((if id.bytes.getD 0 0 = 0x10 ∨ id.bytes.getD 0 0 = 0x11 then (2 : Nat) else 1) +
      (if id.bytes.getD 0 0 = 0x10 ∨ id.bytes.getD 0 0 = 0x11 then (2 : Nat) else 1) =
      if id.bytes.getD 0 0 = 0x10 ∨ id.bytes.getD 0 0 = 0x11 then 4 else 2) ∧
    ((id.bytes.getD 0 0 = 0x10 ∨ id.bytes.getD 0 0 = 0x11) → ∀ v : Nat,
      (insn_decode_format_6809 { id with bytes := id.bytes.set 3 v }).insn_string =
        (insn_decode_format_6809 id).insn_string) := by
  refine ⟨fmt6809_const_off16_string id ham, by split <;> rfl, ?_⟩
  intro hpg v
  have hne3 : ∀ k, ¬ (3 : Nat) = k →
      (id.bytes.set 3 v).getD k 0 = id.bytes.getD k 0 :=
    fun k h => getD_set_ne _ _ _ _ h
  have hpg' : (id.bytes.set 3 v).getD 0 0 = 0x10 ∨
      (id.bytes.set 3 v).getD 0 0 = 0x11 := by
    rw [hne3 0 (by omega)]; exact hpg
  rw [fmt6809_const_off16_string _ (by simpa using ham),
      fmt6809_const_off16_string id ham]
  simp only [if_pos hpg, if_pos hpg', opc6809_str, read_s16be, read_u16be,
    read_u16le, hne3 0 (by omega), hne3 1 (by omega), hne3 2 (by omega),
    hne3 (2 + 2) (by omega), hne3 (2 + 2 + 1) (by omega)]

/-- Witness for C7: a page-2 `LDY` indexed instruction with a
`const_off16` postbyte; the displayed offset comes from `bytes[4..5]`
(`0xBB`, then a stale `0x00`), not from the operand bytes `0xAA 0xBB`. -/
theorem C7_const_off16_witness :
    ((runSession cpu_6809 0x2000 0x10 [0xAE, 0x89, 0xAA, 0xBB]).addrmode =
        am6809_const_off16 ∨
      (runSession cpu_6809 0x2000 0x10 [0xAE, 0x89, 0xAA, 0xBB]).addrmode =
        am6809_const_off16_ind) ∧
    (insn_decode_format_6809
        (runSession cpu_6809 0x2000 0x10 [0xAE, 0x89, 0xAA, 0xBB])).insn_string =
      (opc6809_str (runSession cpu_6809 0x2000 0x10 [0xAE, 0x89, 0xAA, 0xBB]).bytes).toList ++
      ' ' :: (if am6809_indirect_p
          (runSession cpu_6809 0x2000 0x10 [0xAE, 0x89, 0xAA, 0xBB]).addrmode then
          ['['] else []) ++
      decSInt (read_s16be (runSession cpu_6809 0x2000 0x10 [0xAE, 0x89, 0xAA, 0xBB]).bytes 4) ++
      ',' :: (index_regnames.getD
        (((runSession cpu_6809 0x2000 0x10 [0xAE, 0x89, 0xAA, 0xBB]).bytes.getD 2 0 >>> 5) &&& 3)
        table_dflt).toList ++
      (if am6809_indirect_p
          (runSession cpu_6809 0x2000 0x10 [0xAE, 0x89, 0xAA, 0xBB]).addrmode then
          [']'] else []) := by
  refine ⟨by decide, ?_⟩
  have h := (C7_const_off16_reads_i_plus_i
    (runSession cpu_6809 0x2000 0x10 [0xAE, 0x89, 0xAA, 0xBB]) (by decide)).1
  have hpg : (runSession cpu_6809 0x2000 0x10 [0xAE, 0x89, 0xAA, 0xBB]).bytes.getD 0 0 = 0x10 ∨
      (runSession cpu_6809 0x2000 0x10 [0xAE, 0x89, 0xAA, 0xBB]).bytes.getD 0 0 = 0x11 := by
    decide
  rw [h]
  decide

/-! ## Claim C6: 6809 relative-mode target resolution -/

/-- For the relative / PC-relative modes, `insn_decode_format_6809_core`
marks the resolved address valid and computes it as
`insn_address + reloff` (truncated to `uint32_t`), where `reloff` is the
signed displacement `rel6809_offset` reads from the instruction bytes. -/
theorem fmt6809_rel_core (id : insn_decode) (hrel : rel6809 id.addrmode) :
    (insn_decode_format_6809_core id).2.2 = true ∧
    (insn_decode_format_6809_core id).2.1 =
      u32ofInt ((id.insn_address : Int) + rel6809_offset id.addrmode id.bytes) := by
  rcases hrel with ham | ham | ham | ham | ham | ham <;>
    simp [insn_decode_format_6809_core, ham, rel6809_offset,
      am6809_first, am6809_last, am6809_inherent, am6809_direct, am6809_extended,
      am6809_rel8, am6809_rel16, am6809_imm8, am6809_imm16, am6809_zero_off,
      am6809_zero_off_ind, am6809_const_off5, am6809_const_off8,
      am6809_const_off8_ind, am6809_const_off16, am6809_const_off16_ind,
      am6809_acc_off, am6809_acc_off_ind, am6809_post_inc1, am6809_post_inc2,
      am6809_post_inc2_ind, am6809_pre_dec1, am6809_pre_dec2, am6809_pre_dec2_ind,
      am6809_pcrel8, am6809_pcrel8_ind, am6809_pcrel16, am6809_pcrel16_ind,
      am6809_extended_ind, am6809_exg_tfr, am6809_psh_pul]

/-- C6 counterexample: the claim's "4-hex-digit annotation" fails.  With
the 6809 selected, `begin(0x0000, 0x20)`, `continue(0xFD)` resolves the
target as `0 - 3` truncated to `uint32_t`, i.e. `0xFFFFFFFD`, and the
`%04lX` annotation prints 8 hex digits, not 4. -/
theorem C6_counterexample :
    String.mk (runSession cpu_6809 0 0x20 [0xFD]).insn_string =
      "BRA -3 <FFFFFFFD>" ∧
    (runSession cpu_6809 0 0x20 [0xFD]).resolved_address = 0xFFFFFFFD ∧
    (hexPad 4 (runSession cpu_6809 0 0x20 [0xFD]).resolved_address).length = 8 := by
  refine ⟨by decide, by decide, by decide⟩

theorem dispatcher_decomp (id : insn_decode) (c : cpu_t)
    (h : id.next_state = some c) (hst : id.state = ds_fetching) :
    (insn_decode_next_state id).1 =
      (if (arch_next_state c id).state = ds_complete ∧
          (arch_next_state c id).resolved_address_valid = true then
        { arch_next_state c id with insn_string :=
            (arch_next_state c id).insn_string ++ ' ' :: '<' ::
              (hexPad 4 (arch_next_state c id).resolved_address ++ ['>']) }
      else arch_next_state c id) ∧
    (insn_decode_next_state id).2 = true := by
  unfold insn_decode_next_state
  rw [h]
  dsimp only
  rw [if_pos hst]
  constructor
  · split
    · rfl
    · rfl
  · rfl
theorem next6809_complete_shape (id : insn_decode) (hst : id.state = ds_fetching)
    (hcomp : (insn_decode_next_state_6809 id).state = ds_complete) :
    ∃ id1 : insn_decode,
      insn_decode_next_state_6809 id =
        { insn_decode_format_6809 id1 with state := ds_complete } ∧
      id1.bytes = id.bytes ∧ id1.insn_address = id.insn_address ∧
      id1.resolved_address = id.resolved_address ∧
      id1.resolved_address_valid = id.resolved_address_valid ∧
      id1.bytes_fetched = id.bytes_fetched ∧
      id1.bytes_fetched = id1.bytes_required ∧
      (insn_decode_next_state_6809 id).addrmode = id1.addrmode := by
  unfold insn_decode_next_state_6809 at hcomp ⊢
  dsimp only at hcomp ⊢
  by_cases hg : ¬ id.state = ds_fetching ∨ id.bytes_fetched = 0
  · rw [if_pos hg] at hcomp
    rw [hst] at hcomp
    exact absurd hcomp (by decide)
  · rw [if_neg hg] at hcomp ⊢
    by_cases hpfx : id.bytes_required = 0 ∧ id.bytes_fetched = 1 ∧
        (id.bytes.getD 0 0 = 0x10 ∨ id.bytes.getD 0 0 = 0x11)
    · rw [if_pos hpfx] at hcomp
      rw [hst] at hcomp
      exact absurd hcomp (by decide)
    · rw [if_neg hpfx] at hcomp ⊢
      by_cases h0 : id.bytes_required = 0
      · rw [if_pos h0] at hcomp ⊢
        by_cases hv : am6809_first ≤ insn_decode_addrmode_6809 id ∧
            insn_decode_addrmode_6809 id ≤ am6809_last
        · rw [if_pos hv] at hcomp ⊢
          dsimp only at hcomp ⊢
          by_cases he : id.bytes_fetched =
              1 + insn_postbytes_6809.getD
                (Int.toNat (insn_decode_addrmode_6809 id - am6809_first)) 0 +
              (if id.bytes.getD 0 0 = 0x10 ∨ id.bytes.getD 0 0 = 0x11 then 1 else 0)
          · rw [if_pos he] at hcomp ⊢
            refine ⟨_, rfl, rfl, rfl, rfl, rfl, rfl, he, ?_⟩
            exact ((fmt6809_frame _).2.2.2.2.2.2)
          · rw [if_neg he] at hcomp
            rw [hst] at hcomp
            exact absurd hcomp (by decide)
        · rw [if_neg hv] at hcomp ⊢
          dsimp only at hcomp ⊢
          have hne : ¬ id.bytes_fetched = 0 := fun hz => hg (Or.inr hz)
          rw [if_neg (by simp [h0]; omega)] at hcomp
          rw [hst] at hcomp
          exact absurd hcomp (by decide)
      · rw [if_neg h0] at hcomp ⊢
        by_cases he : id.bytes_fetched = id.bytes_required
        · rw [if_pos he] at hcomp ⊢
          refine ⟨id, rfl, rfl, rfl, rfl, rfl, rfl, he, ?_⟩
          exact ((fmt6809_frame _).2.2.2.2.2.2)
        · rw [if_neg he] at hcomp
          rw [hst] at hcomp
          exact absurd hcomp (by decide)

/-- C6 amended: for every 6809/6809E dispatcher step out of Fetching whose
resulting addressing mode is relative or PC-relative, the formatter sets
`resolved_address = (insn_address + signedOffset) mod 2^32` and marks it
valid, and the output string is suffixed with that target in angle
brackets, printed with `%04lX` — at least 4 uppercase hex digits, and
exactly 4 exactly when the resolved address is below `0x10000`. -/
theorem C6_amended (id : insn_decode)
    (hns : id.next_state = some cpu_6809 ∨ id.next_state = some cpu_6809e)
    (hst : id.state = ds_fetching)
    (hval : id.resolved_address_valid = false)
    (hcomp : (insn_decode_next_state id).1.state = ds_complete)
    (hrel : rel6809 ((insn_decode_next_state id).1.addrmode)) :
    (insn_decode_next_state id).1.resolved_address_valid = true ∧
    (insn_decode_next_state id).1.resolved_address =
      u32ofInt ((id.insn_address : Int) +
        rel6809_offset ((insn_decode_next_state id).1.addrmode) id.bytes) ∧
    (∃ body : List Char, (insn_decode_next_state id).1.insn_string =
      body ++ ' ' :: '<' ::
        (hexPad 4 ((insn_decode_next_state id).1.resolved_address) ++ ['>'])) ∧
    ((insn_decode_next_state id).1.resolved_address < 65536 →
      (hexPad 4 ((insn_decode_next_state id).1.resolved_address)).length = 4) := by
  have harch : ∃ c : cpu_t, id.next_state = some c ∧
      arch_next_state c id = insn_decode_next_state_6809 id := by
    rcases hns with hns | hns
    · exact ⟨cpu_6809, hns, rfl⟩
    · exact ⟨cpu_6809e, hns, rfl⟩
  obtain ⟨c, hns', harch⟩ := harch
  have hd := (dispatcher_decomp id c hns' hst).1
  rw [harch] at hd
  rw [hd] at hcomp hrel ⊢
  have hAcomp : (insn_decode_next_state_6809 id).state = ds_complete := by
    split at hcomp
    · exact hcomp
    · exact hcomp
  obtain ⟨id1, hA, hbytes, haddr, hres, hvald, hfet, hreq, ham⟩ :=
    next6809_complete_shape id hst hAcomp
  have hrel1 : rel6809 id1.addrmode := by
    have hsame : ((if (insn_decode_next_state_6809 id).state = ds_complete ∧
        (insn_decode_next_state_6809 id).resolved_address_valid = true then
          { insn_decode_next_state_6809 id with insn_string :=
              (insn_decode_next_state_6809 id).insn_string ++ ' ' :: '<' ::
                (hexPad 4 (insn_decode_next_state_6809 id).resolved_address ++ ['>']) }
        else insn_decode_next_state_6809 id)).addrmode =
        (insn_decode_next_state_6809 id).addrmode := by
      split <;> rfl
    rw [hsame, ham] at hrel
    exact hrel
  have hfmt := fmt6809_rel_core id1 hrel1
  have hAvalid : (insn_decode_next_state_6809 id).resolved_address_valid = true := by
    rw [hA]
    exact hfmt.1
  have hAres : (insn_decode_next_state_6809 id).resolved_address =
      u32ofInt ((id.insn_address : Int) +
        rel6809_offset id1.addrmode id.bytes) := by
    rw [hA]
    show (insn_decode_format_6809 id1).resolved_address = _
    have := hfmt.2
    simp only [insn_decode_format_6809] at this ⊢
    rw [this, haddr, hbytes]
  rw [if_pos ⟨hAcomp, hAvalid⟩] at hrel ⊢
  refine ⟨hAvalid, ?_, ⟨(insn_decode_next_state_6809 id).insn_string, rfl⟩, ?_⟩
  · show (insn_decode_next_state_6809 id).resolved_address = _
    rw [hAres, ham]
  · intro hlt
    exact hexPad_4_length hlt

/-- Witness for C6 at the concrete `BRA` step: a 6809 session holding
`20 FD` at address `0x1003`, completed by the dispatcher. -/
theorem C6_amended_witness :
    ((runSession cpu_6809 0x1003 0x20 []).next_state = some cpu_6809 ∨
     (runSession cpu_6809 0x1003 0x20 []).next_state = some cpu_6809e) ∧
    (insn_decode_next_state
      { runSession cpu_6809 0x1003 0x20 [] with
          bytes := (runSession cpu_6809 0x1003 0x20 []).bytes.set 1 0xFD,
          bytes_fetched := 2 }).1.resolved_address_valid = true := by
  refine ⟨Or.inl (by decide), ?_⟩
  exact (C6_amended
    { runSession cpu_6809 0x1003 0x20 [] with
        bytes := (runSession cpu_6809 0x1003 0x20 []).bytes.set 1 0xFD,
        bytes_fetched := 2 }
    (Or.inl (by decide)) (by decide) (by decide) (by decide)
    (Or.inl (by decide))).1

/-! ## Finite table checks (decided by evaluation) -/

theorem range_all_out {p : Nat → Bool} {n : Nat}
    (h : ((List.range n).all p) = true) {i : Nat} (hi : i < n) : p i = true := by
  rw [List.all_eq_true] at h
  exact h i (List.mem_range.mpr hi)

set_option maxRecDepth 40000

theorem ck_6502_tables : ((List.range 256).all fun b =>
    decide (1 ≤ ((opcodes_6502.getD b table_dflt).toList).length ∧
      ((opcodes_6502.getD b table_dflt).toList).length ≤ 13 ∧
      1 ≤ ((opcodes_65c02.getD b table_dflt).toList).length ∧
      ((opcodes_65c02.getD b table_dflt).toList).length ≤ 13)) = true := by decide

theorem ck_6800_table : ((List.range 256).all fun b =>
    decide (1 ≤ ((opcodes_6800.getD b table_dflt).toList).length ∧
      ((opcodes_6800.getD b table_dflt).toList).length ≤ 4)) = true := by decide

theorem ck_6809_table : ((List.range 256).all fun b =>
    decide (1 ≤ ((opcodes_6809.getD b table_dflt).toList).length ∧
      ((opcodes_6809.getD b table_dflt).toList).length ≤ 5)) = true := by decide

theorem ck_6809_ext : ((List.range 256).all fun b =>
    decide (1 ≤ (opcode_ext_6809 (0x1000 + b)).length ∧
      (opcode_ext_6809 (0x1000 + b)).length ≤ 4 ∧
      1 ≤ (opcode_ext_6809 (0x1100 + b)).length ∧
      (opcode_ext_6809 (0x1100 + b)).length ≤ 4)) = true := by decide

theorem ck_6809_indexed : ((List.range 256).all fun pb =>
    decide (insn_decode_addrmode_indexed_6809 pb = am_invalid ∨
      (am6809_zero_off ≤ insn_decode_addrmode_indexed_6809 pb ∧
       insn_decode_addrmode_indexed_6809 pb ≤ am6809_extended_ind ∧
       1 ≤ insn_postbytes_6809.getD
         (Int.toNat (insn_decode_addrmode_indexed_6809 pb - am6809_first)) 0))) =
    true := by decide

theorem ck_z80_plain : ((List.range 256).all fun b =>
    decide (1 ≤ ((opcodes_z80.getD b table_dflt).toList).length ∧
      ((opcodes_z80.getD b table_dflt).toList).length ≤ 13 ∧
      1 + z80_ops_total ((opcodes_z80.getD b table_dflt).toList) ≤ 8)) = true := by
  decide

theorem ck_z80_ed : ((List.range 256).all fun b =>
    decide (1 ≤ (z80_ed_tmpl b).length ∧ (z80_ed_tmpl b).length ≤ 17 ∧
      2 + z80_ops_total (z80_ed_tmpl b) ≤ 8)) = true := by decide

theorem ck_z80_cb : ((List.range 256).all fun b =>
    decide (1 ≤ (z80_cb_tbuf b).length ∧ (z80_cb_tbuf b).length ≤ 17 ∧
      2 + z80_ops_total (z80_cb_tbuf b) ≤ 8)) = true := by decide

theorem ck_z80_ddfd : ((List.range 256).all fun b =>
    decide (1 ≤ (z80_ddfd_tmpl 0xdd b).length ∧ (z80_ddfd_tmpl 0xdd b).length ≤ 17 ∧
      2 + z80_ops_total (z80_ddfd_tmpl 0xdd b) ≤ 8 ∧
      1 ≤ (z80_ddfd_tmpl 0xfd b).length ∧ (z80_ddfd_tmpl 0xfd b).length ≤ 17 ∧
      2 + z80_ops_total (z80_ddfd_tmpl 0xfd b) ≤ 8)) = true := by decide

theorem ck_z80_ddcb : ((List.range 256).all fun b =>
    decide (1 ≤ (z80_ddcb_tmpl 0xdd b).length ∧ (z80_ddcb_tmpl 0xdd b).length ≤ 17 ∧
      3 + z80_ops_total (z80_ddcb_tmpl 0xdd b) ≤ 8 ∧
      z80_ops_total (z80_ddcb_tmpl 0xdd b) ≤ 1 ∧
      1 ≤ (z80_ddcb_tmpl 0xfd b).length ∧ (z80_ddcb_tmpl 0xfd b).length ≤ 17 ∧
      3 + z80_ops_total (z80_ddcb_tmpl 0xfd b) ≤ 8 ∧
      z80_ops_total (z80_ddcb_tmpl 0xfd b) ≤ 1)) = true := by decide

theorem pb6809_le_3 : ∀ i : Nat, insn_postbytes_6809.getD i 0 ≤ 3 := by
  intro i
  by_cases hi : i < insn_postbytes_6809.length
  · rw [List.getD_eq_getElem _ 0 hi]
    have hall : ∀ x ∈ insn_postbytes_6809, x ≤ 3 := by decide
    exact hall _ (List.getElem_mem hi)
  · rw [List.getD_eq_default _ 0 (by omega)]
    omega

/-! ## Format output bounds -/

theorem tbl6502_bounds (c : cpu_t) {b : Nat} (hb : b < 256) :
    1 ≤ (((opcodes_6502_for c).getD b table_dflt).toList).length ∧
    (((opcodes_6502_for c).getD b table_dflt).toList).length ≤ 13 := by
  have h := of_decide_eq_true (range_all_out ck_6502_tables hb)
  unfold opcodes_6502_for
  split
  · exact ⟨h.2.2.1, h.2.2.2⟩
  · exact ⟨h.1, h.2.1⟩

theorem fmt6502_core_bounds (c : cpu_t) (id : insn_decode) (hB : bytesOK id.bytes) :
    1 ≤ (insn_decode_format_6502_core c id).1.length ∧
    (insn_decode_format_6502_core c id).1.length ≤ 13 ∧
    ((insn_decode_format_6502_core c id).2.2 = true →
      id.resolved_address_valid = false →
      (insn_decode_format_6502_core c id).2.1 < 4294967296) := by
  have hb0 := bytesOK_getD hB 0
  have ht := tbl6502_bounds c hb0
  have hb1 := bytesOK_getD hB 1
  unfold insn_decode_format_6502_core
  dsimp only
  split
  · split
    · rename_i p heq
      have hle := strstrIdx_le _ _ heq
      rw [show ("nn".toList).length = 2 from rfl] at hle
      have hlen : (overwrite (((opcodes_6502_for c).getD (id.bytes.getD 0 0)
          table_dflt).toList) p (hexPad 2 (id.bytes.getD 1 0))).length =
          (((opcodes_6502_for c).getD (id.bytes.getD 0 0) table_dflt).toList).length := by
        apply overwrite_length
        rw [hexPad_2_length hb1]
        omega
      exact ⟨by dsimp only; omega, by dsimp only; omega, fun _ hv => by simp_all⟩
    · exact ⟨by dsimp only; omega, by dsimp only; omega, fun _ hv => by simp_all⟩
  · split
    · split
      · rename_i p heq
        have hle := strstrIdx_le _ _ heq
        rw [show ("nnnn".toList).length = 4 from rfl] at hle
        have hu16 := read_u16le_lt hB 1
        have hlen : (overwrite (((opcodes_6502_for c).getD (id.bytes.getD 0 0)
            table_dflt).toList) p (hexPad 4 (read_u16le id.bytes 1))).length =
            (((opcodes_6502_for c).getD (id.bytes.getD 0 0) table_dflt).toList).length := by
          apply overwrite_length
          rw [hexPad_4_length hu16]
          omega
        exact ⟨by dsimp only; omega, by dsimp only; omega, fun _ hv => by simp_all⟩
      · exact ⟨by dsimp only; omega, by dsimp only; omega, fun _ hv => by simp_all⟩
    · split
      · split
        · rename_i p heq
          have hle := strstrIdx_le _ _ heq
          rw [show ("rrrr".toList).length = 4 from rfl] at hle
          have hlen : (overwrite (((opcodes_6502_for c).getD (id.bytes.getD 0 0)
              table_dflt).toList) p
              (padTake 4 (decSInt (sext8 (id.bytes.getD 1 0))))).length =
              (((opcodes_6502_for c).getD (id.bytes.getD 0 0) table_dflt).toList).length := by
            apply overwrite_length
            rw [padTake_length]
            omega
          exact ⟨by dsimp only; omega, by dsimp only; omega, fun _ _ => u32ofInt_lt _⟩
        · exact ⟨by dsimp only; omega, by dsimp only; omega, fun _ hv => by simp_all⟩
      · exact ⟨by dsimp only; omega, by dsimp only; omega, fun _ hv => by simp_all⟩

theorem fmt6800_core_bounds (id : insn_decode) (hB : bytesOK id.bytes) :
    1 ≤ (insn_decode_format_6800_core id).1.length ∧
    (insn_decode_format_6800_core id).1.length ≤ 12 ∧
    ((insn_decode_format_6800_core id).2.2 = true →
      id.resolved_address_valid = false →
      (insn_decode_format_6800_core id).2.1 < 4294967296) := by
  have hb0 := bytesOK_getD hB 0
  have hb1 := bytesOK_getD hB 1
  have ht := of_decide_eq_true (range_all_out ck_6800_table hb0)
  have hdec : (decSInt (sext8 (id.bytes.getD 1 0))).length ≤ 4 := by
    have h1 := sext8_natAbs hb1
    have := decSInt_length_le (z := sext8 (id.bytes.getD 1 0)) (k := 3)
      (by omega) (by omega) (by omega)
    omega
  have hnat : (natDec (id.bytes.getD 1 0)).length ≤ 3 :=
    natDec_length_le (by omega) (by omega) (by omega)
  have hx4 : (hexPad 4 (read_u16be id.bytes 1)).length = 4 :=
    hexPad_4_length (read_u16be_lt hB 1)
  have hx2 : (hexPad 2 (id.bytes.getD 1 0)).length = 2 := hexPad_2_length hb1
  have hu32 := u32ofInt_lt ((id.insn_address : Int) + 2 + sext8 (id.bytes.getD 1 0))
  unfold insn_decode_format_6800_core
  dsimp only
  repeat' split
  all_goals
    simp_all [List.length_append]
  all_goals omega

theorem psh_pul_step_le (b0 bi : Nat) (acc : List Char) (ent : Nat × Option String)
    (n : Nat) (hn : (match ent.2 with | some s => s.toList.length | none => 1) ≤ n) :
    (psh_pul_step b0 bi acc ent).length ≤ acc.length + 1 + n := by
  have c1 : (",".toList).length = 1 := rfl
  have c0 : (("").toList).length = 0 := rfl
  have cU : ("U".toList).length = 1 := rfl
  have cS : ("S".toList).length = 1 := rfl
  unfold psh_pul_step
  dsimp only
  split
  · match hent : ent.2 with
    | some s =>
      simp only [hent] at hn ⊢
      split <;> simp only [List.length_append, c1, c0] <;> omega
    | none =>
      simp only [hent] at hn ⊢
      split <;> split <;> simp only [List.length_append, c1, c0, cU, cS] <;> omega
  · omega

theorem psh_pul_body_le (b0 bi : Nat) : (psh_pul_body b0 bi).length ≤ 21 := by
  unfold psh_pul_body psh_pul_regnames
  simp only [List.foldl]
  have s1 := psh_pul_step_le b0 bi ([] : List Char) (1, some "CCR") 3 (by decide)
  have s2 := psh_pul_step_le b0 bi (psh_pul_step b0 bi ([] : List Char) (1, some "CCR")) (2, some "A") 1 (by decide)
  have s3 := psh_pul_step_le b0 bi (psh_pul_step b0 bi (psh_pul_step b0 bi ([] : List Char) (1, some "CCR")) (2, some "A")) (4, some "B") 1 (by decide)
  have s4 := psh_pul_step_le b0 bi (psh_pul_step b0 bi (psh_pul_step b0 bi (psh_pul_step b0 bi ([] : List Char) (1, some "CCR")) (2, some "A")) (4, some "B")) (8, some "DPR") 3 (by decide)
  have s5 := psh_pul_step_le b0 bi (psh_pul_step b0 bi (psh_pul_step b0 bi (psh_pul_step b0 bi (psh_pul_step b0 bi ([] : List Char) (1, some "CCR")) (2, some "A")) (4, some "B")) (8, some "DPR")) (16, some "X") 1 (by decide)
  have s6 := psh_pul_step_le b0 bi (psh_pul_step b0 bi (psh_pul_step b0 bi (psh_pul_step b0 bi (psh_pul_step b0 bi (psh_pul_step b0 bi ([] : List Char) (1, some "CCR")) (2, some "A")) (4, some "B")) (8, some "DPR")) (16, some "X")) (32, some "Y") 1 (by decide)
  have s7 := psh_pul_step_le b0 bi (psh_pul_step b0 bi (psh_pul_step b0 bi (psh_pul_step b0 bi (psh_pul_step b0 bi (psh_pul_step b0 bi (psh_pul_step b0 bi ([] : List Char) (1, some "CCR")) (2, some "A")) (4, some "B")) (8, some "DPR")) (16, some "X")) (32, some "Y")) (64, none) 1 (by decide)
  have s8 := psh_pul_step_le b0 bi (psh_pul_step b0 bi (psh_pul_step b0 bi (psh_pul_step b0 bi (psh_pul_step b0 bi (psh_pul_step b0 bi (psh_pul_step b0 bi (psh_pul_step b0 bi ([] : List Char) (1, some "CCR")) (2, some "A")) (4, some "B")) (8, some "DPR")) (16, some "X")) (32, some "Y")) (64, none)) (128, some "PC") 2 (by decide)
  simp only [List.length_nil] at s1
  omega

theorem getD_str_le (l : List String) (d : String) (k n : Nat)
    (hall : ∀ x ∈ l, x.length ≤ n) (hd : d.length ≤ n) :
    ((l.getD k d)).length ≤ n := by
  by_cases hk : k < l.length
  · rw [List.getD_eq_getElem _ _ hk]
    exact hall _ (List.getElem_mem hk)
  · rw [List.getD_eq_default _ _ (by omega)]
    exact hd

theorem index_regnames_le (k : Nat) :
    ((index_regnames.getD k table_dflt)).length ≤ 1 :=
  getD_str_le _ _ _ _ (by decide) (by decide)

theorem exg_regname_le (v : Nat) :
    1 ≤ (insn_decode_format_exg_tfr_regname_6809 v).length ∧
    (insn_decode_format_exg_tfr_regname_6809 v).length ≤ 3 := by
  unfold insn_decode_format_exg_tfr_regname_6809
  repeat' split
  all_goals decide

theorem opc6809_str_bounds (bytes : List Nat) (hB : bytesOK bytes) :
    1 ≤ (opc6809_str bytes).length ∧ (opc6809_str bytes).length ≤ 5 := by
  unfold opc6809_str
  have hb0 := bytesOK_getD hB 0
  have hb1 := bytesOK_getD hB 1
  split
  · rename_i hpg
    have h := of_decide_eq_true (range_all_out ck_6809_ext hb1)
    rcases hpg with hpg | hpg <;> rw [hpg]
    · have : 16 * 256 + bytes.getD 1 0 = 0x1000 + bytes.getD 1 0 := by omega
      rw [this]
      exact ⟨h.1, by omega⟩
    · have : 17 * 256 + bytes.getD 1 0 = 0x1100 + bytes.getD 1 0 := by omega
      rw [this]
      exact ⟨h.2.2.1, by omega⟩
  · have h := of_decide_eq_true (range_all_out ck_6809_table hb0)
    rw [show ((opcodes_6809.getD (bytes.getD 0 0) table_dflt).toList).length =
      (opcodes_6809.getD (bytes.getD 0 0) table_dflt).length from rfl] at h
    exact ⟨h.1, h.2⟩

theorem fmt6809_core_bounds (id : insn_decode) (hB : bytesOK id.bytes)
    (hfs : pcrel6809 id.addrmode → (opc6809_str id.bytes).length ≤ 4) :
    1 ≤ (insn_decode_format_6809_core id).1.length ∧
    (insn_decode_format_6809_core id).1.length ≤ 27 ∧
    ((insn_decode_format_6809_core id).2.2 = true →
      id.resolved_address_valid = false →
      (insn_decode_format_6809_core id).1.length ≤ 17 ∧
      (insn_decode_format_6809_core id).2.1 < 4294967296) := by
  have hb0 := bytesOK_getD hB 0
  have hb1 := bytesOK_getD hB 1
  have hL1 : (" < $".toList).length = 4 := rfl
  have hL2 : (" #$".toList).length = 3 := rfl
  have hL3 : ("++".toList).length = 2 := rfl
  have hL4 : (",--".toList).length = 3 := rfl
  have hL5 : (",PCR".toList).length = 4 := rfl
  obtain ⟨a, hA⟩ : ∃ a : Int, a = id.addrmode := ⟨id.addrmode, rfl⟩
  rw [← hA] at hfs
  unfold insn_decode_format_6809_core
  dsimp only
  rw [← hA]
  by_cases hguard : a < am6809_first ∨ am6809_last < a
  · rw [if_pos hguard]
    refine ⟨?_, ?_, fun h2 hv => ?_⟩
    · dsimp only; decide
    · dsimp only; decide
    · simp [hv] at h2
  · rw [if_neg hguard]
    have hg2 : ¬(a < (0 : Int) ∨ (28 : Int) < a) := hguard
    have ham : a = 0 ∨ a = 1 ∨ a = 2 ∨
        a = 3 ∨ a = 4 ∨ a = 5 ∨ a = 6 ∨
        a = 7 ∨ a = 8 ∨ a = 9 ∨ a = 10 ∨
        a = 11 ∨ a = 12 ∨ a = 13 ∨
        a = 14 ∨ a = 15 ∨ a = 16 ∨
        a = 17 ∨ a = 18 ∨ a = 19 ∨
        a = 20 ∨ a = 21 ∨ a = 22 ∨
        a = 23 ∨ a = 24 ∨ a = 25 ∨
        a = 26 ∨ a = 27 ∨ a = 28 := by omega
    by_cases hpg : id.bytes.getD 0 0 = 0x10 ∨ id.bytes.getD 0 0 = 0x11
    · have hopc : 1 ≤ ((opcode_ext_6809 (id.bytes.getD 0 0 * 256 +
          id.bytes.getD 1 0)).toList).length ∧
          ((opcode_ext_6809 (id.bytes.getD 0 0 * 256 +
            id.bytes.getD 1 0)).toList).length ≤ 4 := by
        have hck := of_decide_eq_true (range_all_out ck_6809_ext hb1)
        have hc : ∀ t : String, t.toList.length = t.length := fun t => rfl
        rcases hpg with h0 | h0 <;> rw [h0]
        · rw [show (16 : Nat) * 256 + id.bytes.getD 1 0 =
            4096 + id.bytes.getD 1 0 from by omega, hc]
          exact ⟨hck.1, hck.2.1⟩
        · rw [show (17 : Nat) * 256 + id.bytes.getD 1 0 =
            4352 + id.bytes.getD 1 0 from by omega, hc]
          exact ⟨hck.2.2.1, hck.2.2.2⟩
      repeat rw [if_pos hpg]
      have hx2 : (hexPad 2 (id.bytes.getD 2 0)).length = 2 :=
        hexPad_2_length (bytesOK_getD hB 2)
      have hx4a : (hexPad 4 (read_u16be id.bytes 2)).length = 4 :=
        hexPad_4_length (read_u16be_lt hB 2)
      have hx4b : (hexPad 4 (read_u16be id.bytes (2 + 1))).length = 4 :=
        hexPad_4_length (read_u16be_lt hB (2 + 1))
      have hs8a : (decSInt (sext8 (id.bytes.getD 2 0))).length ≤ 4 := by
        have h1 := sext8_natAbs_getD hB 2
        have := decSInt_length_le (z := sext8 (id.bytes.getD 2 0)) (k := 3)
          (by omega) (by omega) (by omega)
        omega
      have h16a : (decSInt (read_s16be id.bytes 2)).length ≤ 6 :=
        decSInt_length_le_6 (read_s16be_natAbs hB 2)
      have hs8b : (decSInt (sext8 (id.bytes.getD (2 + 1) 0))).length ≤ 4 := by
        have h1 := sext8_natAbs_getD hB (2 + 1)
        have := decSInt_length_le (z := sext8 (id.bytes.getD (2 + 1) 0)) (k := 3)
          (by omega) (by omega) (by omega)
        omega
      have h16b : (decSInt (read_s16be id.bytes (2 + 1))).length ≤ 6 :=
        decSInt_length_le_6 (read_s16be_natAbs hB (2 + 1))
      have hs8c : (decSInt (sext8 (id.bytes.getD (2 + 2) 0))).length ≤ 4 := by
        have h1 := sext8_natAbs_getD hB (2 + 2)
        have := decSInt_length_le (z := sext8 (id.bytes.getD (2 + 2) 0)) (k := 3)
          (by omega) (by omega) (by omega)
        omega
      have h16c : (decSInt (read_s16be id.bytes (2 + 2))).length ≤ 6 :=
        decSInt_length_le_6 (read_s16be_natAbs hB (2 + 2))
      have h5 : (decSInt ((id.bytes.getD 2 0 &&& 31 : Nat) : Int)).length ≤ 3 := by
        have hle : id.bytes.getD 2 0 &&& 31 ≤ 31 := Nat.and_le_right
        have := decSInt_length_le
          (z := ((id.bytes.getD 2 0 &&& 31 : Nat) : Int)) (k := 2)
          (by omega) (by omega) (by simp only [Int.natAbs_ofNat]; omega)
        omega
      have hir : ((index_regnames.getD ((id.bytes.getD 2 0 >>> 5) &&& 3)
          table_dflt).toList).length ≤ 1 := index_regnames_le _
      have hex1 := exg_regname_le (id.bytes.getD 2 0 >>> 4)
      have hex2 := exg_regname_le (id.bytes.getD 2 0 &&& 15)
      have hec : ∀ v, ((insn_decode_format_exg_tfr_regname_6809 v).toList).length =
          (insn_decode_format_exg_tfr_regname_6809 v).length := fun v => rfl
      rw [← hec] at hex1
      rw [← hec] at hex2
      have hpsh : (psh_pul_body (id.bytes.getD 0 0) (id.bytes.getD 2 0)).length ≤ 21 :=
        psh_pul_body_le _ _
      rcases ham with h|h|h|h|h|h|h|h|h|h|h|h|h|h|h|h|h|h|h|h|h|h|h|h|h|h|h|h|h
      · rw [h]
        rw [if_neg (by decide)]
        rw [if_pos (by decide)]
        repeat' split
        all_goals refine ⟨?_, ?_, fun h2 hv => ?_⟩
        all_goals try (simp [hv] at h2)
        all_goals try (refine ⟨?_, u32ofInt_lt _⟩)
        all_goals simp only [List.length_append, List.length_cons, List.length_nil]
        all_goals omega
      · rw [h]
        rw [if_neg (by decide)]
        rw [if_neg (by decide)]
        rw [if_pos (by decide)]
        repeat' split
        all_goals refine ⟨?_, ?_, fun h2 hv => ?_⟩
        all_goals try (simp [hv] at h2)
        all_goals try (refine ⟨?_, u32ofInt_lt _⟩)
        all_goals simp only [List.length_append, List.length_cons, List.length_nil]
        all_goals omega
      · rw [h]
        rw [if_neg (by decide)]
        rw [if_neg (by decide)]
        rw [if_neg (by decide)]
        rw [if_pos (by decide)]
        rw [if_neg (show ¬am6809_indirect_p (2 : Int) = true from by decide)]
        rw [if_neg (show ¬((2 : Int) = am6809_extended_ind) from by decide)]
        rw [if_neg (show ¬am6809_indirect_p (2 : Int) = true from by decide)]
        repeat' split
        all_goals refine ⟨?_, ?_, fun h2 hv => ?_⟩
        all_goals try (simp [hv] at h2)
        all_goals try (refine ⟨?_, u32ofInt_lt _⟩)
        all_goals simp only [List.length_append, List.length_cons, List.length_nil]
        all_goals omega
      · rw [h]
        rw [if_pos (by decide)]
        rw [if_neg (by decide)]
        rw [if_neg (by decide)]
        rw [if_neg (by decide)]
        rw [if_pos (by decide)]
        repeat' split
        all_goals refine ⟨?_, ?_, fun h2 hv => ?_⟩
        all_goals try (simp [hv] at h2)
        all_goals try (refine ⟨?_, u32ofInt_lt _⟩)
        all_goals simp only [List.length_append, List.length_cons, List.length_nil]
        all_goals omega
      · rw [h]
        rw [if_pos (by decide)]
        rw [if_neg (by decide)]
        rw [if_neg (by decide)]
        rw [if_neg (by decide)]
        rw [if_neg (by decide)]
        rw [if_pos (by decide)]
        repeat' split
        all_goals refine ⟨?_, ?_, fun h2 hv => ?_⟩
        all_goals try (simp [hv] at h2)
        all_goals try (refine ⟨?_, u32ofInt_lt _⟩)
        all_goals simp only [List.length_append, List.length_cons, List.length_nil]
        all_goals omega
      · rw [h]
        rw [if_neg (by decide)]
        rw [if_neg (by decide)]
        rw [if_neg (by decide)]
        rw [if_neg (by decide)]
        rw [if_neg (by decide)]
        rw [if_neg (by decide)]
        rw [if_pos (by decide)]
        repeat' split
        all_goals refine ⟨?_, ?_, fun h2 hv => ?_⟩
        all_goals try (simp [hv] at h2)
        all_goals try (refine ⟨?_, u32ofInt_lt _⟩)
        all_goals simp only [List.length_append, List.length_cons, List.length_nil]
        all_goals omega
      · rw [h]
        rw [if_neg (by decide)]
        rw [if_neg (by decide)]
        rw [if_neg (by decide)]
        rw [if_neg (by decide)]
        rw [if_neg (by decide)]
        rw [if_neg (by decide)]
        rw [if_neg (by decide)]
        rw [if_pos (by decide)]
        repeat' split
        all_goals refine ⟨?_, ?_, fun h2 hv => ?_⟩
        all_goals try (simp [hv] at h2)
        all_goals try (refine ⟨?_, u32ofInt_lt _⟩)
        all_goals simp only [List.length_append, List.length_cons, List.length_nil]
        all_goals omega
      · rw [h]
        rw [if_neg (by decide)]
        rw [if_neg (by decide)]
        rw [if_neg (by decide)]
        rw [if_neg (by decide)]
        rw [if_neg (by decide)]
        rw [if_neg (by decide)]
        rw [if_neg (by decide)]
        rw [if_neg (by decide)]
        rw [if_pos (by decide)]
        rw [if_neg (show ¬am6809_indirect_p (7 : Int) = true from by decide)]
        rw [if_neg (show ¬am6809_indirect_p (7 : Int) = true from by decide)]
        repeat' split
        all_goals refine ⟨?_, ?_, fun h2 hv => ?_⟩
        all_goals try (simp [hv] at h2)
        all_goals try (refine ⟨?_, u32ofInt_lt _⟩)
        all_goals simp only [List.length_append, List.length_cons, List.length_nil]
        all_goals omega
      · rw [h]
        rw [if_neg (by decide)]
        rw [if_neg (by decide)]
        rw [if_neg (by decide)]
        rw [if_neg (by decide)]
        rw [if_neg (by decide)]
        rw [if_neg (by decide)]
        rw [if_neg (by decide)]
        rw [if_neg (by decide)]
        rw [if_pos (by decide)]
        rw [if_pos (show am6809_indirect_p (8 : Int) = true from by decide)]
        rw [if_pos (show am6809_indirect_p (8 : Int) = true from by decide)]
        repeat' split
        all_goals refine ⟨?_, ?_, fun h2 hv => ?_⟩
        all_goals try (simp [hv] at h2)
        all_goals try (refine ⟨?_, u32ofInt_lt _⟩)
        all_goals simp only [List.length_append, List.length_cons, List.length_nil]
        all_goals omega
      · rw [h]
        rw [if_neg (by decide)]
        rw [if_neg (by decide)]
        rw [if_neg (by decide)]
        rw [if_neg (by decide)]
        rw [if_neg (by decide)]
        rw [if_neg (by decide)]
        rw [if_neg (by decide)]
        rw [if_neg (by decide)]
        rw [if_neg (by decide)]
        rw [if_pos (by decide)]
        rw [if_neg (show ¬am6809_indirect_p (9 : Int) = true from by decide)]
        rw [if_neg (show ¬am6809_indirect_p (9 : Int) = true from by decide)]
        repeat' split
        all_goals refine ⟨?_, ?_, fun h2 hv => ?_⟩
        all_goals try (simp [hv] at h2)
        all_goals try (refine ⟨?_, u32ofInt_lt _⟩)
        all_goals simp only [List.length_append, List.length_cons, List.length_nil]
        all_goals omega
      · rw [h]
        rw [if_neg (by decide)]
        rw [if_neg (by decide)]
        rw [if_neg (by decide)]
        rw [if_neg (by decide)]
        rw [if_neg (by decide)]
        rw [if_neg (by decide)]
        rw [if_neg (by decide)]
        rw [if_neg (by decide)]
        rw [if_neg (by decide)]
        rw [if_neg (by decide)]
        rw [if_pos (by decide)]
        rw [if_neg (show ¬am6809_indirect_p (10 : Int) = true from by decide)]
        rw [if_neg (show ¬am6809_indirect_p (10 : Int) = true from by decide)]
        repeat' split
        all_goals refine ⟨?_, ?_, fun h2 hv => ?_⟩
        all_goals try (simp [hv] at h2)
        all_goals try (refine ⟨?_, u32ofInt_lt _⟩)
        all_goals simp only [List.length_append, List.length_cons, List.length_nil]
        all_goals omega
      · rw [h]
        rw [if_neg (by decide)]
        rw [if_neg (by decide)]
        rw [if_neg (by decide)]
        rw [if_neg (by decide)]
        rw [if_neg (by decide)]
        rw [if_neg (by decide)]
        rw [if_neg (by decide)]
        rw [if_neg (by decide)]
        rw [if_neg (by decide)]
        rw [if_neg (by decide)]
        rw [if_pos (by decide)]
        rw [if_pos (show am6809_indirect_p (11 : Int) = true from by decide)]
        rw [if_pos (show am6809_indirect_p (11 : Int) = true from by decide)]
        repeat' split
        all_goals refine ⟨?_, ?_, fun h2 hv => ?_⟩
        all_goals try (simp [hv] at h2)
        all_goals try (refine ⟨?_, u32ofInt_lt _⟩)
        all_goals simp only [List.length_append, List.length_cons, List.length_nil]
        all_goals omega
      · rw [h]
        rw [if_neg (by decide)]
        rw [if_neg (by decide)]
        rw [if_neg (by decide)]
        rw [if_neg (by decide)]
        rw [if_neg (by decide)]
        rw [if_neg (by decide)]
        rw [if_neg (by decide)]
        rw [if_neg (by decide)]
        rw [if_neg (by decide)]
        rw [if_neg (by decide)]
        rw [if_neg (by decide)]
        rw [if_pos (by decide)]
        rw [if_neg (show ¬am6809_indirect_p (12 : Int) = true from by decide)]
        rw [if_neg (show ¬am6809_indirect_p (12 : Int) = true from by decide)]
        repeat' split
        all_goals refine ⟨?_, ?_, fun h2 hv => ?_⟩
        all_goals try (simp [hv] at h2)
        all_goals try (refine ⟨?_, u32ofInt_lt _⟩)
        all_goals simp only [List.length_append, List.length_cons, List.length_nil]
        all_goals omega
      · rw [h]
        rw [if_neg (by decide)]
        rw [if_neg (by decide)]
        rw [if_neg (by decide)]
        rw [if_neg (by decide)]
        rw [if_neg (by decide)]
        rw [if_neg (by decide)]
        rw [if_neg (by decide)]
        rw [if_neg (by decide)]
        rw [if_neg (by decide)]
        rw [if_neg (by decide)]
        rw [if_neg (by decide)]
        rw [if_pos (by decide)]
        rw [if_pos (show am6809_indirect_p (13 : Int) = true from by decide)]
        rw [if_pos (show am6809_indirect_p (13 : Int) = true from by decide)]
        repeat' split
        all_goals refine ⟨?_, ?_, fun h2 hv => ?_⟩
        all_goals try (simp [hv] at h2)
        all_goals try (refine ⟨?_, u32ofInt_lt _⟩)
        all_goals simp only [List.length_append, List.length_cons, List.length_nil]
        all_goals omega
      · rw [h]
        rw [if_neg (by decide)]
        rw [if_neg (by decide)]
        rw [if_neg (by decide)]
        rw [if_neg (by decide)]
        rw [if_neg (by decide)]
        rw [if_neg (by decide)]
        rw [if_neg (by decide)]
        rw [if_neg (by decide)]
        rw [if_neg (by decide)]
        rw [if_neg (by decide)]
        rw [if_neg (by decide)]
        rw [if_neg (by decide)]
        rw [if_pos (by decide)]
        rw [if_neg (show ¬am6809_indirect_p (14 : Int) = true from by decide)]
        rw [if_neg (show ¬am6809_indirect_p (14 : Int) = true from by decide)]
        repeat' split
        all_goals refine ⟨?_, ?_, fun h2 hv => ?_⟩
        all_goals try (simp [hv] at h2)
        all_goals try (refine ⟨?_, u32ofInt_lt _⟩)
        all_goals simp only [List.length_append, List.length_cons, List.length_nil]
        all_goals omega
      · rw [h]
        rw [if_neg (by decide)]
        rw [if_neg (by decide)]
        rw [if_neg (by decide)]
        rw [if_neg (by decide)]
        rw [if_neg (by decide)]
        rw [if_neg (by decide)]
        rw [if_neg (by decide)]
        rw [if_neg (by decide)]
        rw [if_neg (by decide)]
        rw [if_neg (by decide)]
        rw [if_neg (by decide)]
        rw [if_neg (by decide)]
        rw [if_pos (by decide)]
        rw [if_pos (show am6809_indirect_p (15 : Int) = true from by decide)]
        rw [if_pos (show am6809_indirect_p (15 : Int) = true from by decide)]
        repeat' split
        all_goals refine ⟨?_, ?_, fun h2 hv => ?_⟩
        all_goals try (simp [hv] at h2)
        all_goals try (refine ⟨?_, u32ofInt_lt _⟩)
        all_goals simp only [List.length_append, List.length_cons, List.length_nil]
        all_goals omega
      · rw [h]
        rw [if_neg (by decide)]
        rw [if_neg (by decide)]
        rw [if_neg (by decide)]
        rw [if_neg (by decide)]
        rw [if_neg (by decide)]
        rw [if_neg (by decide)]
        rw [if_neg (by decide)]
        rw [if_neg (by decide)]
        rw [if_neg (by decide)]
        rw [if_neg (by decide)]
        rw [if_neg (by decide)]
        rw [if_neg (by decide)]
        rw [if_neg (by decide)]
        rw [if_pos (by decide)]
        repeat' split
        all_goals refine ⟨?_, ?_, fun h2 hv => ?_⟩
        all_goals try (simp [hv] at h2)
        all_goals try (refine ⟨?_, u32ofInt_lt _⟩)
        all_goals simp only [List.length_append, List.length_cons, List.length_nil]
        all_goals omega
      · rw [h]
        rw [if_neg (by decide)]
        rw [if_neg (by decide)]
        rw [if_neg (by decide)]
        rw [if_neg (by decide)]
        rw [if_neg (by decide)]
        rw [if_neg (by decide)]
        rw [if_neg (by decide)]
        rw [if_neg (by decide)]
        rw [if_neg (by decide)]
        rw [if_neg (by decide)]
        rw [if_neg (by decide)]
        rw [if_neg (by decide)]
        rw [if_neg (by decide)]
        rw [if_neg (by decide)]
        rw [if_pos (by decide)]
        rw [if_neg (show ¬am6809_indirect_p (17 : Int) = true from by decide)]
        rw [if_neg (show ¬am6809_indirect_p (17 : Int) = true from by decide)]
        repeat' split
        all_goals refine ⟨?_, ?_, fun h2 hv => ?_⟩
        all_goals try (simp [hv] at h2)
        all_goals try (refine ⟨?_, u32ofInt_lt _⟩)
        all_goals simp only [List.length_append, List.length_cons, List.length_nil]
        all_goals omega
      · rw [h]
        rw [if_neg (by decide)]
        rw [if_neg (by decide)]
        rw [if_neg (by decide)]
        rw [if_neg (by decide)]
        rw [if_neg (by decide)]
        rw [if_neg (by decide)]
        rw [if_neg (by decide)]
        rw [if_neg (by decide)]
        rw [if_neg (by decide)]
        rw [if_neg (by decide)]
        rw [if_neg (by decide)]
        rw [if_neg (by decide)]
        rw [if_neg (by decide)]
        rw [if_neg (by decide)]
        rw [if_pos (by decide)]
        rw [if_pos (show am6809_indirect_p (18 : Int) = true from by decide)]
        rw [if_pos (show am6809_indirect_p (18 : Int) = true from by decide)]
        repeat' split
        all_goals refine ⟨?_, ?_, fun h2 hv => ?_⟩
        all_goals try (simp [hv] at h2)
        all_goals try (refine ⟨?_, u32ofInt_lt _⟩)
        all_goals simp only [List.length_append, List.length_cons, List.length_nil]
        all_goals omega
      · rw [h]
        rw [if_neg (by decide)]
        rw [if_neg (by decide)]
        rw [if_neg (by decide)]
        rw [if_neg (by decide)]
        rw [if_neg (by decide)]
        rw [if_neg (by decide)]
        rw [if_neg (by decide)]
        rw [if_neg (by decide)]
        rw [if_neg (by decide)]
        rw [if_neg (by decide)]
        rw [if_neg (by decide)]
        rw [if_neg (by decide)]
        rw [if_neg (by decide)]
        rw [if_neg (by decide)]
        rw [if_neg (by decide)]
        rw [if_pos (by decide)]
        repeat' split
        all_goals refine ⟨?_, ?_, fun h2 hv => ?_⟩
        all_goals try (simp [hv] at h2)
        all_goals try (refine ⟨?_, u32ofInt_lt _⟩)
        all_goals simp only [List.length_append, List.length_cons, List.length_nil]
        all_goals omega
      · rw [h]
        rw [if_neg (by decide)]
        rw [if_neg (by decide)]
        rw [if_neg (by decide)]
        rw [if_neg (by decide)]
        rw [if_neg (by decide)]
        rw [if_neg (by decide)]
        rw [if_neg (by decide)]
        rw [if_neg (by decide)]
        rw [if_neg (by decide)]
        rw [if_neg (by decide)]
        rw [if_neg (by decide)]
        rw [if_neg (by decide)]
        rw [if_neg (by decide)]
        rw [if_neg (by decide)]
        rw [if_neg (by decide)]
        rw [if_neg (by decide)]
        rw [if_pos (by decide)]
        rw [if_neg (show ¬am6809_indirect_p (20 : Int) = true from by decide)]
        rw [if_neg (show ¬am6809_indirect_p (20 : Int) = true from by decide)]
        repeat' split
        all_goals refine ⟨?_, ?_, fun h2 hv => ?_⟩
        all_goals try (simp [hv] at h2)
        all_goals try (refine ⟨?_, u32ofInt_lt _⟩)
        all_goals simp only [List.length_append, List.length_cons, List.length_nil]
        all_goals omega
      · rw [h]
        rw [if_neg (by decide)]
        rw [if_neg (by decide)]
        rw [if_neg (by decide)]
        rw [if_neg (by decide)]
        rw [if_neg (by decide)]
        rw [if_neg (by decide)]
        rw [if_neg (by decide)]
        rw [if_neg (by decide)]
        rw [if_neg (by decide)]
        rw [if_neg (by decide)]
        rw [if_neg (by decide)]
        rw [if_neg (by decide)]
        rw [if_neg (by decide)]
        rw [if_neg (by decide)]
        rw [if_neg (by decide)]
        rw [if_neg (by decide)]
        rw [if_pos (by decide)]
        rw [if_pos (show am6809_indirect_p (21 : Int) = true from by decide)]
        rw [if_pos (show am6809_indirect_p (21 : Int) = true from by decide)]
        repeat' split
        all_goals refine ⟨?_, ?_, fun h2 hv => ?_⟩
        all_goals try (simp [hv] at h2)
        all_goals try (refine ⟨?_, u32ofInt_lt _⟩)
        all_goals simp only [List.length_append, List.length_cons, List.length_nil]
        all_goals omega
      · rw [h]
        rw [if_pos (by decide)]
        rw [if_neg (by decide)]
        rw [if_neg (by decide)]
        rw [if_neg (by decide)]
        rw [if_neg (by decide)]
        rw [if_neg (by decide)]
        rw [if_neg (by decide)]
        rw [if_neg (by decide)]
        rw [if_neg (by decide)]
        rw [if_neg (by decide)]
        rw [if_neg (by decide)]
        rw [if_neg (by decide)]
        rw [if_neg (by decide)]
        rw [if_neg (by decide)]
        rw [if_neg (by decide)]
        rw [if_neg (by decide)]
        rw [if_neg (by decide)]
        rw [if_pos (by decide)]
        rw [if_neg (show ¬am6809_indirect_p (22 : Int) = true from by decide)]
        rw [if_neg (show ¬am6809_indirect_p (22 : Int) = true from by decide)]
        repeat' split
        all_goals refine ⟨?_, ?_, fun h2 hv => ?_⟩
        all_goals try (simp [hv] at h2)
        all_goals try (refine ⟨?_, u32ofInt_lt _⟩)
        all_goals simp only [List.length_append, List.length_cons, List.length_nil]
        all_goals omega
      · rw [h]
        rw [if_pos (by decide)]
        rw [if_neg (by decide)]
        rw [if_neg (by decide)]
        rw [if_neg (by decide)]
        rw [if_neg (by decide)]
        rw [if_neg (by decide)]
        rw [if_neg (by decide)]
        rw [if_neg (by decide)]
        rw [if_neg (by decide)]
        rw [if_neg (by decide)]
        rw [if_neg (by decide)]
        rw [if_neg (by decide)]
        rw [if_neg (by decide)]
        rw [if_neg (by decide)]
        rw [if_neg (by decide)]
        rw [if_neg (by decide)]
        rw [if_neg (by decide)]
        rw [if_pos (by decide)]
        rw [if_pos (show am6809_indirect_p (23 : Int) = true from by decide)]
        rw [if_pos (show am6809_indirect_p (23 : Int) = true from by decide)]
        repeat' split
        all_goals refine ⟨?_, ?_, fun h2 hv => ?_⟩
        all_goals try (simp [hv] at h2)
        all_goals try (refine ⟨?_, u32ofInt_lt _⟩)
        all_goals simp only [List.length_append, List.length_cons, List.length_nil]
        all_goals omega
      · rw [h]
        rw [if_pos (by decide)]
        rw [if_neg (by decide)]
        rw [if_neg (by decide)]
        rw [if_neg (by decide)]
        rw [if_neg (by decide)]
        rw [if_neg (by decide)]
        rw [if_neg (by decide)]
        rw [if_neg (by decide)]
        rw [if_neg (by decide)]
        rw [if_neg (by decide)]
        rw [if_neg (by decide)]
        rw [if_neg (by decide)]
        rw [if_neg (by decide)]
        rw [if_neg (by decide)]
        rw [if_neg (by decide)]
        rw [if_neg (by decide)]
        rw [if_neg (by decide)]
        rw [if_neg (by decide)]
        rw [if_pos (by decide)]
        rw [if_neg (show ¬am6809_indirect_p (24 : Int) = true from by decide)]
        rw [if_neg (show ¬am6809_indirect_p (24 : Int) = true from by decide)]
        repeat' split
        all_goals refine ⟨?_, ?_, fun h2 hv => ?_⟩
        all_goals try (simp [hv] at h2)
        all_goals try (refine ⟨?_, u32ofInt_lt _⟩)
        all_goals simp only [List.length_append, List.length_cons, List.length_nil]
        all_goals omega
      · rw [h]
        rw [if_pos (by decide)]
        rw [if_neg (by decide)]
        rw [if_neg (by decide)]
        rw [if_neg (by decide)]
        rw [if_neg (by decide)]
        rw [if_neg (by decide)]
        rw [if_neg (by decide)]
        rw [if_neg (by decide)]
        rw [if_neg (by decide)]
        rw [if_neg (by decide)]
        rw [if_neg (by decide)]
        rw [if_neg (by decide)]
        rw [if_neg (by decide)]
        rw [if_neg (by decide)]
        rw [if_neg (by decide)]
        rw [if_neg (by decide)]
        rw [if_neg (by decide)]
        rw [if_neg (by decide)]
        rw [if_pos (by decide)]
        rw [if_pos (show am6809_indirect_p (25 : Int) = true from by decide)]
        rw [if_pos (show am6809_indirect_p (25 : Int) = true from by decide)]
        repeat' split
        all_goals refine ⟨?_, ?_, fun h2 hv => ?_⟩
        all_goals try (simp [hv] at h2)
        all_goals try (refine ⟨?_, u32ofInt_lt _⟩)
        all_goals simp only [List.length_append, List.length_cons, List.length_nil]
        all_goals omega
      · rw [h]
        rw [if_neg (by decide)]
        rw [if_neg (by decide)]
        rw [if_neg (by decide)]
        rw [if_pos (by decide)]
        rw [if_pos (show am6809_indirect_p (26 : Int) = true from by decide)]
        rw [if_pos (show ((26 : Int) = am6809_extended_ind) from by decide)]
        rw [if_pos (show am6809_indirect_p (26 : Int) = true from by decide)]
        repeat' split
        all_goals refine ⟨?_, ?_, fun h2 hv => ?_⟩
        all_goals try (simp [hv] at h2)
        all_goals try (refine ⟨?_, u32ofInt_lt _⟩)
        all_goals simp only [List.length_append, List.length_cons, List.length_nil]
        all_goals omega
      · rw [h]
        rw [if_neg (by decide)]
        rw [if_neg (by decide)]
        rw [if_neg (by decide)]
        rw [if_neg (by decide)]
        rw [if_neg (by decide)]
        rw [if_neg (by decide)]
        rw [if_neg (by decide)]
        rw [if_neg (by decide)]
        rw [if_neg (by decide)]
        rw [if_neg (by decide)]
        rw [if_neg (by decide)]
        rw [if_neg (by decide)]
        rw [if_neg (by decide)]
        rw [if_neg (by decide)]
        rw [if_neg (by decide)]
        rw [if_neg (by decide)]
        rw [if_neg (by decide)]
        rw [if_neg (by decide)]
        rw [if_neg (by decide)]
        rw [if_pos (by decide)]
        repeat' split
        all_goals refine ⟨?_, ?_, fun h2 hv => ?_⟩
        all_goals try (simp [hv] at h2)
        all_goals try (refine ⟨?_, u32ofInt_lt _⟩)
        all_goals simp only [List.length_append, List.length_cons, List.length_nil]
        all_goals omega
      · rw [h]
        rw [if_neg (by decide)]
        rw [if_neg (by decide)]
        rw [if_neg (by decide)]
        rw [if_neg (by decide)]
        rw [if_neg (by decide)]
        rw [if_neg (by decide)]
        rw [if_neg (by decide)]
        rw [if_neg (by decide)]
        rw [if_neg (by decide)]
        rw [if_neg (by decide)]
        rw [if_neg (by decide)]
        rw [if_neg (by decide)]
        rw [if_neg (by decide)]
        rw [if_neg (by decide)]
        rw [if_neg (by decide)]
        rw [if_neg (by decide)]
        rw [if_neg (by decide)]
        rw [if_neg (by decide)]
        rw [if_neg (by decide)]
        rw [if_neg (by decide)]
        repeat' split
        all_goals refine ⟨?_, ?_, fun h2 hv => ?_⟩
        all_goals try (simp [hv] at h2)
        all_goals try (refine ⟨?_, u32ofInt_lt _⟩)
        all_goals simp only [List.length_append, List.length_cons, List.length_nil]
        all_goals omega
    · have hopc : 1 ≤ ((opcodes_6809.getD (id.bytes.getD 0 0) table_dflt).toList).length ∧
          ((opcodes_6809.getD (id.bytes.getD 0 0) table_dflt).toList).length ≤ 5 :=
        of_decide_eq_true (range_all_out ck_6809_table hb0)
      have hfs4 : pcrel6809 a →
          ((opcodes_6809.getD (id.bytes.getD 0 0) table_dflt).toList).length ≤ 4 := by
        intro hp
        have hq := hfs hp
        unfold opc6809_str at hq
        rw [if_neg hpg] at hq
        exact hq
      repeat rw [if_neg hpg]
      have hx2 : (hexPad 2 (id.bytes.getD 1 0)).length = 2 :=
        hexPad_2_length (bytesOK_getD hB 1)
      have hx4a : (hexPad 4 (read_u16be id.bytes 1)).length = 4 :=
        hexPad_4_length (read_u16be_lt hB 1)
      have hx4b : (hexPad 4 (read_u16be id.bytes (1 + 1))).length = 4 :=
        hexPad_4_length (read_u16be_lt hB (1 + 1))
      have hs8a : (decSInt (sext8 (id.bytes.getD 1 0))).length ≤ 4 := by
        have h1 := sext8_natAbs_getD hB 1
        have := decSInt_length_le (z := sext8 (id.bytes.getD 1 0)) (k := 3)
          (by omega) (by omega) (by omega)
        omega
      have h16a : (decSInt (read_s16be id.bytes 1)).length ≤ 6 :=
        decSInt_length_le_6 (read_s16be_natAbs hB 1)
      have hs8b : (decSInt (sext8 (id.bytes.getD (1 + 1) 0))).length ≤ 4 := by
        have h1 := sext8_natAbs_getD hB (1 + 1)
        have := decSInt_length_le (z := sext8 (id.bytes.getD (1 + 1) 0)) (k := 3)
          (by omega) (by omega) (by omega)
        omega
      have h16b : (decSInt (read_s16be id.bytes (1 + 1))).length ≤ 6 :=
        decSInt_length_le_6 (read_s16be_natAbs hB (1 + 1))
      have hs8c : (decSInt (sext8 (id.bytes.getD (1 + 1) 0))).length ≤ 4 := by
        have h1 := sext8_natAbs_getD hB (1 + 1)
        have := decSInt_length_le (z := sext8 (id.bytes.getD (1 + 1) 0)) (k := 3)
          (by omega) (by omega) (by omega)
        omega
      have h16c : (decSInt (read_s16be id.bytes (1 + 1))).length ≤ 6 :=
        decSInt_length_le_6 (read_s16be_natAbs hB (1 + 1))
      have h5 : (decSInt ((id.bytes.getD 1 0 &&& 31 : Nat) : Int)).length ≤ 3 := by
        have hle : id.bytes.getD 1 0 &&& 31 ≤ 31 := Nat.and_le_right
        have := decSInt_length_le
          (z := ((id.bytes.getD 1 0 &&& 31 : Nat) : Int)) (k := 2)
          (by omega) (by omega) (by simp only [Int.natAbs_ofNat]; omega)
        omega
      have hir : ((index_regnames.getD ((id.bytes.getD 1 0 >>> 5) &&& 3)
          table_dflt).toList).length ≤ 1 := index_regnames_le _
      have hex1 := exg_regname_le (id.bytes.getD 1 0 >>> 4)
      have hex2 := exg_regname_le (id.bytes.getD 1 0 &&& 15)
      have hec : ∀ v, ((insn_decode_format_exg_tfr_regname_6809 v).toList).length =
          (insn_decode_format_exg_tfr_regname_6809 v).length := fun v => rfl
      rw [← hec] at hex1
      rw [← hec] at hex2
      have hpsh : (psh_pul_body (id.bytes.getD 0 0) (id.bytes.getD 1 0)).length ≤ 21 :=
        psh_pul_body_le _ _
      rcases ham with h|h|h|h|h|h|h|h|h|h|h|h|h|h|h|h|h|h|h|h|h|h|h|h|h|h|h|h|h
      · rw [h]
        rw [if_neg (by decide)]
        rw [if_pos (by decide)]
        repeat' split
        all_goals refine ⟨?_, ?_, fun h2 hv => ?_⟩
        all_goals try (simp [hv] at h2)
        all_goals try (refine ⟨?_, u32ofInt_lt _⟩)
        all_goals simp only [List.length_append, List.length_cons, List.length_nil]
        all_goals omega
      · rw [h]
        rw [if_neg (by decide)]
        rw [if_neg (by decide)]
        rw [if_pos (by decide)]
        repeat' split
        all_goals refine ⟨?_, ?_, fun h2 hv => ?_⟩
        all_goals try (simp [hv] at h2)
        all_goals try (refine ⟨?_, u32ofInt_lt _⟩)
        all_goals simp only [List.length_append, List.length_cons, List.length_nil]
        all_goals omega
      · rw [h]
        rw [if_neg (by decide)]
        rw [if_neg (by decide)]
        rw [if_neg (by decide)]
        rw [if_pos (by decide)]
        rw [if_neg (show ¬am6809_indirect_p (2 : Int) = true from by decide)]
        rw [if_neg (show ¬((2 : Int) = am6809_extended_ind) from by decide)]
        rw [if_neg (show ¬am6809_indirect_p (2 : Int) = true from by decide)]
        repeat' split
        all_goals refine ⟨?_, ?_, fun h2 hv => ?_⟩
        all_goals try (simp [hv] at h2)
        all_goals try (refine ⟨?_, u32ofInt_lt _⟩)
        all_goals simp only [List.length_append, List.length_cons, List.length_nil]
        all_goals omega
      · rw [h]
        rw [if_pos (by decide)]
        rw [if_neg (by decide)]
        rw [if_neg (by decide)]
        rw [if_neg (by decide)]
        rw [if_pos (by decide)]
        repeat' split
        all_goals refine ⟨?_, ?_, fun h2 hv => ?_⟩
        all_goals try (simp [hv] at h2)
        all_goals try (refine ⟨?_, u32ofInt_lt _⟩)
        all_goals simp only [List.length_append, List.length_cons, List.length_nil]
        all_goals omega
      · rw [h]
        rw [if_pos (by decide)]
        rw [if_neg (by decide)]
        rw [if_neg (by decide)]
        rw [if_neg (by decide)]
        rw [if_neg (by decide)]
        rw [if_pos (by decide)]
        repeat' split
        all_goals refine ⟨?_, ?_, fun h2 hv => ?_⟩
        all_goals try (simp [hv] at h2)
        all_goals try (refine ⟨?_, u32ofInt_lt _⟩)
        all_goals simp only [List.length_append, List.length_cons, List.length_nil]
        all_goals omega
      · rw [h]
        rw [if_neg (by decide)]
        rw [if_neg (by decide)]
        rw [if_neg (by decide)]
        rw [if_neg (by decide)]
        rw [if_neg (by decide)]
        rw [if_neg (by decide)]
        rw [if_pos (by decide)]
        repeat' split
        all_goals refine ⟨?_, ?_, fun h2 hv => ?_⟩
        all_goals try (simp [hv] at h2)
        all_goals try (refine ⟨?_, u32ofInt_lt _⟩)
        all_goals simp only [List.length_append, List.length_cons, List.length_nil]
        all_goals omega
      · rw [h]
        rw [if_neg (by decide)]
        rw [if_neg (by decide)]
        rw [if_neg (by decide)]
        rw [if_neg (by decide)]
        rw [if_neg (by decide)]
        rw [if_neg (by decide)]
        rw [if_neg (by decide)]
        rw [if_pos (by decide)]
        repeat' split
        all_goals refine ⟨?_, ?_, fun h2 hv => ?_⟩
        all_goals try (simp [hv] at h2)
        all_goals try (refine ⟨?_, u32ofInt_lt _⟩)
        all_goals simp only [List.length_append, List.length_cons, List.length_nil]
        all_goals omega
      · rw [h]
        rw [if_neg (by decide)]
        rw [if_neg (by decide)]
        rw [if_neg (by decide)]
        rw [if_neg (by decide)]
        rw [if_neg (by decide)]
        rw [if_neg (by decide)]
        rw [if_neg (by decide)]
        rw [if_neg (by decide)]
        rw [if_pos (by decide)]
        rw [if_neg (show ¬am6809_indirect_p (7 : Int) = true from by decide)]
        rw [if_neg (show ¬am6809_indirect_p (7 : Int) = true from by decide)]
        repeat' split
        all_goals refine ⟨?_, ?_, fun h2 hv => ?_⟩
        all_goals try (simp [hv] at h2)
        all_goals try (refine ⟨?_, u32ofInt_lt _⟩)
        all_goals simp only [List.length_append, List.length_cons, List.length_nil]
        all_goals omega
      · rw [h]
        rw [if_neg (by decide)]
        rw [if_neg (by decide)]
        rw [if_neg (by decide)]
        rw [if_neg (by decide)]
        rw [if_neg (by decide)]
        rw [if_neg (by decide)]
        rw [if_neg (by decide)]
        rw [if_neg (by decide)]
        rw [if_pos (by decide)]
        rw [if_pos (show am6809_indirect_p (8 : Int) = true from by decide)]
        rw [if_pos (show am6809_indirect_p (8 : Int) = true from by decide)]
        repeat' split
        all_goals refine ⟨?_, ?_, fun h2 hv => ?_⟩
        all_goals try (simp [hv] at h2)
        all_goals try (refine ⟨?_, u32ofInt_lt _⟩)
        all_goals simp only [List.length_append, List.length_cons, List.length_nil]
        all_goals omega
      · rw [h]
        rw [if_neg (by decide)]
        rw [if_neg (by decide)]
        rw [if_neg (by decide)]
        rw [if_neg (by decide)]
        rw [if_neg (by decide)]
        rw [if_neg (by decide)]
        rw [if_neg (by decide)]
        rw [if_neg (by decide)]
        rw [if_neg (by decide)]
        rw [if_pos (by decide)]
        rw [if_neg (show ¬am6809_indirect_p (9 : Int) = true from by decide)]
        rw [if_neg (show ¬am6809_indirect_p (9 : Int) = true from by decide)]
        repeat' split
        all_goals refine ⟨?_, ?_, fun h2 hv => ?_⟩
        all_goals try (simp [hv] at h2)
        all_goals try (refine ⟨?_, u32ofInt_lt _⟩)
        all_goals simp only [List.length_append, List.length_cons, List.length_nil]
        all_goals omega
      · rw [h]
        rw [if_neg (by decide)]
        rw [if_neg (by decide)]
        rw [if_neg (by decide)]
        rw [if_neg (by decide)]
        rw [if_neg (by decide)]
        rw [if_neg (by decide)]
        rw [if_neg (by decide)]
        rw [if_neg (by decide)]
        rw [if_neg (by decide)]
        rw [if_neg (by decide)]
        rw [if_pos (by decide)]
        rw [if_neg (show ¬am6809_indirect_p (10 : Int) = true from by decide)]
        rw [if_neg (show ¬am6809_indirect_p (10 : Int) = true from by decide)]
        repeat' split
        all_goals refine ⟨?_, ?_, fun h2 hv => ?_⟩
        all_goals try (simp [hv] at h2)
        all_goals try (refine ⟨?_, u32ofInt_lt _⟩)
        all_goals simp only [List.length_append, List.length_cons, List.length_nil]
        all_goals omega
      · rw [h]
        rw [if_neg (by decide)]
        rw [if_neg (by decide)]
        rw [if_neg (by decide)]
        rw [if_neg (by decide)]
        rw [if_neg (by decide)]
        rw [if_neg (by decide)]
        rw [if_neg (by decide)]
        rw [if_neg (by decide)]
        rw [if_neg (by decide)]
        rw [if_neg (by decide)]
        rw [if_pos (by decide)]
        rw [if_pos (show am6809_indirect_p (11 : Int) = true from by decide)]
        rw [if_pos (show am6809_indirect_p (11 : Int) = true from by decide)]
        repeat' split
        all_goals refine ⟨?_, ?_, fun h2 hv => ?_⟩
        all_goals try (simp [hv] at h2)
        all_goals try (refine ⟨?_, u32ofInt_lt _⟩)
        all_goals simp only [List.length_append, List.length_cons, List.length_nil]
        all_goals omega
      · rw [h]
        rw [if_neg (by decide)]
        rw [if_neg (by decide)]
        rw [if_neg (by decide)]
        rw [if_neg (by decide)]
        rw [if_neg (by decide)]
        rw [if_neg (by decide)]
        rw [if_neg (by decide)]
        rw [if_neg (by decide)]
        rw [if_neg (by decide)]
        rw [if_neg (by decide)]
        rw [if_neg (by decide)]
        rw [if_pos (by decide)]
        rw [if_neg (show ¬am6809_indirect_p (12 : Int) = true from by decide)]
        rw [if_neg (show ¬am6809_indirect_p (12 : Int) = true from by decide)]
        repeat' split
        all_goals refine ⟨?_, ?_, fun h2 hv => ?_⟩
        all_goals try (simp [hv] at h2)
        all_goals try (refine ⟨?_, u32ofInt_lt _⟩)
        all_goals simp only [List.length_append, List.length_cons, List.length_nil]
        all_goals omega
      · rw [h]
        rw [if_neg (by decide)]
        rw [if_neg (by decide)]
        rw [if_neg (by decide)]
        rw [if_neg (by decide)]
        rw [if_neg (by decide)]
        rw [if_neg (by decide)]
        rw [if_neg (by decide)]
        rw [if_neg (by decide)]
        rw [if_neg (by decide)]
        rw [if_neg (by decide)]
        rw [if_neg (by decide)]
        rw [if_pos (by decide)]
        rw [if_pos (show am6809_indirect_p (13 : Int) = true from by decide)]
        rw [if_pos (show am6809_indirect_p (13 : Int) = true from by decide)]
        repeat' split
        all_goals refine ⟨?_, ?_, fun h2 hv => ?_⟩
        all_goals try (simp [hv] at h2)
        all_goals try (refine ⟨?_, u32ofInt_lt _⟩)
        all_goals simp only [List.length_append, List.length_cons, List.length_nil]
        all_goals omega
      · rw [h]
        rw [if_neg (by decide)]
        rw [if_neg (by decide)]
        rw [if_neg (by decide)]
        rw [if_neg (by decide)]
        rw [if_neg (by decide)]
        rw [if_neg (by decide)]
        rw [if_neg (by decide)]
        rw [if_neg (by decide)]
        rw [if_neg (by decide)]
        rw [if_neg (by decide)]
        rw [if_neg (by decide)]
        rw [if_neg (by decide)]
        rw [if_pos (by decide)]
        rw [if_neg (show ¬am6809_indirect_p (14 : Int) = true from by decide)]
        rw [if_neg (show ¬am6809_indirect_p (14 : Int) = true from by decide)]
        repeat' split
        all_goals refine ⟨?_, ?_, fun h2 hv => ?_⟩
        all_goals try (simp [hv] at h2)
        all_goals try (refine ⟨?_, u32ofInt_lt _⟩)
        all_goals simp only [List.length_append, List.length_cons, List.length_nil]
        all_goals omega
      · rw [h]
        rw [if_neg (by decide)]
        rw [if_neg (by decide)]
        rw [if_neg (by decide)]
        rw [if_neg (by decide)]
        rw [if_neg (by decide)]
        rw [if_neg (by decide)]
        rw [if_neg (by decide)]
        rw [if_neg (by decide)]
        rw [if_neg (by decide)]
        rw [if_neg (by decide)]
        rw [if_neg (by decide)]
        rw [if_neg (by decide)]
        rw [if_pos (by decide)]
        rw [if_pos (show am6809_indirect_p (15 : Int) = true from by decide)]
        rw [if_pos (show am6809_indirect_p (15 : Int) = true from by decide)]
        repeat' split
        all_goals refine ⟨?_, ?_, fun h2 hv => ?_⟩
        all_goals try (simp [hv] at h2)
        all_goals try (refine ⟨?_, u32ofInt_lt _⟩)
        all_goals simp only [List.length_append, List.length_cons, List.length_nil]
        all_goals omega
      · rw [h]
        rw [if_neg (by decide)]
        rw [if_neg (by decide)]
        rw [if_neg (by decide)]
        rw [if_neg (by decide)]
        rw [if_neg (by decide)]
        rw [if_neg (by decide)]
        rw [if_neg (by decide)]
        rw [if_neg (by decide)]
        rw [if_neg (by decide)]
        rw [if_neg (by decide)]
        rw [if_neg (by decide)]
        rw [if_neg (by decide)]
        rw [if_neg (by decide)]
        rw [if_pos (by decide)]
        repeat' split
        all_goals refine ⟨?_, ?_, fun h2 hv => ?_⟩
        all_goals try (simp [hv] at h2)
        all_goals try (refine ⟨?_, u32ofInt_lt _⟩)
        all_goals simp only [List.length_append, List.length_cons, List.length_nil]
        all_goals omega
      · rw [h]
        rw [if_neg (by decide)]
        rw [if_neg (by decide)]
        rw [if_neg (by decide)]
        rw [if_neg (by decide)]
        rw [if_neg (by decide)]
        rw [if_neg (by decide)]
        rw [if_neg (by decide)]
        rw [if_neg (by decide)]
        rw [if_neg (by decide)]
        rw [if_neg (by decide)]
        rw [if_neg (by decide)]
        rw [if_neg (by decide)]
        rw [if_neg (by decide)]
        rw [if_neg (by decide)]
        rw [if_pos (by decide)]
        rw [if_neg (show ¬am6809_indirect_p (17 : Int) = true from by decide)]
        rw [if_neg (show ¬am6809_indirect_p (17 : Int) = true from by decide)]
        repeat' split
        all_goals refine ⟨?_, ?_, fun h2 hv => ?_⟩
        all_goals try (simp [hv] at h2)
        all_goals try (refine ⟨?_, u32ofInt_lt _⟩)
        all_goals simp only [List.length_append, List.length_cons, List.length_nil]
        all_goals omega
      · rw [h]
        rw [if_neg (by decide)]
        rw [if_neg (by decide)]
        rw [if_neg (by decide)]
        rw [if_neg (by decide)]
        rw [if_neg (by decide)]
        rw [if_neg (by decide)]
        rw [if_neg (by decide)]
        rw [if_neg (by decide)]
        rw [if_neg (by decide)]
        rw [if_neg (by decide)]
        rw [if_neg (by decide)]
        rw [if_neg (by decide)]
        rw [if_neg (by decide)]
        rw [if_neg (by decide)]
        rw [if_pos (by decide)]
        rw [if_pos (show am6809_indirect_p (18 : Int) = true from by decide)]
        rw [if_pos (show am6809_indirect_p (18 : Int) = true from by decide)]
        repeat' split
        all_goals refine ⟨?_, ?_, fun h2 hv => ?_⟩
        all_goals try (simp [hv] at h2)
        all_goals try (refine ⟨?_, u32ofInt_lt _⟩)
        all_goals simp only [List.length_append, List.length_cons, List.length_nil]
        all_goals omega
      · rw [h]
        rw [if_neg (by decide)]
        rw [if_neg (by decide)]
        rw [if_neg (by decide)]
        rw [if_neg (by decide)]
        rw [if_neg (by decide)]
        rw [if_neg (by decide)]
        rw [if_neg (by decide)]
        rw [if_neg (by decide)]
        rw [if_neg (by decide)]
        rw [if_neg (by decide)]
        rw [if_neg (by decide)]
        rw [if_neg (by decide)]
        rw [if_neg (by decide)]
        rw [if_neg (by decide)]
        rw [if_neg (by decide)]
        rw [if_pos (by decide)]
        repeat' split
        all_goals refine ⟨?_, ?_, fun h2 hv => ?_⟩
        all_goals try (simp [hv] at h2)
        all_goals try (refine ⟨?_, u32ofInt_lt _⟩)
        all_goals simp only [List.length_append, List.length_cons, List.length_nil]
        all_goals omega
      · rw [h]
        rw [if_neg (by decide)]
        rw [if_neg (by decide)]
        rw [if_neg (by decide)]
        rw [if_neg (by decide)]
        rw [if_neg (by decide)]
        rw [if_neg (by decide)]
        rw [if_neg (by decide)]
        rw [if_neg (by decide)]
        rw [if_neg (by decide)]
        rw [if_neg (by decide)]
        rw [if_neg (by decide)]
        rw [if_neg (by decide)]
        rw [if_neg (by decide)]
        rw [if_neg (by decide)]
        rw [if_neg (by decide)]
        rw [if_neg (by decide)]
        rw [if_pos (by decide)]
        rw [if_neg (show ¬am6809_indirect_p (20 : Int) = true from by decide)]
        rw [if_neg (show ¬am6809_indirect_p (20 : Int) = true from by decide)]
        repeat' split
        all_goals refine ⟨?_, ?_, fun h2 hv => ?_⟩
        all_goals try (simp [hv] at h2)
        all_goals try (refine ⟨?_, u32ofInt_lt _⟩)
        all_goals simp only [List.length_append, List.length_cons, List.length_nil]
        all_goals omega
      · rw [h]
        rw [if_neg (by decide)]
        rw [if_neg (by decide)]
        rw [if_neg (by decide)]
        rw [if_neg (by decide)]
        rw [if_neg (by decide)]
        rw [if_neg (by decide)]
        rw [if_neg (by decide)]
        rw [if_neg (by decide)]
        rw [if_neg (by decide)]
        rw [if_neg (by decide)]
        rw [if_neg (by decide)]
        rw [if_neg (by decide)]
        rw [if_neg (by decide)]
        rw [if_neg (by decide)]
        rw [if_neg (by decide)]
        rw [if_neg (by decide)]
        rw [if_pos (by decide)]
        rw [if_pos (show am6809_indirect_p (21 : Int) = true from by decide)]
        rw [if_pos (show am6809_indirect_p (21 : Int) = true from by decide)]
        repeat' split
        all_goals refine ⟨?_, ?_, fun h2 hv => ?_⟩
        all_goals try (simp [hv] at h2)
        all_goals try (refine ⟨?_, u32ofInt_lt _⟩)
        all_goals simp only [List.length_append, List.length_cons, List.length_nil]
        all_goals omega
      · rw [h]
        rw [if_pos (by decide)]
        rw [if_neg (by decide)]
        rw [if_neg (by decide)]
        rw [if_neg (by decide)]
        rw [if_neg (by decide)]
        rw [if_neg (by decide)]
        rw [if_neg (by decide)]
        rw [if_neg (by decide)]
        rw [if_neg (by decide)]
        rw [if_neg (by decide)]
        rw [if_neg (by decide)]
        rw [if_neg (by decide)]
        rw [if_neg (by decide)]
        rw [if_neg (by decide)]
        rw [if_neg (by decide)]
        rw [if_neg (by decide)]
        rw [if_neg (by decide)]
        rw [if_pos (by decide)]
        rw [if_neg (show ¬am6809_indirect_p (22 : Int) = true from by decide)]
        rw [if_neg (show ¬am6809_indirect_p (22 : Int) = true from by decide)]
        repeat' split
        all_goals refine ⟨?_, ?_, fun h2 hv => ?_⟩
        all_goals try (simp [hv] at h2)
        all_goals try (refine ⟨?_, u32ofInt_lt _⟩)
        all_goals have h4 := hfs4 (by rw [h]; unfold pcrel6809; decide)
        all_goals simp only [List.length_append, List.length_cons, List.length_nil]
        all_goals omega
      · rw [h]
        rw [if_pos (by decide)]
        rw [if_neg (by decide)]
        rw [if_neg (by decide)]
        rw [if_neg (by decide)]
        rw [if_neg (by decide)]
        rw [if_neg (by decide)]
        rw [if_neg (by decide)]
        rw [if_neg (by decide)]
        rw [if_neg (by decide)]
        rw [if_neg (by decide)]
        rw [if_neg (by decide)]
        rw [if_neg (by decide)]
        rw [if_neg (by decide)]
        rw [if_neg (by decide)]
        rw [if_neg (by decide)]
        rw [if_neg (by decide)]
        rw [if_neg (by decide)]
        rw [if_pos (by decide)]
        rw [if_pos (show am6809_indirect_p (23 : Int) = true from by decide)]
        rw [if_pos (show am6809_indirect_p (23 : Int) = true from by decide)]
        repeat' split
        all_goals refine ⟨?_, ?_, fun h2 hv => ?_⟩
        all_goals try (simp [hv] at h2)
        all_goals try (refine ⟨?_, u32ofInt_lt _⟩)
        all_goals have h4 := hfs4 (by rw [h]; unfold pcrel6809; decide)
        all_goals simp only [List.length_append, List.length_cons, List.length_nil]
        all_goals omega
      · rw [h]
        rw [if_pos (by decide)]
        rw [if_neg (by decide)]
        rw [if_neg (by decide)]
        rw [if_neg (by decide)]
        rw [if_neg (by decide)]
        rw [if_neg (by decide)]
        rw [if_neg (by decide)]
        rw [if_neg (by decide)]
        rw [if_neg (by decide)]
        rw [if_neg (by decide)]
        rw [if_neg (by decide)]
        rw [if_neg (by decide)]
        rw [if_neg (by decide)]
        rw [if_neg (by decide)]
        rw [if_neg (by decide)]
        rw [if_neg (by decide)]
        rw [if_neg (by decide)]
        rw [if_neg (by decide)]
        rw [if_pos (by decide)]
        rw [if_neg (show ¬am6809_indirect_p (24 : Int) = true from by decide)]
        rw [if_neg (show ¬am6809_indirect_p (24 : Int) = true from by decide)]
        repeat' split
        all_goals refine ⟨?_, ?_, fun h2 hv => ?_⟩
        all_goals try (simp [hv] at h2)
        all_goals try (refine ⟨?_, u32ofInt_lt _⟩)
        all_goals have h4 := hfs4 (by rw [h]; unfold pcrel6809; decide)
        all_goals simp only [List.length_append, List.length_cons, List.length_nil]
        all_goals omega
      · rw [h]
        rw [if_pos (by decide)]
        rw [if_neg (by decide)]
        rw [if_neg (by decide)]
        rw [if_neg (by decide)]
        rw [if_neg (by decide)]
        rw [if_neg (by decide)]
        rw [if_neg (by decide)]
        rw [if_neg (by decide)]
        rw [if_neg (by decide)]
        rw [if_neg (by decide)]
        rw [if_neg (by decide)]
        rw [if_neg (by decide)]
        rw [if_neg (by decide)]
        rw [if_neg (by decide)]
        rw [if_neg (by decide)]
        rw [if_neg (by decide)]
        rw [if_neg (by decide)]
        rw [if_neg (by decide)]
        rw [if_pos (by decide)]
        rw [if_pos (show am6809_indirect_p (25 : Int) = true from by decide)]
        rw [if_pos (show am6809_indirect_p (25 : Int) = true from by decide)]
        repeat' split
        all_goals refine ⟨?_, ?_, fun h2 hv => ?_⟩
        all_goals try (simp [hv] at h2)
        all_goals try (refine ⟨?_, u32ofInt_lt _⟩)
        all_goals have h4 := hfs4 (by rw [h]; unfold pcrel6809; decide)
        all_goals simp only [List.length_append, List.length_cons, List.length_nil]
        all_goals omega
      · rw [h]
        rw [if_neg (by decide)]
        rw [if_neg (by decide)]
        rw [if_neg (by decide)]
        rw [if_pos (by decide)]
        rw [if_pos (show am6809_indirect_p (26 : Int) = true from by decide)]
        rw [if_pos (show ((26 : Int) = am6809_extended_ind) from by decide)]
        rw [if_pos (show am6809_indirect_p (26 : Int) = true from by decide)]
        repeat' split
        all_goals refine ⟨?_, ?_, fun h2 hv => ?_⟩
        all_goals try (simp [hv] at h2)
        all_goals try (refine ⟨?_, u32ofInt_lt _⟩)
        all_goals simp only [List.length_append, List.length_cons, List.length_nil]
        all_goals omega
      · rw [h]
        rw [if_neg (by decide)]
        rw [if_neg (by decide)]
        rw [if_neg (by decide)]
        rw [if_neg (by decide)]
        rw [if_neg (by decide)]
        rw [if_neg (by decide)]
        rw [if_neg (by decide)]
        rw [if_neg (by decide)]
        rw [if_neg (by decide)]
        rw [if_neg (by decide)]
        rw [if_neg (by decide)]
        rw [if_neg (by decide)]
        rw [if_neg (by decide)]
        rw [if_neg (by decide)]
        rw [if_neg (by decide)]
        rw [if_neg (by decide)]
        rw [if_neg (by decide)]
        rw [if_neg (by decide)]
        rw [if_neg (by decide)]
        rw [if_pos (by decide)]
        repeat' split
        all_goals refine ⟨?_, ?_, fun h2 hv => ?_⟩
        all_goals try (simp [hv] at h2)
        all_goals try (refine ⟨?_, u32ofInt_lt _⟩)
        all_goals simp only [List.length_append, List.length_cons, List.length_nil]
        all_goals omega
      · rw [h]
        rw [if_neg (by decide)]
        rw [if_neg (by decide)]
        rw [if_neg (by decide)]
        rw [if_neg (by decide)]
        rw [if_neg (by decide)]
        rw [if_neg (by decide)]
        rw [if_neg (by decide)]
        rw [if_neg (by decide)]
        rw [if_neg (by decide)]
        rw [if_neg (by decide)]
        rw [if_neg (by decide)]
        rw [if_neg (by decide)]
        rw [if_neg (by decide)]
        rw [if_neg (by decide)]
        rw [if_neg (by decide)]
        rw [if_neg (by decide)]
        rw [if_neg (by decide)]
        rw [if_neg (by decide)]
        rw [if_neg (by decide)]
        rw [if_neg (by decide)]
        repeat' split
        all_goals refine ⟨?_, ?_, fun h2 hv => ?_⟩
        all_goals try (simp [hv] at h2)
        all_goals try (refine ⟨?_, u32ofInt_lt _⟩)
        all_goals simp only [List.length_append, List.length_cons, List.length_nil]
        all_goals omega

theorem z80_find_op_le (s : List Char) : ∀ p k, z80_find_op s = some (p, k) →
    p + z80_oplen k ≤ s.length := by
  induction s with
  | nil => intro p k h; simp [z80_find_op] at h
  | cons c rest ih =>
    intro p k h
    simp only [z80_find_op] at h
    split at h
    · rename_i hpre
      cases h
      have := List.IsPrefix.length_le (List.isPrefixOf_iff_prefix.mp hpre)
      simp only [z80_oplen]
      simpa using this
    · split at h
      · rename_i hpre
        cases h
        have := List.IsPrefix.length_le (List.isPrefixOf_iff_prefix.mp hpre)
        simp only [z80_oplen]
        simpa using this
      · split at h
        · rename_i hpre
          cases h
          have := List.IsPrefix.length_le (List.isPrefixOf_iff_prefix.mp hpre)
          simp only [z80_oplen]
          simpa using this
        · split at h
          · rename_i hpre
            cases h
            have := List.IsPrefix.length_le (List.isPrefixOf_iff_prefix.mp hpre)
            simp only [z80_oplen]
            simpa using this
          · match hrec : z80_find_op rest with
            | none => rw [hrec] at h; cases h
            | some qk =>
              rw [hrec] at h
              simp only [Option.map_some', Option.some.injEq, Prod.mk.injEq] at h
              obtain ⟨hp, hk⟩ := h
              subst hk
              rw [← hp]
              have := ih qk.1 qk.2 hrec
              simp only [List.length_cons]
              omega

theorem z80_find_op_from_le {s : List Char} {cursor p : Nat} {k : z80_opkind}
    (h : z80_find_op_from s cursor = some (p, k)) : p + z80_oplen k ≤ s.length := by
  simp only [z80_find_op_from] at h
  rcases Option.map_eq_some'.mp h with ⟨⟨q, k0⟩, hrec, heq⟩
  have heq2 : (cursor + q, k0) = (p, k) := heq
  obtain ⟨hp, hk⟩ := Prod.mk.injEq .. ▸ heq2
  subst hk
  rw [← hp]
  have hb := z80_find_op_le _ _ _ hrec
  have h3 : 3 ≤ z80_oplen k0 := by cases k0 <;> simp [z80_oplen]
  rw [List.length_drop] at hb
  omega

theorem z80_find_op_disp_head (s : List Char) : ∀ p,
    z80_find_op s = some (p, opDisp8) → s.getD p ' ' = '+' := by
  induction s with
  | nil => intro p h; simp [z80_find_op] at h
  | cons c rest ih =>
    intro p h
    simp only [z80_find_op] at h
    split at h
    · cases h
    · split at h
      · cases h
      · split at h
        · rename_i hpre
          cases h
          obtain ⟨t, ht⟩ := List.isPrefixOf_iff_prefix.mp hpre
          have : '+' = c := by
            have := congrArg (fun l => l.head?) ht
            simpa using this
          simp [List.getD, ← this]
        · split at h
          · cases h
          · match hrec : z80_find_op rest with
            | none => rw [hrec] at h; cases h
            | some (q, k0) =>
              rw [hrec] at h
              simp only [Option.map_some'] at h
              cases h
              have := ih q (by rw [hrec])
              simpa [List.getD] using this

theorem z80_find_op_from_disp_head {s : List Char} {cursor p : Nat}
    (h : z80_find_op_from s cursor = some (p, opDisp8)) : s.getD p ' ' = '+' := by
  simp only [z80_find_op_from] at h
  rcases Option.map_eq_some'.mp h with ⟨⟨q, k0⟩, hrec, heq⟩
  have heq2 : (cursor + q, k0) = (p, opDisp8) := heq
  obtain ⟨hp, hk⟩ := Prod.mk.injEq .. ▸ heq2
  subst hk
  have hd := z80_find_op_disp_head _ q hrec
  rw [← hp]
  simp only [List.getD, List.get?_drop] at hd ⊢
  exact hd

theorem z80_collapse_length_le (s : List Char) (start : Nat) :
    (z80_collapse s start).length ≤ s.length := by
  unfold z80_collapse
  split
  · exact Nat.le_refl _
  · rename_i j heq
    have hdw := (List.dropWhile_sublist (p := fun c => c = ' ') (l := s.drop j)).length_le
    simp only [List.length_append, List.length_take, List.length_drop] at *
    omega

theorem z80_collapse_pos (s : List Char) (start : Nat) (h1 : 1 ≤ s.length)
    (hc : ¬ s.getD start ' ' = ' ') : 1 ≤ (z80_collapse s start).length := by
  unfold z80_collapse
  split
  · exact h1
  · rename_i j heq
    match hrec : (s.drop start).findIdx? (fun c => c = ' ') with
    | none => rw [hrec] at heq; cases heq
    | some j0 =>
      rw [hrec] at heq
      simp only [Option.map_some'] at heq
      cases heq
      have hj0 : ¬ j0 = 0 := by
        intro h0
        subst h0
        rw [List.findIdx?_eq_some_iff_findIdx_eq] at hrec
        obtain ⟨hlt, hfi⟩ := hrec
        match hd : s.drop start with
        | [] => rw [hd] at hlt; simp at hlt
        | a :: t =>
          rw [hd] at hfi
          rw [List.findIdx_cons] at hfi
          by_cases ha : a = ' '
          · apply hc
            have h2 : (s.drop start).getD 0 ' ' = a := by rw [hd]; rfl
            simp only [List.getD, List.get?_drop, Nat.add_zero] at h2
            simp only [List.getD]
            rw [h2, ha]
          · simp [ha] at hfi
      simp only [List.length_append, List.length_take]
      omega

theorem overwrite_getD_at (s : List Char) (p : Nat) (r : List Char) (d : Char)
    (h1 : p < s.length) (h2 : 1 ≤ r.length) :
    (overwrite s p r).getD p d = r.getD 0 d := by
  simp only [overwrite, List.getD, List.get?_eq_getElem?]
  rw [List.getElem?_append_left
    (by simp only [List.length_append, List.length_take]; omega)]
  rw [List.getElem?_append_right (by simp only [List.length_take]; omega)]
  rw [show p - (s.take p).length = 0 from by simp only [List.length_take]; omega]

theorem overwrite_getD_before (s : List Char) (p q : Nat) (r : List Char) (d : Char)
    (h1 : q < p) (h2 : q < s.length) :
    (overwrite s p r).getD q d = s.getD q d := by
  simp only [overwrite, List.getD, List.get?_eq_getElem?]
  rw [List.getElem?_append_left
    (by simp only [List.length_append, List.length_take]; omega)]
  rw [List.getElem?_append_left (by simp only [List.length_take]; omega)]
  rw [List.getElem?_take, if_pos h1]

theorem padTake_getD0_cons (w : Nat) (hw : 1 ≤ w) (c : Char) (xs : List Char)
    (d : Char) : (padTake w (c :: xs)).getD 0 d = c := by
  match w, hw with
  | w + 1, _ => rfl

theorem z80_fmt_go_bounds (addr : Nat) (bytes : List Nat) (hB : bytesOK bytes) :
    ∀ (fuel : Nat) (s : List Char) (res : Nat) (vld : Bool) (cursor opr : Nat),
      1 ≤ s.length →
      1 ≤ (z80_fmt_go addr bytes fuel (s, res, vld) cursor opr).1.length ∧
      (z80_fmt_go addr bytes fuel (s, res, vld) cursor opr).1.length ≤ s.length ∧
      ((z80_fmt_go addr bytes fuel (s, res, vld) cursor opr).2.2 = true →
        (z80_fmt_go addr bytes fuel (s, res, vld) cursor opr).2.1 < 4294967296 ∨
        ((z80_fmt_go addr bytes fuel (s, res, vld) cursor opr).2.1 = res ∧
          vld = true)) := by
  intro fuel
  induction fuel with
  | zero =>
    intro s res vld cursor opr h1
    exact ⟨h1, Nat.le_refl _, fun h2 => Or.inr ⟨rfl, h2⟩⟩
  | succ fuel ih =>
    intro s res vld cursor opr h1
    cases hf : z80_find_op_from s cursor with
    | none =>
      have hr : z80_fmt_go addr bytes (fuel + 1) (s, res, vld) cursor opr =
          (s, res, vld) := by
        simp [z80_fmt_go, hf]
      rw [hr]
      exact ⟨h1, Nat.le_refl _, fun h2 => Or.inr ⟨rfl, h2⟩⟩
    | some pk =>
      obtain ⟨p, k⟩ := pk
      have hle := z80_find_op_from_le hf
      cases k with
      | opU16 =>
        simp only [z80_oplen] at hle
        have hlen4 : (hexPad 4 (read_u16le bytes opr)).length = 4 :=
          hexPad_4_length (read_u16le_lt hB opr)
        have hol : (overwrite s p (hexPad 4 (read_u16le bytes opr))).length =
            s.length := overwrite_length _ _ _ (by omega)
        have hr : z80_fmt_go addr bytes (fuel + 1) (s, res, vld) cursor opr =
            z80_fmt_go addr bytes fuel
              (overwrite s p (hexPad 4 (read_u16le bytes opr)), res, vld)
              (p + 5) (opr + 2) := by
          simp [z80_fmt_go, hf]
        rw [hr]
        have hih := ih (overwrite s p (hexPad 4 (read_u16le bytes opr))) res vld
          (p + 5) (opr + 2) (by omega)
        refine ⟨hih.1, ?_, hih.2.2⟩
        have h21 := hih.2.1
        omega
      | opU8 =>
        simp only [z80_oplen] at hle
        have hlen2 : (hexPad 2 (bytes.getD opr 0)).length = 2 :=
          hexPad_2_length (bytesOK_getD hB opr)
        have hol : (overwrite s p (hexPad 2 (bytes.getD opr 0))).length =
            s.length := overwrite_length _ _ _ (by omega)
        have hr : z80_fmt_go addr bytes (fuel + 1) (s, res, vld) cursor opr =
            z80_fmt_go addr bytes fuel
              (overwrite s p (hexPad 2 (bytes.getD opr 0)), res, vld)
              (p + 3) (opr + 1) := by
          simp [z80_fmt_go, hf]
        rw [hr]
        have hih := ih (overwrite s p (hexPad 2 (bytes.getD opr 0))) res vld
          (p + 3) (opr + 1) (by omega)
        refine ⟨hih.1, ?_, hih.2.2⟩
        have h21 := hih.2.1
        omega
      | opPcrel8 =>
        simp only [z80_oplen] at hle
        have hpt : (padTake 4 (decSInt (wrapS8 (sext8 (bytes.getD opr 0) + 2)))).length = 4 :=
          padTake_length _ _
        have hol : (overwrite s p
            (padTake 4 (decSInt (wrapS8 (sext8 (bytes.getD opr 0) + 2))))).length =
            s.length := overwrite_length _ _ _ (by omega)
        have hr : z80_fmt_go addr bytes (fuel + 1) (s, res, vld) cursor opr =
            z80_fmt_go addr bytes fuel
              (overwrite s p (padTake 4 (decSInt (wrapS8 (sext8 (bytes.getD opr 0) + 2)))),
               u32ofInt ((addr : Int) + wrapS8 (sext8 (bytes.getD opr 0) + 2)), true)
              (p + 4) (opr + 1) := by
          simp [z80_fmt_go, hf]
        rw [hr]
        have hih := ih
          (overwrite s p (padTake 4 (decSInt (wrapS8 (sext8 (bytes.getD opr 0) + 2)))))
          (u32ofInt ((addr : Int) + wrapS8 (sext8 (bytes.getD opr 0) + 2))) true
          (p + 4) (opr + 1) (by omega)
        refine ⟨hih.1, ?_, fun h2 => Or.inl ?_⟩
        · have h21 := hih.2.1
          omega
        · rcases hih.2.2 h2 with h | ⟨he, _⟩
          · exact h
          · rw [he]
            exact u32ofInt_lt _
      | opDisp8 =>
        simp only [z80_oplen] at hle
        have hr : z80_fmt_go addr bytes (fuel + 1) (s, res, vld) cursor opr =
            z80_fmt_go addr bytes fuel
              (z80_collapse
                (if sext8 (bytes.getD opr 0) < 0 then
                  overwrite s p (padTake 4 (decSInt (sext8 (bytes.getD opr 0))))
                 else
                  overwrite s (p + 1) (padTake 3 (decSInt (sext8 (bytes.getD opr 0))))) p,
               res, vld) (p + 4) (opr + 1) := by
          simp [z80_fmt_go, hf]
        by_cases hneg : sext8 (bytes.getD opr 0) < 0
        · rw [if_pos hneg] at hr
          have hs1len : (overwrite s p
              (padTake 4 (decSInt (sext8 (bytes.getD opr 0))))).length = s.length :=
            overwrite_length _ _ _ (by rw [padTake_length]; omega)
          have hchar : ¬ (overwrite s p
              (padTake 4 (decSInt (sext8 (bytes.getD opr 0))))).getD p ' ' = ' ' := by
            rw [overwrite_getD_at _ _ _ _ (by omega) (by rw [padTake_length]; omega)]
            rw [show decSInt (sext8 (bytes.getD opr 0)) =
              '-' :: natDec (sext8 (bytes.getD opr 0)).natAbs from by
                rw [decSInt, if_pos hneg]]
            rw [padTake_getD0_cons 4 (by omega)]
            decide
          have hcl := z80_collapse_length_le
            (overwrite s p (padTake 4 (decSInt (sext8 (bytes.getD opr 0))))) p
          have hcp := z80_collapse_pos
            (overwrite s p (padTake 4 (decSInt (sext8 (bytes.getD opr 0))))) p
            (by omega) hchar
          rw [hr]
          have hih := ih
            (z80_collapse (overwrite s p
              (padTake 4 (decSInt (sext8 (bytes.getD opr 0))))) p)
            res vld (p + 4) (opr + 1) hcp
          refine ⟨hih.1, ?_, hih.2.2⟩
          have h21 := hih.2.1
          omega
        · rw [if_neg hneg] at hr
          have hs1len : (overwrite s (p + 1)
              (padTake 3 (decSInt (sext8 (bytes.getD opr 0))))).length = s.length :=
            overwrite_length _ _ _ (by rw [padTake_length]; omega)
          have hchar : ¬ (overwrite s (p + 1)
              (padTake 3 (decSInt (sext8 (bytes.getD opr 0))))).getD p ' ' = ' ' := by
            rw [overwrite_getD_before _ _ _ _ _ (by omega) (by omega)]
            rw [z80_find_op_from_disp_head hf]
            decide
          have hcl := z80_collapse_length_le
            (overwrite s (p + 1) (padTake 3 (decSInt (sext8 (bytes.getD opr 0))))) p
          have hcp := z80_collapse_pos
            (overwrite s (p + 1) (padTake 3 (decSInt (sext8 (bytes.getD opr 0))))) p
            (by omega) hchar
          rw [hr]
          have hih := ih
            (z80_collapse (overwrite s (p + 1)
              (padTake 3 (decSInt (sext8 (bytes.getD opr 0))))) p)
            res vld (p + 4) (opr + 1) hcp
          refine ⟨hih.1, ?_, hih.2.2⟩
          have h21 := hih.2.1
          omega

theorem fmtz80_bounds (id : insn_decode) (hB : bytesOK id.bytes)
    (h1 : 1 ≤ id.insn_string.length) :
    1 ≤ (insn_decode_format_z80 id).insn_string.length ∧
    (insn_decode_format_z80 id).insn_string.length ≤ id.insn_string.length ∧
    ((insn_decode_format_z80 id).resolved_address_valid = true →
      (insn_decode_format_z80 id).resolved_address < 4294967296 ∨
      ((insn_decode_format_z80 id).resolved_address = id.resolved_address ∧
        id.resolved_address_valid = true)) := by
  have h := z80_fmt_go_bounds id.insn_address id.bytes hB (id.insn_string.length + 1)
    id.insn_string id.resolved_address id.resolved_address_valid 0
    (if id.bytes.getD 0 0 = 0xcb ∨ id.bytes.getD 0 0 = 0xed then 2
     else if id.bytes.getD 0 0 = 0xdd ∨ id.bytes.getD 0 0 = 0xfd then 2 else 1) h1
  unfold insn_decode_format_z80
  dsimp only
  exact h

/-- The 6809 opcode ranges that use an indexed postbyte (`0x30–0x33` via
the `goto indexed_need2`, and the three indexed operand columns). -/
def idx6809 (b0 : Nat) : Prop :=
  (0x30 ≤ b0 ∧ b0 ≤ 0x33) ∨ (0x60 ≤ b0 ∧ b0 ≤ 0x6f) ∨
  (0xa0 ≤ b0 ∧ b0 ≤ 0xaf) ∨ (0xe0 ≤ b0 ∧ b0 ≤ 0xef)

theorem am6809_set_bytes (id : insn_decode) (p v : Nat)
    (hf0 : ¬ id.bytes_fetched = 0) (hp : id.bytes_fetched ≤ p) :
    insn_decode_addrmode_6809 { id with bytes := id.bytes.set p (v % 256) } =
    insn_decode_addrmode_6809 id := by
  have e0 := getD_set_ne id.bytes p 0 (v % 256) (by omega)
  unfold insn_decode_addrmode_6809 insn_decode_addrmode_6809_indexed2
  dsimp only
  simp only [e0]
  by_cases h2 : id.bytes_fetched < 2
  · simp only [if_pos h2]
  · have e1 := getD_set_ne id.bytes p 1 (v % 256) (by omega)
    simp only [e1, if_neg h2]
    by_cases h3 : id.bytes_fetched < 3
    · simp only [if_pos h3]
    · have e2 := getD_set_ne id.bytes p 2 (v % 256) (by omega)
      simp only [e2, if_neg h3]

theorem opc6809_str_set (bytes : List Nat) (p v : Nat) (h1 : 1 ≤ p)
    (h2 : (bytes.getD 0 0 = 0x10 ∨ bytes.getD 0 0 = 0x11) → 2 ≤ p) :
    opc6809_str (bytes.set p (v % 256)) = opc6809_str bytes := by
  have e0 := getD_set_ne bytes p 0 (v % 256) (by omega)
  unfold opc6809_str
  simp only [e0]
  by_cases hpg : bytes.getD 0 0 = 0x10 ∨ bytes.getD 0 0 = 0x11
  · have hp2 := h2 hpg
    have e1 := getD_set_ne bytes p 1 (v % 256) (by omega)
    simp only [e1, if_pos hpg]
  · simp only [if_neg hpg]

theorem am6809_fetch_congr (id : insn_decode) (x y : Nat)
    (h0x : ¬ x = 0) (h0y : ¬ y = 0)
    (h2a : 2 ≤ x → 2 ≤ y) (h2b : 2 ≤ y → 2 ≤ x)
    (h3a : 3 ≤ x → 3 ≤ y) (h3b : 3 ≤ y → 3 ≤ x) :
    insn_decode_addrmode_6809 { id with bytes_fetched := x } =
    insn_decode_addrmode_6809 { id with bytes_fetched := y } := by
  have h2c : (2 ≤ x ∧ 2 ≤ y) ∨ (x < 2 ∧ y < 2) := by
    by_cases hx : 2 ≤ x
    · exact Or.inl ⟨hx, h2a hx⟩
    · by_cases hy : 2 ≤ y
      · exact absurd (h2b hy) hx
      · exact Or.inr ⟨by omega, by omega⟩
  have h3c : (3 ≤ x ∧ 3 ≤ y) ∨ (x < 3 ∧ y < 3) := by
    by_cases hx : 3 ≤ x
    · exact Or.inl ⟨hx, h3a hx⟩
    · by_cases hy : 3 ≤ y
      · exact absurd (h3b hy) hx
      · exact Or.inr ⟨by omega, by omega⟩
  unfold insn_decode_addrmode_6809 insn_decode_addrmode_6809_indexed2
  dsimp only
  rw [if_neg h0x, if_neg h0y]
  by_cases hpg : id.bytes.getD 0 0 = 0x10 ∨ id.bytes.getD 0 0 = 0x11
  · rw [if_pos hpg, if_pos hpg]
    rcases h2c with ⟨hx2, hy2⟩ | ⟨hx2, hy2⟩
    · rw [if_neg (show ¬ x < 2 from by omega), if_neg (show ¬ y < 2 from by omega)]
      by_cases hd1 : (id.bytes.getD 0 0 * 256 + id.bytes.getD 1 0) &&& 0xfff0 = 0x1020
      · rw [if_pos hd1, if_pos hd1]
      · rw [if_neg hd1, if_neg hd1]
        by_cases hd2 : (id.bytes.getD 0 0 * 256 + id.bytes.getD 1 0) &&& 0xfff0 = 0x1030 ∨ (id.bytes.getD 0 0 * 256 + id.bytes.getD 1 0) &&& 0xfff0 = 0x1130
        · rw [if_pos hd2, if_pos hd2]
        · rw [if_neg hd2, if_neg hd2]
          by_cases hd3 : (id.bytes.getD 0 0 * 256 + id.bytes.getD 1 0) &&& 0xfff0 = 0x1080 ∨ (id.bytes.getD 0 0 * 256 + id.bytes.getD 1 0) &&& 0xfff0 = 0x1180 ∨ (id.bytes.getD 0 0 * 256 + id.bytes.getD 1 0) &&& 0xfff0 = 0x10c0
          · rw [if_pos hd3, if_pos hd3]
          · rw [if_neg hd3, if_neg hd3]
            by_cases hd4 : (id.bytes.getD 0 0 * 256 + id.bytes.getD 1 0) &&& 0xfff0 = 0x1090 ∨ (id.bytes.getD 0 0 * 256 + id.bytes.getD 1 0) &&& 0xfff0 = 0x1190 ∨ (id.bytes.getD 0 0 * 256 + id.bytes.getD 1 0) &&& 0xfff0 = 0x10d0
            · rw [if_pos hd4, if_pos hd4]
            · rw [if_neg hd4, if_neg hd4]
              by_cases hd5 : (id.bytes.getD 0 0 * 256 + id.bytes.getD 1 0) &&& 0xfff0 = 0x10a0 ∨ (id.bytes.getD 0 0 * 256 + id.bytes.getD 1 0) &&& 0xfff0 = 0x11a0 ∨ (id.bytes.getD 0 0 * 256 + id.bytes.getD 1 0) &&& 0xfff0 = 0x10e0
              · rw [if_pos hd5, if_pos hd5]
                rcases h3c with ⟨hx3, hy3⟩ | ⟨hx3, hy3⟩
                · rw [if_neg (show ¬ x < 3 from by omega),
                    if_neg (show ¬ y < 3 from by omega)]
                · rw [if_pos hx3, if_pos hy3]
              · rw [if_neg hd5, if_neg hd5]
    · rw [if_pos hx2, if_pos hy2]
  · rw [if_neg hpg, if_neg hpg]
    by_cases h1 : id.bytes.getD 0 0 ≤ 0x0f ∨ (0x90 ≤ id.bytes.getD 0 0 ∧ id.bytes.getD 0 0 ≤ 0x9f) ∨ (0xd0 ≤ id.bytes.getD 0 0 ∧ id.bytes.getD 0 0 ≤ 0xdf)
    · rw [if_pos h1, if_pos h1]
    · rw [if_neg h1, if_neg h1]
      by_cases h2 : 0x10 ≤ id.bytes.getD 0 0 ∧ id.bytes.getD 0 0 ≤ 0x1f
      · rw [if_pos h2, if_pos h2]
      · rw [if_neg h2, if_neg h2]
        by_cases h3 : 0x20 ≤ id.bytes.getD 0 0 ∧ id.bytes.getD 0 0 ≤ 0x2f
        · rw [if_pos h3, if_pos h3]
        · rw [if_neg h3, if_neg h3]
          by_cases h4 : 0x30 ≤ id.bytes.getD 0 0 ∧ id.bytes.getD 0 0 ≤ 0x3f
          · rw [if_pos h4, if_pos h4]
            by_cases h4a : id.bytes.getD 0 0 ≤ 0x33
            · rw [if_pos h4a, if_pos h4a]
              rcases h2c with ⟨hx2, hy2⟩ | ⟨hx2, hy2⟩
              · rw [if_neg (show ¬ x < 2 from by omega),
                  if_neg (show ¬ y < 2 from by omega)]
              · rw [if_pos hx2, if_pos hy2]
            · rw [if_neg h4a, if_neg h4a]
          · rw [if_neg h4, if_neg h4]
            by_cases h5 : (0x40 ≤ id.bytes.getD 0 0 ∧ id.bytes.getD 0 0 ≤ 0x4f) ∨ (0x50 ≤ id.bytes.getD 0 0 ∧ id.bytes.getD 0 0 ≤ 0x5f)
            · rw [if_pos h5, if_pos h5]
            · rw [if_neg h5, if_neg h5]
              by_cases h6 : (0x60 ≤ id.bytes.getD 0 0 ∧ id.bytes.getD 0 0 ≤ 0x6f) ∨ (0xa0 ≤ id.bytes.getD 0 0 ∧ id.bytes.getD 0 0 ≤ 0xaf) ∨ (0xe0 ≤ id.bytes.getD 0 0 ∧ id.bytes.getD 0 0 ≤ 0xef)
              · rw [if_pos h6, if_pos h6]
                rcases h2c with ⟨hx2, hy2⟩ | ⟨hx2, hy2⟩
                · rw [if_neg (show ¬ x < 2 from by omega),
                    if_neg (show ¬ y < 2 from by omega)]
                · rw [if_pos hx2, if_pos hy2]
              · rw [if_neg h6, if_neg h6]

theorem am6809_noidx_congr (id : insn_decode) (x y : Nat)
    (h0x : ¬ x = 0) (h0y : ¬ y = 0)
    (hpg : ¬ (id.bytes.getD 0 0 = 0x10 ∨ id.bytes.getD 0 0 = 0x11))
    (hidx : ¬ idx6809 (id.bytes.getD 0 0)) :
    insn_decode_addrmode_6809 { id with bytes_fetched := x } =
    insn_decode_addrmode_6809 { id with bytes_fetched := y } := by
  unfold idx6809 at hidx
  unfold insn_decode_addrmode_6809 insn_decode_addrmode_6809_indexed2
  dsimp only
  rw [if_neg h0x, if_neg h0y]
  rw [if_neg hpg, if_neg hpg]
  by_cases h1 : id.bytes.getD 0 0 ≤ 0x0f ∨ (0x90 ≤ id.bytes.getD 0 0 ∧ id.bytes.getD 0 0 ≤ 0x9f) ∨ (0xd0 ≤ id.bytes.getD 0 0 ∧ id.bytes.getD 0 0 ≤ 0xdf)
  · rw [if_pos h1, if_pos h1]
  · rw [if_neg h1, if_neg h1]
    by_cases h2 : 0x10 ≤ id.bytes.getD 0 0 ∧ id.bytes.getD 0 0 ≤ 0x1f
    · rw [if_pos h2, if_pos h2]
    · rw [if_neg h2, if_neg h2]
      by_cases h3 : 0x20 ≤ id.bytes.getD 0 0 ∧ id.bytes.getD 0 0 ≤ 0x2f
      · rw [if_pos h3, if_pos h3]
      · rw [if_neg h3, if_neg h3]
        by_cases h4 : 0x30 ≤ id.bytes.getD 0 0 ∧ id.bytes.getD 0 0 ≤ 0x3f
        · rw [if_pos h4, if_pos h4]
          by_cases h4a : id.bytes.getD 0 0 ≤ 0x33
          · omega
          · rw [if_neg h4a, if_neg h4a]
        · rw [if_neg h4, if_neg h4]
          by_cases h5 : (0x40 ≤ id.bytes.getD 0 0 ∧ id.bytes.getD 0 0 ≤ 0x4f) ∨ (0x50 ≤ id.bytes.getD 0 0 ∧ id.bytes.getD 0 0 ≤ 0x5f)
          · rw [if_pos h5, if_pos h5]
          · rw [if_neg h5, if_neg h5]
            by_cases h6 : (0x60 ≤ id.bytes.getD 0 0 ∧ id.bytes.getD 0 0 ≤ 0x6f) ∨ (0xa0 ≤ id.bytes.getD 0 0 ∧ id.bytes.getD 0 0 ≤ 0xaf) ∨ (0xe0 ≤ id.bytes.getD 0 0 ∧ id.bytes.getD 0 0 ≤ 0xef)
            · omega
            · rw [if_neg h6, if_neg h6]

theorem am6809_idx_val (id : insn_decode)
    (hpg : ¬ (id.bytes.getD 0 0 = 0x10 ∨ id.bytes.getD 0 0 = 0x11))
    (hidx : idx6809 (id.bytes.getD 0 0)) (hf2 : 2 ≤ id.bytes_fetched) :
    insn_decode_addrmode_6809 id =
    insn_decode_addrmode_indexed_6809 (id.bytes.getD 1 0) := by
  unfold idx6809 at hidx
  unfold insn_decode_addrmode_6809 insn_decode_addrmode_6809_indexed2
  dsimp only
  rw [if_neg (show ¬ id.bytes_fetched = 0 from by omega)]
  rw [if_neg hpg]
  rcases hidx with h | h | h | h
  · rw [if_neg (show ¬ (id.bytes.getD 0 0 ≤ 0x0f ∨ (0x90 ≤ id.bytes.getD 0 0 ∧ id.bytes.getD 0 0 ≤ 0x9f) ∨ (0xd0 ≤ id.bytes.getD 0 0 ∧ id.bytes.getD 0 0 ≤ 0xdf)) from by omega)]
    rw [if_neg (show ¬ (0x10 ≤ id.bytes.getD 0 0 ∧ id.bytes.getD 0 0 ≤ 0x1f) from by omega)]
    rw [if_neg (show ¬ (0x20 ≤ id.bytes.getD 0 0 ∧ id.bytes.getD 0 0 ≤ 0x2f) from by omega)]
    rw [if_pos (show 0x30 ≤ id.bytes.getD 0 0 ∧ id.bytes.getD 0 0 ≤ 0x3f from by omega)]
    rw [if_pos (show id.bytes.getD 0 0 ≤ 0x33 from by omega)]
    rw [if_neg (show ¬ id.bytes_fetched < 2 from by omega)]
  · rw [if_neg (show ¬ (id.bytes.getD 0 0 ≤ 0x0f ∨ (0x90 ≤ id.bytes.getD 0 0 ∧ id.bytes.getD 0 0 ≤ 0x9f) ∨ (0xd0 ≤ id.bytes.getD 0 0 ∧ id.bytes.getD 0 0 ≤ 0xdf)) from by omega)]
    rw [if_neg (show ¬ (0x10 ≤ id.bytes.getD 0 0 ∧ id.bytes.getD 0 0 ≤ 0x1f) from by omega)]
    rw [if_neg (show ¬ (0x20 ≤ id.bytes.getD 0 0 ∧ id.bytes.getD 0 0 ≤ 0x2f) from by omega)]
    rw [if_neg (show ¬ (0x30 ≤ id.bytes.getD 0 0 ∧ id.bytes.getD 0 0 ≤ 0x3f) from by omega)]
    rw [if_neg (show ¬ ((0x40 ≤ id.bytes.getD 0 0 ∧ id.bytes.getD 0 0 ≤ 0x4f) ∨ (0x50 ≤ id.bytes.getD 0 0 ∧ id.bytes.getD 0 0 ≤ 0x5f)) from by omega)]
    rw [if_pos (show (0x60 ≤ id.bytes.getD 0 0 ∧ id.bytes.getD 0 0 ≤ 0x6f) ∨ (0xa0 ≤ id.bytes.getD 0 0 ∧ id.bytes.getD 0 0 ≤ 0xaf) ∨ (0xe0 ≤ id.bytes.getD 0 0 ∧ id.bytes.getD 0 0 ≤ 0xef) from by omega)]
    rw [if_neg (show ¬ id.bytes_fetched < 2 from by omega)]
  · rw [if_neg (show ¬ (id.bytes.getD 0 0 ≤ 0x0f ∨ (0x90 ≤ id.bytes.getD 0 0 ∧ id.bytes.getD 0 0 ≤ 0x9f) ∨ (0xd0 ≤ id.bytes.getD 0 0 ∧ id.bytes.getD 0 0 ≤ 0xdf)) from by omega)]
    rw [if_neg (show ¬ (0x10 ≤ id.bytes.getD 0 0 ∧ id.bytes.getD 0 0 ≤ 0x1f) from by omega)]
    rw [if_neg (show ¬ (0x20 ≤ id.bytes.getD 0 0 ∧ id.bytes.getD 0 0 ≤ 0x2f) from by omega)]
    rw [if_neg (show ¬ (0x30 ≤ id.bytes.getD 0 0 ∧ id.bytes.getD 0 0 ≤ 0x3f) from by omega)]
    rw [if_neg (show ¬ ((0x40 ≤ id.bytes.getD 0 0 ∧ id.bytes.getD 0 0 ≤ 0x4f) ∨ (0x50 ≤ id.bytes.getD 0 0 ∧ id.bytes.getD 0 0 ≤ 0x5f)) from by omega)]
    rw [if_pos (show (0x60 ≤ id.bytes.getD 0 0 ∧ id.bytes.getD 0 0 ≤ 0x6f) ∨ (0xa0 ≤ id.bytes.getD 0 0 ∧ id.bytes.getD 0 0 ≤ 0xaf) ∨ (0xe0 ≤ id.bytes.getD 0 0 ∧ id.bytes.getD 0 0 ≤ 0xef) from by omega)]
    rw [if_neg (show ¬ id.bytes_fetched < 2 from by omega)]
  · rw [if_neg (show ¬ (id.bytes.getD 0 0 ≤ 0x0f ∨ (0x90 ≤ id.bytes.getD 0 0 ∧ id.bytes.getD 0 0 ≤ 0x9f) ∨ (0xd0 ≤ id.bytes.getD 0 0 ∧ id.bytes.getD 0 0 ≤ 0xdf)) from by omega)]
    rw [if_neg (show ¬ (0x10 ≤ id.bytes.getD 0 0 ∧ id.bytes.getD 0 0 ≤ 0x1f) from by omega)]
    rw [if_neg (show ¬ (0x20 ≤ id.bytes.getD 0 0 ∧ id.bytes.getD 0 0 ≤ 0x2f) from by omega)]
    rw [if_neg (show ¬ (0x30 ≤ id.bytes.getD 0 0 ∧ id.bytes.getD 0 0 ≤ 0x3f) from by omega)]
    rw [if_neg (show ¬ ((0x40 ≤ id.bytes.getD 0 0 ∧ id.bytes.getD 0 0 ≤ 0x4f) ∨ (0x50 ≤ id.bytes.getD 0 0 ∧ id.bytes.getD 0 0 ≤ 0x5f)) from by omega)]
    rw [if_pos (show (0x60 ≤ id.bytes.getD 0 0 ∧ id.bytes.getD 0 0 ≤ 0x6f) ∨ (0xa0 ≤ id.bytes.getD 0 0 ∧ id.bytes.getD 0 0 ≤ 0xaf) ∨ (0xe0 ≤ id.bytes.getD 0 0 ∧ id.bytes.getD 0 0 ≤ 0xef) from by omega)]
    rw [if_neg (show ¬ id.bytes_fetched < 2 from by omega)]

theorem am6809_pg3_cases (id : insn_decode)
    (hpg : id.bytes.getD 0 0 = 0x10 ∨ id.bytes.getD 0 0 = 0x11) (hf : id.bytes_fetched = 3)
    (hpre : insn_decode_addrmode_6809
      { id with bytes_fetched := id.bytes_fetched - 1 } = am_invalid) :
    insn_decode_addrmode_6809 id =
      insn_decode_addrmode_indexed_6809 (id.bytes.getD 2 0) ∨
    insn_decode_addrmode_6809 id = am_invalid := by
  unfold insn_decode_addrmode_6809 at hpre ⊢
  dsimp only at hpre ⊢
  rw [if_neg (show ¬ (id.bytes_fetched - 1 = 0) from by omega)] at hpre
  rw [if_pos hpg] at hpre
  rw [if_neg (show ¬ (id.bytes_fetched - 1 < 2) from by omega)] at hpre
  rw [if_neg (show ¬ (id.bytes_fetched = 0) from by omega)]
  rw [if_pos hpg]
  rw [if_neg (show ¬ (id.bytes_fetched < 2) from by omega)]
  by_cases hd1 : (id.bytes.getD 0 0 * 256 + id.bytes.getD 1 0) &&& 0xfff0 = 0x1020
  · rw [if_pos hd1] at hpre; exact absurd hpre (by decide)
  · rw [if_neg hd1] at hpre; rw [if_neg hd1]
    by_cases hd2 : (id.bytes.getD 0 0 * 256 + id.bytes.getD 1 0) &&& 0xfff0 = 0x1030 ∨ (id.bytes.getD 0 0 * 256 + id.bytes.getD 1 0) &&& 0xfff0 = 0x1130
    · rw [if_pos hd2] at hpre; exact absurd hpre (by decide)
    · rw [if_neg hd2] at hpre; rw [if_neg hd2]
      by_cases hd3 : (id.bytes.getD 0 0 * 256 + id.bytes.getD 1 0) &&& 0xfff0 = 0x1080 ∨ (id.bytes.getD 0 0 * 256 + id.bytes.getD 1 0) &&& 0xfff0 = 0x1180 ∨ (id.bytes.getD 0 0 * 256 + id.bytes.getD 1 0) &&& 0xfff0 = 0x10c0
      · rw [if_pos hd3] at hpre; exact absurd hpre (by decide)
      · rw [if_neg hd3] at hpre; rw [if_neg hd3]
        by_cases hd4 : (id.bytes.getD 0 0 * 256 + id.bytes.getD 1 0) &&& 0xfff0 = 0x1090 ∨ (id.bytes.getD 0 0 * 256 + id.bytes.getD 1 0) &&& 0xfff0 = 0x1190 ∨ (id.bytes.getD 0 0 * 256 + id.bytes.getD 1 0) &&& 0xfff0 = 0x10d0
        · rw [if_pos hd4] at hpre; exact absurd hpre (by decide)
        · rw [if_neg hd4] at hpre; rw [if_neg hd4]
          by_cases hd5 : (id.bytes.getD 0 0 * 256 + id.bytes.getD 1 0) &&& 0xfff0 = 0x10a0 ∨ (id.bytes.getD 0 0 * 256 + id.bytes.getD 1 0) &&& 0xfff0 = 0x11a0 ∨ (id.bytes.getD 0 0 * 256 + id.bytes.getD 1 0) &&& 0xfff0 = 0x10e0
          · rw [if_pos hd5]
            rw [if_neg (show ¬ (id.bytes_fetched < 3) from by omega)]
            exact Or.inl rfl
          · rw [if_neg hd5] at hpre; rw [if_neg hd5]
            by_cases hd6 : (id.bytes.getD 0 0 * 256 + id.bytes.getD 1 0) &&& 0xfff0 = 0x10b0 ∨ (id.bytes.getD 0 0 * 256 + id.bytes.getD 1 0) &&& 0xfff0 = 0x11b0 ∨ (id.bytes.getD 0 0 * 256 + id.bytes.getD 1 0) &&& 0xfff0 = 0x10f0
            · rw [if_pos hd6] at hpre; exact absurd hpre (by decide)
            · rw [if_neg hd6]
              exact Or.inr rfl

theorem ck_6809_pcrel_opc : ((List.range 256).all fun b =>
    decide (((0x30 ≤ b ∧ b ≤ 0x33) ∨ (0x60 ≤ b ∧ b ≤ 0x6f) ∨
        (0xa0 ≤ b ∧ b ≤ 0xaf) ∨ (0xe0 ≤ b ∧ b ≤ 0xef)) →
      (opcodes_6809.getD b table_dflt).length ≤ 4)) = true := by decide

theorem am6809_range (id : insn_decode) (hB : bytesOK id.bytes) :
    insn_decode_addrmode_6809 id = am_invalid ∨
    (am6809_first ≤ insn_decode_addrmode_6809 id ∧
      insn_decode_addrmode_6809 id ≤ am6809_last) := by
  unfold insn_decode_addrmode_6809 insn_decode_addrmode_6809_indexed2
  dsimp only
  by_cases hf0 : id.bytes_fetched = 0
  · rw [if_pos hf0]; exact Or.inl rfl
  · rw [if_neg hf0]
    by_cases hpg : id.bytes.getD 0 0 = 0x10 ∨ id.bytes.getD 0 0 = 0x11
    · rw [if_pos hpg]
      by_cases hfl2 : id.bytes_fetched < 2
      · rw [if_pos hfl2]; exact Or.inl rfl
      · rw [if_neg hfl2]
        by_cases hd1 : (id.bytes.getD 0 0 * 256 + id.bytes.getD 1 0) &&& 0xfff0 = 0x1020
        · rw [if_pos hd1]; exact Or.inr ⟨by decide, by decide⟩
        · rw [if_neg hd1]
          by_cases hd2 : (id.bytes.getD 0 0 * 256 + id.bytes.getD 1 0) &&& 0xfff0 = 0x1030 ∨ (id.bytes.getD 0 0 * 256 + id.bytes.getD 1 0) &&& 0xfff0 = 0x1130
          · rw [if_pos hd2]; exact Or.inr ⟨by decide, by decide⟩
          · rw [if_neg hd2]
            by_cases hd3 : (id.bytes.getD 0 0 * 256 + id.bytes.getD 1 0) &&& 0xfff0 = 0x1080 ∨ (id.bytes.getD 0 0 * 256 + id.bytes.getD 1 0) &&& 0xfff0 = 0x1180 ∨ (id.bytes.getD 0 0 * 256 + id.bytes.getD 1 0) &&& 0xfff0 = 0x10c0
            · rw [if_pos hd3]; exact Or.inr ⟨by decide, by decide⟩
            · rw [if_neg hd3]
              by_cases hd4 : (id.bytes.getD 0 0 * 256 + id.bytes.getD 1 0) &&& 0xfff0 = 0x1090 ∨ (id.bytes.getD 0 0 * 256 + id.bytes.getD 1 0) &&& 0xfff0 = 0x1190 ∨ (id.bytes.getD 0 0 * 256 + id.bytes.getD 1 0) &&& 0xfff0 = 0x10d0
              · rw [if_pos hd4]; exact Or.inr ⟨by decide, by decide⟩
              · rw [if_neg hd4]
                by_cases hd5 : (id.bytes.getD 0 0 * 256 + id.bytes.getD 1 0) &&& 0xfff0 = 0x10a0 ∨ (id.bytes.getD 0 0 * 256 + id.bytes.getD 1 0) &&& 0xfff0 = 0x11a0 ∨ (id.bytes.getD 0 0 * 256 + id.bytes.getD 1 0) &&& 0xfff0 = 0x10e0
                · rw [if_pos hd5]
                  by_cases hfl3 : id.bytes_fetched < 3
                  · rw [if_pos hfl3]; exact Or.inl rfl
                  · rw [if_neg hfl3]
                    exact (of_decide_eq_true (range_all_out ck_6809_indexed
                      (bytesOK_getD hB 2))).elim Or.inl (fun hcon => Or.inr
                      ⟨by obtain ⟨w, hw⟩ : ∃ w : Int,
                            insn_decode_addrmode_indexed_6809 (id.bytes.getD 2 0) = w :=
                            ⟨_, rfl⟩
                          have h7 : (7 : Int) ≤ w := hw ▸ hcon.1
                          rw [hw]
                          show (0 : Int) ≤ w
                          omega,
                       by obtain ⟨w, hw⟩ : ∃ w : Int,
                            insn_decode_addrmode_indexed_6809 (id.bytes.getD 2 0) = w :=
                            ⟨_, rfl⟩
                          have h26 : w ≤ (26 : Int) := hw ▸ hcon.2.1
                          rw [hw]
                          show w ≤ (28 : Int)
                          omega⟩)
                · rw [if_neg hd5]
                  by_cases hd6 : (id.bytes.getD 0 0 * 256 + id.bytes.getD 1 0) &&& 0xfff0 = 0x10b0 ∨ (id.bytes.getD 0 0 * 256 + id.bytes.getD 1 0) &&& 0xfff0 = 0x11b0 ∨ (id.bytes.getD 0 0 * 256 + id.bytes.getD 1 0) &&& 0xfff0 = 0x10f0
                  · rw [if_pos hd6]; exact Or.inr ⟨by decide, by decide⟩
                  · rw [if_neg hd6]; exact Or.inl rfl
    · rw [if_neg hpg]
      by_cases h1 : id.bytes.getD 0 0 ≤ 0x0f ∨ (0x90 ≤ id.bytes.getD 0 0 ∧ id.bytes.getD 0 0 ≤ 0x9f) ∨ (0xd0 ≤ id.bytes.getD 0 0 ∧ id.bytes.getD 0 0 ≤ 0xdf)
      · rw [if_pos h1]; exact Or.inr ⟨by decide, by decide⟩
      · rw [if_neg h1]
        by_cases h2 : 0x10 ≤ id.bytes.getD 0 0 ∧ id.bytes.getD 0 0 ≤ 0x1f
        · rw [if_pos h2]
          by_cases h2a : id.bytes.getD 0 0 = 0x12 ∨ id.bytes.getD 0 0 = 0x13 ∨ id.bytes.getD 0 0 = 0x19 ∨ id.bytes.getD 0 0 = 0x1d
          · rw [if_pos h2a]; exact Or.inr ⟨by decide, by decide⟩
          · rw [if_neg h2a]
            by_cases h2b : id.bytes.getD 0 0 = 0x16 ∨ id.bytes.getD 0 0 = 0x17
            · rw [if_pos h2b]; exact Or.inr ⟨by decide, by decide⟩
            · rw [if_neg h2b]
              by_cases h2c : id.bytes.getD 0 0 = 0x1a ∨ id.bytes.getD 0 0 = 0x1c
              · rw [if_pos h2c]; exact Or.inr ⟨by decide, by decide⟩
              · rw [if_neg h2c]
                by_cases h2d : id.bytes.getD 0 0 = 0x1e ∨ id.bytes.getD 0 0 = 0x1f
                · rw [if_pos h2d]; exact Or.inr ⟨by decide, by decide⟩
                · rw [if_neg h2d]; exact Or.inl rfl
        · rw [if_neg h2]
          by_cases h3 : 0x20 ≤ id.bytes.getD 0 0 ∧ id.bytes.getD 0 0 ≤ 0x2f
          · rw [if_pos h3]; exact Or.inr ⟨by decide, by decide⟩
          · rw [if_neg h3]
            by_cases h4 : 0x30 ≤ id.bytes.getD 0 0 ∧ id.bytes.getD 0 0 ≤ 0x3f
            · rw [if_pos h4]
              by_cases h4a : id.bytes.getD 0 0 ≤ 0x33
              · rw [if_pos h4a]
                by_cases hfl2 : id.bytes_fetched < 2
                · rw [if_pos hfl2]; exact Or.inl rfl
                · rw [if_neg hfl2]
                  exact (of_decide_eq_true (range_all_out ck_6809_indexed
                      (bytesOK_getD hB 1))).elim Or.inl (fun hcon => Or.inr
                      ⟨by obtain ⟨w, hw⟩ : ∃ w : Int,
                            insn_decode_addrmode_indexed_6809 (id.bytes.getD 1 0) = w :=
                            ⟨_, rfl⟩
                          have h7 : (7 : Int) ≤ w := hw ▸ hcon.1
                          rw [hw]
                          show (0 : Int) ≤ w
                          omega,
                       by obtain ⟨w, hw⟩ : ∃ w : Int,
                            insn_decode_addrmode_indexed_6809 (id.bytes.getD 1 0) = w :=
                            ⟨_, rfl⟩
                          have h26 : w ≤ (26 : Int) := hw ▸ hcon.2.1
                          rw [hw]
                          show w ≤ (28 : Int)
                          omega⟩)
              · rw [if_neg h4a]
                by_cases h4b : 0x34 ≤ id.bytes.getD 0 0 ∧ id.bytes.getD 0 0 ≤ 0x37
                · rw [if_pos h4b]; exact Or.inr ⟨by decide, by decide⟩
                · rw [if_neg h4b]
                  by_cases h4c : 0x39 ≤ id.bytes.getD 0 0 ∧ id.bytes.getD 0 0 ≤ 0x3f
                  · rw [if_pos h4c]; exact Or.inr ⟨by decide, by decide⟩
                  · rw [if_neg h4c]; exact Or.inl rfl
            · rw [if_neg h4]
              by_cases h5 : (0x40 ≤ id.bytes.getD 0 0 ∧ id.bytes.getD 0 0 ≤ 0x4f) ∨ (0x50 ≤ id.bytes.getD 0 0 ∧ id.bytes.getD 0 0 ≤ 0x5f)
              · rw [if_pos h5]; exact Or.inr ⟨by decide, by decide⟩
              · rw [if_neg h5]
                by_cases h6 : (0x60 ≤ id.bytes.getD 0 0 ∧ id.bytes.getD 0 0 ≤ 0x6f) ∨ (0xa0 ≤ id.bytes.getD 0 0 ∧ id.bytes.getD 0 0 ≤ 0xaf) ∨ (0xe0 ≤ id.bytes.getD 0 0 ∧ id.bytes.getD 0 0 ≤ 0xef)
                · rw [if_pos h6]
                  by_cases hfl2 : id.bytes_fetched < 2
                  · rw [if_pos hfl2]; exact Or.inl rfl
                  · rw [if_neg hfl2]
                    exact (of_decide_eq_true (range_all_out ck_6809_indexed
                      (bytesOK_getD hB 1))).elim Or.inl (fun hcon => Or.inr
                      ⟨by obtain ⟨w, hw⟩ : ∃ w : Int,
                            insn_decode_addrmode_indexed_6809 (id.bytes.getD 1 0) = w :=
                            ⟨_, rfl⟩
                          have h7 : (7 : Int) ≤ w := hw ▸ hcon.1
                          rw [hw]
                          show (0 : Int) ≤ w
                          omega,
                       by obtain ⟨w, hw⟩ : ∃ w : Int,
                            insn_decode_addrmode_indexed_6809 (id.bytes.getD 1 0) = w :=
                            ⟨_, rfl⟩
                          have h26 : w ≤ (26 : Int) := hw ▸ hcon.2.1
                          rw [hw]
                          show w ≤ (28 : Int)
                          omega⟩)
                · rw [if_neg h6]
                  by_cases h7 : (0x70 ≤ id.bytes.getD 0 0 ∧ id.bytes.getD 0 0 ≤ 0x7f) ∨ (0xb0 ≤ id.bytes.getD 0 0 ∧ id.bytes.getD 0 0 ≤ 0xbf) ∨ (0xf0 ≤ id.bytes.getD 0 0 ∧ id.bytes.getD 0 0 ≤ 0xff)
                  · rw [if_pos h7]; exact Or.inr ⟨by decide, by decide⟩
                  · rw [if_neg h7]
                    by_cases h8 : (0x80 ≤ id.bytes.getD 0 0 ∧ id.bytes.getD 0 0 ≤ 0x8f) ∨ (0xc0 ≤ id.bytes.getD 0 0 ∧ id.bytes.getD 0 0 ≤ 0xcf)
                    · rw [if_pos h8]
                      by_cases h8a : id.bytes.getD 0 0 = 0x8d
                      · rw [if_pos h8a]; exact Or.inr ⟨by decide, by decide⟩
                      · rw [if_neg h8a]
                        by_cases h8b : id.bytes.getD 0 0 &&& 0xf = 0x3 ∨ id.bytes.getD 0 0 &&& 0xf = 0xc ∨ id.bytes.getD 0 0 &&& 0xf = 0xe
                        · rw [if_pos h8b]; exact Or.inr ⟨by decide, by decide⟩
                        · rw [if_neg h8b]; exact Or.inr ⟨by decide, by decide⟩
                    · rw [if_neg h8]; exact Or.inl rfl

theorem am6809_pcrel_opc (id : insn_decode) (hB : bytesOK id.bytes)
    (hp : pcrel6809 (insn_decode_addrmode_6809 id)) :
    (opc6809_str id.bytes).length ≤ 4 := by
  have hb0 := bytesOK_getD hB 0
  have hb1 := bytesOK_getD hB 1
  by_cases hpg : id.bytes.getD 0 0 = 0x10 ∨ id.bytes.getD 0 0 = 0x11
  · unfold opc6809_str
    rw [if_pos hpg]
    have hck := of_decide_eq_true (range_all_out ck_6809_ext hb1)
    rcases hpg with h0 | h0 <;> rw [h0]
    · rw [show (16 : Nat) * 256 + id.bytes.getD 1 0 = 4096 + id.bytes.getD 1 0 from by omega]
      exact hck.2.1
    · rw [show (17 : Nat) * 256 + id.bytes.getD 1 0 = 4352 + id.bytes.getD 1 0 from by omega]
      exact hck.2.2.2
  · by_cases hidx : idx6809 (id.bytes.getD 0 0)
    · unfold opc6809_str
      rw [if_neg hpg]
      refine of_decide_eq_true (range_all_out ck_6809_pcrel_opc hb0) ?_
      unfold idx6809 at hidx
      exact hidx
    · exfalso
      unfold idx6809 at hidx
      unfold insn_decode_addrmode_6809 insn_decode_addrmode_6809_indexed2 at hp
      dsimp only at hp
      by_cases hf0 : id.bytes_fetched = 0
      · rw [if_pos hf0] at hp; exact absurd hp (by unfold pcrel6809; decide)
      · rw [if_neg hf0] at hp
        rw [if_neg hpg] at hp
        by_cases h1 : id.bytes.getD 0 0 ≤ 0x0f ∨ (0x90 ≤ id.bytes.getD 0 0 ∧ id.bytes.getD 0 0 ≤ 0x9f) ∨ (0xd0 ≤ id.bytes.getD 0 0 ∧ id.bytes.getD 0 0 ≤ 0xdf)
        · rw [if_pos h1] at hp; exact absurd hp (by unfold pcrel6809; decide)
        · rw [if_neg h1] at hp
          by_cases h2 : 0x10 ≤ id.bytes.getD 0 0 ∧ id.bytes.getD 0 0 ≤ 0x1f
          · rw [if_pos h2] at hp
            by_cases h2a : id.bytes.getD 0 0 = 0x12 ∨ id.bytes.getD 0 0 = 0x13 ∨ id.bytes.getD 0 0 = 0x19 ∨ id.bytes.getD 0 0 = 0x1d
            · rw [if_pos h2a] at hp; exact absurd hp (by unfold pcrel6809; decide)
            · rw [if_neg h2a] at hp
              by_cases h2b : id.bytes.getD 0 0 = 0x16 ∨ id.bytes.getD 0 0 = 0x17
              · rw [if_pos h2b] at hp; exact absurd hp (by unfold pcrel6809; decide)
              · rw [if_neg h2b] at hp
                by_cases h2c : id.bytes.getD 0 0 = 0x1a ∨ id.bytes.getD 0 0 = 0x1c
                · rw [if_pos h2c] at hp; exact absurd hp (by unfold pcrel6809; decide)
                · rw [if_neg h2c] at hp
                  by_cases h2d : id.bytes.getD 0 0 = 0x1e ∨ id.bytes.getD 0 0 = 0x1f
                  · rw [if_pos h2d] at hp; exact absurd hp (by unfold pcrel6809; decide)
                  · rw [if_neg h2d] at hp; exact absurd hp (by unfold pcrel6809; decide)
          · rw [if_neg h2] at hp
            by_cases h3 : 0x20 ≤ id.bytes.getD 0 0 ∧ id.bytes.getD 0 0 ≤ 0x2f
            · rw [if_pos h3] at hp; exact absurd hp (by unfold pcrel6809; decide)
            · rw [if_neg h3] at hp
              by_cases h4 : 0x30 ≤ id.bytes.getD 0 0 ∧ id.bytes.getD 0 0 ≤ 0x3f
              · rw [if_pos h4] at hp
                by_cases h4a : id.bytes.getD 0 0 ≤ 0x33
                · omega
                · rw [if_neg h4a] at hp
                  by_cases h4b : 0x34 ≤ id.bytes.getD 0 0 ∧ id.bytes.getD 0 0 ≤ 0x37
                  · rw [if_pos h4b] at hp; exact absurd hp (by unfold pcrel6809; decide)
                  · rw [if_neg h4b] at hp
                    by_cases h4c : 0x39 ≤ id.bytes.getD 0 0 ∧ id.bytes.getD 0 0 ≤ 0x3f
                    · rw [if_pos h4c] at hp; exact absurd hp (by unfold pcrel6809; decide)
                    · rw [if_neg h4c] at hp; exact absurd hp (by unfold pcrel6809; decide)
              · rw [if_neg h4] at hp
                by_cases h5 : (0x40 ≤ id.bytes.getD 0 0 ∧ id.bytes.getD 0 0 ≤ 0x4f) ∨ (0x50 ≤ id.bytes.getD 0 0 ∧ id.bytes.getD 0 0 ≤ 0x5f)
                · rw [if_pos h5] at hp; exact absurd hp (by unfold pcrel6809; decide)
                · rw [if_neg h5] at hp
                  by_cases h6 : (0x60 ≤ id.bytes.getD 0 0 ∧ id.bytes.getD 0 0 ≤ 0x6f) ∨ (0xa0 ≤ id.bytes.getD 0 0 ∧ id.bytes.getD 0 0 ≤ 0xaf) ∨ (0xe0 ≤ id.bytes.getD 0 0 ∧ id.bytes.getD 0 0 ≤ 0xef)
                  · omega
                  · rw [if_neg h6] at hp
                    by_cases h7 : (0x70 ≤ id.bytes.getD 0 0 ∧ id.bytes.getD 0 0 ≤ 0x7f) ∨ (0xb0 ≤ id.bytes.getD 0 0 ∧ id.bytes.getD 0 0 ≤ 0xbf) ∨ (0xf0 ≤ id.bytes.getD 0 0 ∧ id.bytes.getD 0 0 ≤ 0xff)
                    · rw [if_pos h7] at hp; exact absurd hp (by unfold pcrel6809; decide)
                    · rw [if_neg h7] at hp
                      by_cases h8 : (0x80 ≤ id.bytes.getD 0 0 ∧ id.bytes.getD 0 0 ≤ 0x8f) ∨ (0xc0 ≤ id.bytes.getD 0 0 ∧ id.bytes.getD 0 0 ≤ 0xcf)
                      · rw [if_pos h8] at hp
                        by_cases h8a : id.bytes.getD 0 0 = 0x8d
                        · rw [if_pos h8a] at hp; exact absurd hp (by unfold pcrel6809; decide)
                        · rw [if_neg h8a] at hp
                          by_cases h8b : id.bytes.getD 0 0 &&& 0xf = 0x3 ∨ id.bytes.getD 0 0 &&& 0xf = 0xc ∨ id.bytes.getD 0 0 &&& 0xf = 0xe
                          · rw [if_pos h8b] at hp; exact absurd hp (by unfold pcrel6809; decide)
                          · rw [if_neg h8b] at hp; exact absurd hp (by unfold pcrel6809; decide)
                      · rw [if_neg h8] at hp; exact absurd hp (by unfold pcrel6809; decide)

theorem am6809_flip (id : insn_decode) (hB : bytesOK id.bytes)
    (hf2 : 2 ≤ id.bytes_fetched)
    (hpre : insn_decode_addrmode_6809
      { id with bytes_fetched := id.bytes_fetched - 1 } = am_invalid)
    (hval : ¬ insn_decode_addrmode_6809 id = am_invalid) :
    id.bytes_fetched ≤ 1 +
      insn_postbytes_6809.getD
        (Int.toNat (insn_decode_addrmode_6809 id - am6809_first)) 0 +
      (if id.bytes.getD 0 0 = 0x10 ∨ id.bytes.getD 0 0 = 0x11 then 1 else 0) := by
  by_cases hpg : id.bytes.getD 0 0 = 0x10 ∨ id.bytes.getD 0 0 = 0x11
  · rw [if_pos hpg]
    by_cases hf3 : 3 ≤ id.bytes_fetched
    · by_cases hf4 : 4 ≤ id.bytes_fetched
      · have hcg := am6809_fetch_congr id (id.bytes_fetched - 1) id.bytes_fetched
          (by omega) (by omega) (fun h => by omega) (fun h => by omega)
          (fun h => by omega) (fun h => by omega)
        rw [show ({ id with bytes_fetched := id.bytes_fetched } : insn_decode) = id
          from rfl] at hcg
        exact absurd (hcg.symm.trans hpre) hval
      · have hf : id.bytes_fetched = 3 := by omega
        rcases am6809_pg3_cases id hpg hf hpre with hv | hv
        · rcases of_decide_eq_true
            (range_all_out ck_6809_indexed (bytesOK_getD hB 2)) with h | ⟨ha, hb, hc⟩
          · rw [hv] at hval; exact absurd h hval
          · rw [hv]
            omega
        · exact absurd hv hval
    · have hpb : 0 ≤ insn_postbytes_6809.getD
        (Int.toNat (insn_decode_addrmode_6809 id - am6809_first)) 0 := Nat.zero_le _
      omega
  · rw [if_neg hpg]
    by_cases hidx : idx6809 (id.bytes.getD 0 0)
    · by_cases hf3 : 3 ≤ id.bytes_fetched
      · have hprev := am6809_idx_val { id with bytes_fetched := id.bytes_fetched - 1 }
          (by dsimp only; exact hpg) (by dsimp only; exact hidx) (by dsimp only; omega)
        have hnow := am6809_idx_val id hpg hidx hf2
        dsimp only at hprev
        rw [hprev] at hpre
        rw [hnow] at hval
        exact absurd hpre hval
      · have hnow := am6809_idx_val id hpg hidx hf2
        rcases of_decide_eq_true
          (range_all_out ck_6809_indexed (bytesOK_getD hB 1)) with h | ⟨ha, hb, hc⟩
        · rw [hnow] at hval; exact absurd h hval
        · rw [hnow]
          omega
    · have hcg := am6809_noidx_congr id (id.bytes_fetched - 1) id.bytes_fetched
        (by omega) (by omega) hpg hidx
      rw [show ({ id with bytes_fetched := id.bytes_fetched } : insn_decode) = id
        from rfl] at hcg
      exact absurd (hcg.symm.trans hpre) hval
